import Mathlib

/-!
# Verification of the OCR extraction engine

Shallow embedding of the document classification and confidence-scoring
engine (`src/services/extractor.py` and
`src/services/confidence_calculator.py`) of the OCR_Extraction repository,
together with proofs settling the frozen claims about it.

Modelling conventions:
* Python strings are modelled as `List Char` (`Chars`); ASCII semantics are
  used for case conversion and character classes (the engine's regexes and
  keywords are all ASCII).
* Python floats are modelled by exact rationals `ℚ`; `round` is modelled by
  round-half-to-even (`pyRound`) and `int(...)` truncation by `pyTrunc`.
  The concrete inputs evaluated in the theorems below stay away from
  floating-point tie boundaries, where the binary realisation could differ
  from the exact rational by one unit in the last place.
* Python dicts whose key sets are fixed schemas are modelled as association
  lists `List (String × ...)` with an update operation `dictSet` that has
  Python's dict-assignment semantics (replace when present, append when
  absent).
-/

namespace OCRX

abbrev Chars := List Char

/-- `max` on ℤ written with an explicit branch so that kernel reduction
(`decide`) can evaluate it. -/
def maxI (a b : ℤ) : ℤ := if a ≤ b then b else a

def minI (a b : ℤ) : ℤ := if a ≤ b then a else b

def minQ (a b : ℚ) : ℚ := if a ≤ b then a else b

def minN (a b : ℕ) : ℕ := if a ≤ b then a else b

def absI (a : ℤ) : ℤ := if a < 0 then -a else a

/-- ASCII whitespace recognised by Python's `str.strip` / `\s`. -/
def pySpace (c : Char) : Bool :=
  c == ' ' || c == '\t' || c == '\n' || c == '\r' || c == '\x0b' || c == '\x0c'

/-- `str.strip()` on ASCII whitespace. -/
def pyStrip (s : Chars) : Chars :=
  ((s.dropWhile pySpace).reverse.dropWhile pySpace).reverse

def isDigit (c : Char) : Bool := '0' ≤ c && c ≤ '9'
def isUpperAZ (c : Char) : Bool := 'A' ≤ c && c ≤ 'Z'
def isLowerAZ (c : Char) : Bool := 'a' ≤ c && c ≤ 'z'
def isAlphaAZ (c : Char) : Bool := isUpperAZ c || isLowerAZ c
/-- regex `\w` over ASCII. -/
def isWordChar (c : Char) : Bool := isAlphaAZ c || isDigit c || c == '_'

def toUpperC (c : Char) : Char := if isLowerAZ c then Char.ofNat (c.toNat - 32) else c
def toLowerC (c : Char) : Char := if isUpperAZ c then Char.ofNat (c.toNat + 32) else c

/-- `str.upper()` (ASCII). -/
def pyUpper (s : Chars) : Chars := s.map toUpperC
/-- `str.lower()` (ASCII). -/
def pyLower (s : Chars) : Chars := s.map toLowerC

/-- `str.splitlines()` restricted to `\n` / `\r` separators
(a `\r\n` pair yields an empty intermediate segment, which every caller
filters away after stripping). -/
def splitLinesStep (c : Char) (acc : List Chars) : List Chars :=
  if c == '\n' || c == '\r' then [] :: acc
  else match acc with
    | [] => [[c]]
    | l :: ls => (c :: l) :: ls

def splitLines (s : Chars) : List Chars := s.foldr splitLinesStep [[]]

/-- The non-blank stripped lines
(`[ln.strip() for ln in text.splitlines() if ln.strip()]`). -/
def cleanLines (s : Chars) : List Chars :=
  (splitLines s).map pyStrip |>.filter (fun l => !l.isEmpty)

/-- Literal (case-sensitive) prefix match; returns the rest on success. -/
def lit : Chars → Chars → Option Chars
  | [], s => some s
  | _, [] => none
  | p :: ps, c :: cs => if c == p then lit ps cs else none

/-- Case-insensitive literal prefix match. -/
def litCI : Chars → Chars → Option Chars
  | [], s => some s
  | _, [] => none
  | p :: ps, c :: cs => if toLowerC c == toLowerC p then litCI ps cs else none

/-- Longest run of characters satisfying `p`: `(run, rest)`. -/
def spanP (p : Char → Bool) : Chars → Chars × Chars
  | [] => ([], [])
  | c :: cs =>
    if p c then
      let (r, rest) := spanP p cs
      (c :: r, rest)
    else ([], c :: cs)

/-- `pat in s` — substring containment. -/
def containsSub (pat : Chars) : Chars → Bool
  | [] => (lit pat []).isSome
  | c :: cs => (lit pat (c :: cs)).isSome || containsSub pat cs

/-- `pat in s[:n]`. -/
def containsIn (pat : Chars) (n : ℕ) (s : Chars) : Bool :=
  containsSub pat (s.take n)

/-- Generic regex-search driver: try the position matcher `m` (which also
sees the previous character, for `\b` tests) at every position from the
left, like `re.search`. -/
def scanAux (m : Option Char → Chars → Option α) : Option Char → Chars → Option α
  | prev, [] => m prev []
  | prev, c :: cs =>
    match m prev (c :: cs) with
    | some r => some r
    | none => scanAux m (some c) cs

def scan (m : Option Char → Chars → Option α) (s : Chars) : Option α :=
  scanAux m none s

/-- A word boundary `\b` holds before the current position. -/
def bdry : Option Char → Bool
  | none => true
  | some c => !isWordChar c

/-- A word boundary `\b` holds after the match, i.e. the rest does not
start with a word character. -/
def bdryAfter : Chars → Bool
  | [] => true
  | c :: _ => !isWordChar c

/-- Python `round()` to an integer on an exact rational:
round half to even. -/
def pyRound (q : ℚ) : ℤ :=
  let f := q.floor
  let r := q - f
  if r < 1/2 then f
  else if 1/2 < r then f + 1
  else if f % 2 = 0 then f else f + 1

/-- Python `int()` applied to a float: truncation toward zero. -/
def pyTrunc (q : ℚ) : ℤ :=
  if 0 ≤ q then q.floor else -((-q).floor)

/-- Python `round(x, 1)`: round half to even at one decimal. -/
def pyRound1 (q : ℚ) : ℚ := (pyRound (q * 10) : ℚ) / 10

/-- Digit value. -/
def digVal (c : Char) : ℕ := c.toNat - '0'.toNat

/-- Parse a nonempty digit string (single underscores allowed between
digits, as Python's `int`/`float` literals do). Returns the value and the
number of digits consumed, or `none` if the shape is invalid. -/
def parseDigitsU : Chars → Option ℕ
  | [] => none
  | c :: cs =>
    if isDigit c then
      go (digVal c) cs
    else none
where
  go (acc : ℕ) : Chars → Option ℕ
    | [] => some acc
    | c :: cs =>
      if isDigit c then go (acc * 10 + digVal c) cs
      else if c == '_' then
        match cs with
        | c' :: cs' => if isDigit c' then go (acc * 10 + digVal c') cs' else none
        | [] => none
      else none

/-- Python `int(s)` on a string: strip, optional sign, underscored digits. -/
def pyIntParse (s : Chars) : Option ℤ :=
  let t := pyStrip s
  match t with
  | '+' :: rest => (parseDigitsU rest).map (fun n => (n : ℤ))
  | '-' :: rest => (parseDigitsU rest).map (fun n => -(n : ℤ))
  | rest => (parseDigitsU rest).map (fun n => (n : ℤ))

/-- Digits of a run, as value and count (no underscores). -/
def digitsVal : Chars → ℕ × ℕ
  | [] => (0, 0)
  | c :: cs =>
    if isDigit c then
      let (v, n) := digitsVal cs
      -- most significant first: fold from the left instead
      (v + digVal c * 10 ^ n, n + 1)
    else (0, 0)

/-- Python `float(s)` on a string, for finite decimal/scientific literals
(`inf`/`nan` spellings are not produced by this pipeline and are omitted). -/
def pyFloatParse (s : Chars) : Option ℚ :=
  let t := pyStrip s
  match t with
  | '+' :: rest => parseUnsigned rest
  | '-' :: rest => (parseUnsigned rest).map Neg.neg
  | rest => parseUnsigned rest
where
  /-- mantissa `[digits][.digits]` (at least one digit overall) with
  optional exponent. -/
  parseUnsigned (t : Chars) : Option ℚ :=
    let (intPart, rest) := spanP isDigit t
    match rest with
    | '.' :: rest' =>
      let (fracPart, rest'') := spanP isDigit rest'
      if intPart.isEmpty && fracPart.isEmpty then none
      else
        let m : ℚ := ((digitsVal intPart).1 : ℚ) +
          ((digitsVal fracPart).1 : ℚ) / (10 ^ (digitsVal fracPart).2 : ℚ)
        parseExp m rest''
    | _ =>
      if intPart.isEmpty then none
      else parseExp ((digitsVal intPart).1 : ℚ) rest
  parseExp (m : ℚ) : Chars → Option ℚ
    | [] => some m
    | c :: cs =>
      if c == 'e' || c == 'E' then
        match cs with
        | '+' :: cs' => (parseDigitsU cs').map (fun n => m * 10 ^ n)
        | '-' :: cs' => (parseDigitsU cs').map (fun n => m / 10 ^ n)
        | cs' => (parseDigitsU cs').map (fun n => m * 10 ^ n)
      else none

/-- `str.title()` (ASCII): first letter of each alphabetic run uppercased,
the rest lowercased. -/
def pyTitle (s : Chars) : Chars :=
  go false s
where
  go (prevAlpha : Bool) : Chars → Chars
    | [] => []
    | c :: cs =>
      if isAlphaAZ c then
        (if prevAlpha then toLowerC c else toUpperC c) :: go true cs
      else c :: go false cs

/-- Python dict assignment `d[k] = v` on an association list: replace the
first occurrence when the key is present, otherwise append. -/
def dictSet (k : String) (v : α) : List (String × α) → List (String × α)
  | [] => [(k, v)]
  | (k', v') :: rest =>
    if k' = k then (k, v) :: rest else (k', v') :: dictSet k v rest

/-- `d.get(k)`. -/
def dictGet (k : String) : List (String × α) → Option α
  | [] => none
  | (k', v) :: rest => if k' = k then some v else dictGet k rest

/-- `str.split()` with no argument: split on whitespace runs, no empties. -/
def pySplitWS (s : Chars) : List Chars :=
  (s.foldr (fun c acc =>
    if pySpace c then [] :: acc
    else match acc with
      | [] => [[c]]
      | w :: ws => (c :: w) :: ws) [[]]).filter (fun w => !w.isEmpty)

/-- `re.split` on a character class: split at every matching character,
keeping empty segments. -/
def splitOnCharsKeep (p : Char → Bool) (s : Chars) : List Chars :=
  s.foldr (fun c acc =>
    if p c then [] :: acc
    else match acc with
      | [] => [[c]]
      | w :: ws => (c :: w) :: ws) [[]]

/-- Python `str.isupper()` (ASCII): some cased character, and every cased
character uppercase. -/
def pyIsUpper (s : Chars) : Bool :=
  s.any isAlphaAZ && s.all (fun c => !isAlphaAZ c || isUpperAZ c)

/-- Python `str.islower()` (ASCII). -/
def pyIsLower (s : Chars) : Bool :=
  s.any isAlphaAZ && s.all (fun c => !isAlphaAZ c || isLowerAZ c)

/-- regex `(.)\1{4,}` — five or more identical consecutive characters. -/
def hasRun5 (s : Chars) : Bool :=
  match s with
  | [] => false
  | c :: cs => go c 1 cs
where
  go (prev : Char) (n : ℕ) : Chars → Bool
    | [] => n ≥ 5
    | c :: cs => if c == prev then go prev (n + 1) cs else (n ≥ 5 || go c 1 cs)

/-- `\b(w₁|w₂|…)\b` at the current position (case-insensitive literals). -/
def altTokenCI (alts : List Chars) (prev : Option Char) (s : Chars) : Option Chars :=
  if bdry prev then
    alts.findSome? (fun w =>
      match litCI w s with
      | some rest => if bdryAfter rest then some rest else none
      | none => none)
  else none

/-- `re.search(r"\b(w₁|…)\b", s, re.I)` as a Boolean. -/
def hasTokenCI (alts : List Chars) (s : Chars) : Bool :=
  (scan (altTokenCI alts) s).isSome

/-- Case-sensitive variant of `altTokenCI`. -/
def altToken (alts : List Chars) (prev : Option Char) (s : Chars) : Option Chars :=
  if bdry prev then
    alts.findSome? (fun w =>
      match lit w s with
      | some rest => if bdryAfter rest then some rest else none
      | none => none)
  else none

/-- `re.search(r"\b(w₁|…)\b", s)` as a Boolean. -/
def hasToken (alts : List Chars) (s : Chars) : Bool :=
  (scan (altToken alts) s).isSome

def isSepDash (c : Char) : Bool := c == '/' || c == '-'

/-- `\d{1,2}[\/\-]` at the start; returns the rest (no real backtracking is
needed because the digit and separator classes are disjoint). -/
def stripDayMonth : Chars → Option Chars
  | [] => none
  | a :: rest =>
    if isDigit a then
      match rest with
      | [] => none
      | b :: rest' =>
        if isDigit b then
          match rest' with
          | [] => none
          | c :: rest'' => if isSepDash c then some rest'' else none
        else if isSepDash b then some rest' else none
    else none

/-- `\d{4}` at the start; returns the rest. -/
def strip4Digits : Chars → Option Chars
  | a :: b :: c :: d :: rest =>
    if isDigit a && isDigit b && isDigit c && isDigit d then some rest else none
  | _ => none

/-- `re.match(r'\d{1,2}[\/\-]\d{1,2}[\/\-]\d{4}', s)` — anchored prefix test. -/
def dobPrefixShape (s : Chars) : Bool :=
  (((stripDayMonth s).bind stripDayMonth).bind strip4Digits).isSome

/-- `re.fullmatch(r'\d{1,2}[\/\-]\d{1,2}[\/\-]\d{4}', s)`. -/
def dateShapeFull (s : Chars) : Bool :=
  (((stripDayMonth s).bind stripDayMonth).bind strip4Digits) == some []

/-!
## `src/services/confidence_calculator.py`
-/

/-- `FIELD_THRESHOLDS` (confidence_calculator.py lines 11-39). -/
def FIELD_THRESHOLDS : List (String × ℤ) :=
  [("aadhaar_number", 75), ("pan", 75), ("voter_id", 75), ("dl_number", 75),
   ("roll_no", 75),
   ("name", 75), ("student_name", 75), ("dob", 70), ("father_name", 75),
   ("mother_name", 75),
   ("mobile", 80), ("address", 75),
   ("issue_date", 70), ("valid_till", 70), ("year", 75),
   ("gender", 75), ("school_name", 75), ("cgpa", 70)]

/-- `re.fullmatch(r'\d{12}', s)` etc.: all digits with an exact count. -/
def allDigitsLen (lo hi : ℕ) (s : Chars) : Bool :=
  s.all isDigit && lo ≤ s.length && s.length ≤ hi

/-- `value_str.replace(' ', '')`. -/
def removeSpaces (s : Chars) : Chars := s.filter (fun c => c != ' ')

/-- `re.fullmatch(r'[A-Z]{5}[0-9]{4}[A-Z]', s)`. -/
def panStrictShape (s : Chars) : Bool :=
  match s with
  | [a, b, c, d, e, f, g, h, i, j] =>
    isUpperAZ a && isUpperAZ b && isUpperAZ c && isUpperAZ d && isUpperAZ e &&
    isDigit f && isDigit g && isDigit h && isDigit i && isUpperAZ j
  | _ => false

/-- `re.fullmatch(r'[A-Z0-9]{10}', s)`. -/
def panLooseShape (s : Chars) : Bool :=
  s.length == 10 && s.all (fun c => isUpperAZ c || isDigit c)

/-- `re.fullmatch(r'[A-Z]{3,4}[0-9]{6,10}', s)`. -/
def voterStrictShape (s : Chars) : Bool :=
  let (ups, rest) := spanP isUpperAZ s
  (ups.length == 3 || ups.length == 4) && rest.all isDigit &&
    6 ≤ rest.length && rest.length ≤ 10 && !rest.isEmpty

/-- `re.fullmatch(r'[A-Z0-9]{9,15}', s)`. -/
def voterLooseShape (s : Chars) : Bool :=
  s.all (fun c => isUpperAZ c || isDigit c) && 9 ≤ s.length && s.length ≤ 15

def isDigitOrO (c : Char) : Bool := isDigit c || c == 'O'

/-- `re.fullmatch(r'[A-Z]{2}[0-9O]{6,20}', s)`. -/
def dlStrictShape (s : Chars) : Bool :=
  match s with
  | a :: b :: rest =>
    isUpperAZ a && isUpperAZ b && rest.all isDigitOrO &&
      6 ≤ rest.length && rest.length ≤ 20
  | _ => false

/-- `re.search(r'[A-Z]{2}', s)` — two consecutive uppercase letters. -/
def hasTwoUppers : Chars → Bool
  | a :: b :: rest => (isUpperAZ a && isUpperAZ b) || hasTwoUppers (b :: rest)
  | _ => false

/-- `re.search(r'\d{6,}', s)` — six consecutive digits somewhere. -/
def hasSixDigits : Chars → Bool
  | a :: b :: c :: d :: e :: f :: rest =>
    (isDigit a && isDigit b && isDigit c && isDigit d && isDigit e && isDigit f)
      || hasSixDigits (b :: c :: d :: e :: f :: rest)
  | _ => false

/-- `re.fullmatch(r'[6-9]\d{9}', s)`. -/
def mobileStrictShape (s : Chars) : Bool :=
  match s with
  | c :: rest =>
    ('6' ≤ c && c ≤ '9') && rest.all isDigit && rest.length == 9
  | [] => false

/-- `re.fullmatch(r'(19|20)\d{2}', s)`. -/
def yearStrictShape (s : Chars) : Bool :=
  match s with
  | [a, b, c, d] =>
    ((a == '1' && b == '9') || (a == '2' && b == '0')) && isDigit c && isDigit d
  | _ => false

/-- The cast-exception date branch of `calculate_pattern_confidence`
(lines 103-115): parse the `[\/\-]`-split parts as integers and score by
calendar plausibility. -/
def datePatternScore (valueStr : Chars) : ℚ :=
  let parts := splitOnCharsKeep isSepDash valueStr
  match parts with
  | p0 :: p1 :: p2 :: _ =>
    match pyIntParse p0, pyIntParse p1, pyIntParse p2 with
    | some day, some month, some year =>
      if 1 ≤ day ∧ day ≤ 31 ∧ 1 ≤ month ∧ month ≤ 12 ∧ 1900 ≤ year ∧ year ≤ 2100
      then 0.95 else 0.60
    | _, _, _ => 0.50
  | _ => 0.50

def nameNoiseChars : List Char :=
  ['|', '_', '[', ']', Char.ofNat 0x7b, Char.ofNat 0x7d]

/-- Name-field branch of `calculate_pattern_confidence` (lines 125-150). -/
def namePatternScore (valueStr : Chars) : ℚ :=
  if valueStr.length < 3 then 0.30
  else if valueStr.length > 50 then 0.50
  else
    let alphaRatio : ℚ :=
      ((valueStr.filter (fun c => isAlphaAZ c || pySpace c)).length : ℚ) /
        (valueStr.length : ℚ)
    let base : ℚ :=
      if alphaRatio ≥ 0.90 then
        let wordCount := (pySplitWS valueStr).length
        if 2 ≤ wordCount ∧ wordCount ≤ 5 then 0.88
        else if wordCount == 1 then 0.75
        else 0.70
      else if alphaRatio ≥ 0.70 then 0.60
      else 0.35
    let base := if valueStr.any (fun c => nameNoiseChars.contains c)
      then base * 0.75 else base
    if (pySplitWS valueStr).any (fun w => w.length == 1)
      then base * 0.85 else base

/-- Address branch of `calculate_pattern_confidence` (lines 153-170). -/
def addressPatternScore (valueStr : Chars) : ℚ :=
  if valueStr.length < 10 then 0.40
  else if valueStr.length > 200 then 0.55
  else
    let hasLetters := valueStr.any isAlphaAZ
    let hasNumbers := valueStr.any isDigit
    let hasComma := valueStr.contains ','
    if hasLetters && hasNumbers && hasComma then 0.85
    else if hasLetters && (hasNumbers || hasComma) then 0.75
    else if hasLetters then 0.60
    else 0.40

/-- School-name branch (lines 173-182). -/
def schoolPatternScore (valueStr : Chars) : ℚ :=
  if valueStr.length < 5 then 0.40
  else if valueStr.length > 100 then 0.50
  else if hasTokenCI
      ["SCHOOL".data, "COLLEGE".data, "INSTITUTE".data, "ACADEMY".data,
       "UNIVERSITY".data] valueStr
    then 0.90 else 0.65

/-- CGPA branch (lines 185-195). -/
def cgpaPatternScore (valueStr : Chars) : ℚ :=
  match pyFloatParse valueStr with
  | some v =>
    if 0 ≤ v ∧ v ≤ 10 then 0.92
    else if 0 ≤ v ∧ v ≤ 100 then 0.65
    else 0.40
  | none => 0.30

/-- `calculate_pattern_confidence` (confidence_calculator.py lines 42-216);
the 0-1 score before the final `int(round(confidence * 100))`. -/
def patternScoreQ (fieldName : String) (valueStr : Chars) : ℚ :=
  if fieldName = "aadhaar_number" then
    if allDigitsLen 12 12 (removeSpaces valueStr) then 0.98
    else if allDigitsLen 10 14 (removeSpaces valueStr) then 0.75
    else 0.40
  else if fieldName = "pan" then
    if panStrictShape valueStr then 0.98
    else if panLooseShape valueStr then 0.70
    else 0.35
  else if fieldName = "voter_id" then
    if voterStrictShape valueStr then 0.95
    else if voterLooseShape valueStr then 0.65
    else 0.40
  else if fieldName = "dl_number" then
    if dlStrictShape valueStr then 0.95
    else if hasTwoUppers valueStr && hasSixDigits valueStr then 0.75
    else 0.45
  else if fieldName = "mobile" then
    if mobileStrictShape valueStr then 0.97
    else if allDigitsLen 10 10 valueStr then 0.65
    else 0.35
  else if fieldName = "roll_no" then
    if allDigitsLen 7 12 valueStr then 0.92
    else if allDigitsLen 5 15 valueStr then 0.75
    else 0.50
  else if fieldName = "dob" ∨ fieldName = "issue_date" ∨ fieldName = "valid_till" then
    if dateShapeFull valueStr then datePatternScore valueStr
    else 0.40
  else if fieldName = "gender" then
    if ["male".data, "female".data, "transgender".data, "m".data, "f".data].contains
        (pyLower valueStr)
      then 0.99 else 0.50
  else if fieldName = "name" ∨ fieldName = "father_name" ∨ fieldName = "mother_name"
      ∨ fieldName = "student_name" then
    namePatternScore valueStr
  else if fieldName = "address" then
    addressPatternScore valueStr
  else if fieldName = "school_name" then
    schoolPatternScore valueStr
  else if fieldName = "cgpa" then
    cgpaPatternScore valueStr
  else if fieldName = "year" then
    if yearStrictShape valueStr then 0.95
    else if allDigitsLen 4 4 valueStr then 0.65
    else 0.35
  else
    if valueStr.length > 0 then
      if valueStr.length < 2 then 0.40
      else if valueStr.length > 100 then 0.55
      else 0.65
    else 0

/-- `calculate_pattern_confidence` (lines 42-216): `None` or blank values
score 0; otherwise the stripped value is scored and scaled to 0-100. -/
def calculate_pattern_confidence (fieldName : String) (fieldValue : Option String)
    (_documentType : String) : ℤ :=
  match fieldValue with
  | none => 0
  | some v =>
    if (pyStrip v.data).isEmpty then 0
    else pyRound (patternScoreQ fieldName (pyStrip v.data) * 100)

def businessAllowed (c : Char) : Bool :=
  isAlphaAZ c || isDigit c || pySpace c || c == ',' || c == '.' || c == '-' ||
    c == '/' || c == '(' || c == ')'

/-- `calculate_business_rules_confidence` (lines 219-257). -/
def calculate_business_rules_confidence (fieldName : String)
    (fieldValue : Option String) : ℤ :=
  match fieldValue with
  | none => 0
  | some v =>
    if v.isEmpty then 0   -- `if not field_value: return 0`
    else
      let valueStr := pyStrip v.data
      if valueStr.length = 0 then 0
      else
        let score : ℤ := 100
        let score := if valueStr.length = 1 then score - 40
          else if valueStr.length > 200 then score - 30
          else score
        let specials := (valueStr.filter (fun c => !businessAllowed c)).length
        let score := if specials > 0 then score - minI 30 (specials * 5) else score
        let score :=
          if (fieldName = "name" ∨ fieldName = "father_name" ∨
              fieldName = "mother_name" ∨ fieldName = "student_name") ∧
              (pyIsUpper valueStr || pyIsLower valueStr)
          then score - 10 else score
        let score := if hasRun5 valueStr then score - 30 else score
        let score :=
          if (fieldName = "aadhaar_number" ∨ fieldName = "pan" ∨
              fieldName = "mobile" ∨ fieldName = "roll_no") ∧
              !valueStr.any isDigit
          then score - 50 else score
        maxI 0 score

/-- The per-field confidence breakdown dict produced by
`calculate_hybrid_confidence` (lines 329-334). -/
structure Breakdown where
  tesseract_ocr : ℚ
  pattern_match : ℤ
  image_quality : ℚ
  business_rules : ℤ
deriving DecidableEq

structure HybridResult where
  final_confidence : ℤ
  breakdown : Breakdown
deriving DecidableEq

/-- The slice of the `meta` dict consumed by the confidence calculator:
`meta['field_ocr_confidences']['overall_stats']['average']` (lines 291-303).
`none` at the top level models an absent/empty/non-dict `meta`. -/
structure Meta where
  averageOcr : Option ℚ
deriving DecidableEq

/-- `calculate_hybrid_confidence` (lines 259-341). -/
def calculate_hybrid_confidence (fieldName : String) (fieldValue : Option String)
    (documentType : String) (tesseractConf : Option ℚ) (imageQuality : Option ℚ)
    (meta : Option Meta) : HybridResult :=
  let patternConf := calculate_pattern_confidence fieldName fieldValue documentType
  let businessConf := calculate_business_rules_confidence fieldName fieldValue
  let tessConf : ℚ :=
    match meta.bind Meta.averageOcr with
    | some avg => avg
    | none =>
      match tesseractConf with
      | some t => t
      | none => (patternConf : ℚ)
  let imgQuality : ℚ := imageQuality.getD 75
  let finalConfidence : ℤ :=
    pyRound (tessConf * (40 / 100) + (patternConf : ℚ) * (30 / 100) +
      imgQuality * (20 / 100) + (businessConf : ℚ) * (10 / 100))
  { final_confidence := finalConfidence,
    breakdown :=
      { tesseract_ocr := pyRound1 tessConf,
        pattern_match := patternConf,
        image_quality := pyRound1 imgQuality,
        business_rules := businessConf } }

/-- One entry of the dict returned by `validate_cross_fields`. -/
structure CrossFinding where
  valid : Bool
  confidence_adjustment : ℤ
  reason : String
deriving DecidableEq

/-- Truthiness of a field value: present and a nonempty string. -/
def truthy : Option String → Bool
  | none => false
  | some s => !s.isEmpty

/-- `get_value` inside `validate_cross_fields` (lines 360-364), on raw
(pre-annotation) field values. -/
def getValue (fieldName : String) (fields : List (String × Option String)) :
    Option String :=
  (dictGet fieldName fields).join

/-- Python `a or b` over optional strings (empty strings are falsy). -/
def pyOr (a b : Option String) : Option String :=
  if truthy a then a else b

/-- The DOB part of `validate_cross_fields` (lines 366-402): penalty and
reason for a truthy dob value. -/
def dobPenalty (dob : String) : ℤ × String :=
  if dobPrefixShape dob.data then
    let parts := splitOnCharsKeep isSepDash dob.data
    match parts with
    | p0 :: p1 :: p2 :: _ =>
      match pyIntParse p0, pyIntParse p1, pyIntParse p2 with
      | some day, some month, some year =>
        if ¬(1 ≤ day ∧ day ≤ 31) then (40, "Invalid day: " ++ toString day)
        else if ¬(1 ≤ month ∧ month ≤ 12) then (40, "Invalid month: " ++ toString month)
        else if ¬(1900 ≤ year ∧ year ≤ 2024) then (30, "Unrealistic year: " ++ toString year)
        else (0, "")
      | _, _, _ => (50, "Failed to parse date")
    | _ => (50, "Failed to parse date")
  else (50, "Invalid date format")

/-- The DOB part of `validate_cross_fields` (lines 367-402). -/
def dobChunk (fields : List (String × Option String)) :
    List (String × CrossFinding) :=
  match getValue "dob" fields with
  | some d =>
    if d.isEmpty then []
    else
      let (penalty, reason) := dobPenalty d
      [("dob",
        { valid := penalty == 0,
          confidence_adjustment := if penalty > 0 then -penalty else 0,
          reason := if penalty > 0 then reason else "Valid date" })]
  | none => []

/-- The year part of `validate_cross_fields` (lines 404-426). -/
def yearChunk (fields : List (String × Option String)) :
    List (String × CrossFinding) :=
  match getValue "year" fields with
  | some y =>
    if y.isEmpty then []
    else
      match pyIntParse y.data with
      | some yearInt =>
        if 1990 ≤ yearInt ∧ yearInt ≤ 2025 then
          [("year", { valid := true, confidence_adjustment := 0,
                      reason := "Valid year" })]
        else
          [("year", { valid := false, confidence_adjustment := -30,
                      reason := "Unrealistic year: " ++ toString yearInt })]
      | none =>
        [("year", { valid := false, confidence_adjustment := -40,
                    reason := "Year is not numeric" })]
  | none => []

/-- The CGPA part of `validate_cross_fields` (lines 428-450). -/
def cgpaChunk (fields : List (String × Option String)) :
    List (String × CrossFinding) :=
  match getValue "cgpa" fields with
  | some c =>
    if c.isEmpty then []
    else
      match pyFloatParse c.data with
      | some v =>
        if 0 ≤ v ∧ v ≤ 10 then
          [("cgpa", { valid := true, confidence_adjustment := 0,
                      reason := "Valid CGPA" })]
        else
          [("cgpa", { valid := false, confidence_adjustment := -35,
                      reason := "CGPA out of range" })]
      | none =>
        [("cgpa", { valid := false, confidence_adjustment := -30,
                    reason := "CGPA is not numeric" })]
  | none => []

/-- The father-name-vs-name part of `validate_cross_fields`
(lines 452-461). -/
def fatherChunk (fields : List (String × Option String)) :
    List (String × CrossFinding) :=
  let name := pyOr (getValue "name" fields) (getValue "student_name" fields)
  let father := getValue "father_name" fields
  if truthy name ∧ truthy father then
    match name, father with
    | some n, some f =>
      if pyLower (pyStrip n.data) = pyLower (pyStrip f.data) then
        [("father_name",
          { valid := false, confidence_adjustment := -50,
            reason := "Father name same as student name (suspicious)" })]
      else []
    | _, _ => []
  else []

/-- The gender part of `validate_cross_fields` (lines 463-472). -/
def genderChunk (fields : List (String × Option String)) :
    List (String × CrossFinding) :=
  match getValue "gender" fields with
  | some g =>
    if g.isEmpty then []
    else if !(["male".data, "female".data, "transgender".data, "m".data,
               "f".data, "other".data].contains (pyLower (pyStrip g.data))) then
      [("gender", { valid := false, confidence_adjustment := -40,
                    reason := "Invalid gender value: " ++ g })]
    else []
  | none => []

/-- `validate_cross_fields` (lines 343-474): the findings are accumulated
into `validation_results` in source order — dob, year, cgpa,
father-vs-name, gender. -/
def validate_cross_fields (fields : List (String × Option String))
    (_documentType : String) : List (String × CrossFinding) :=
  dobChunk fields ++ yearChunk fields ++ cgpaChunk fields ++
    fatherChunk fields ++ genderChunk fields

/-- The externally visible per-field record built by
`add_confidence_to_fields` (lines 531-538). -/
structure AnnotatedField where
  value : Option String
  confidence : ℤ
  breakdown : Breakdown
  threshold : ℤ
  status : String
  cross_validation : Option CrossFinding
deriving DecidableEq

/-- `add_confidence_to_fields` (lines 476-540). -/
def add_confidence_to_fields (fields : List (String × Option String))
    (documentType : String) (ocrConfidences : Option (List (String × ℚ)))
    (imageQuality : Option ℚ) (meta : Option Meta) :
    List (String × AnnotatedField) :=
  let crossValidation := validate_cross_fields fields documentType
  fields.map (fun (fieldName, fieldValue) =>
    let tessConf := (ocrConfidences.bind (dictGet fieldName))
    let hybridResult := calculate_hybrid_confidence fieldName fieldValue
      documentType tessConf imageQuality meta
    let finalConf := hybridResult.final_confidence
    let crossVal := dictGet fieldName crossValidation
    let adjustment := (crossVal.map CrossFinding.confidence_adjustment).getD 0
    let finalConf := maxI 0 (finalConf + adjustment)
    let threshold := (dictGet fieldName FIELD_THRESHOLDS).getD 80
    let status :=
      if finalConf ≥ threshold then "PASS"
      else if finalConf ≥ threshold - 10 then "REVIEW"
      else "FAIL"
    (fieldName,
     { value := fieldValue, confidence := finalConf,
       breakdown := hybridResult.breakdown, threshold := threshold,
       status := status, cross_validation := crossVal }))

/-- `importance_weights` (lines 550-557). -/
def importance_weights : List (String × ℚ) :=
  [("aadhaar_number", 1.5), ("pan", 1.5), ("voter_id", 1.5), ("dl_number", 1.5),
   ("name", 1.3), ("student_name", 1.3), ("dob", 1.2),
   ("father_name", 1.0), ("mother_name", 0.9),
   ("mobile", 1.0), ("address", 0.9),
   ("issue_date", 0.8), ("valid_till", 0.8), ("year", 0.8),
   ("gender", 0.7), ("school_name", 0.8), ("roll_no", 1.0), ("cgpa", 0.7)]

/-- `value is not None and (not isinstance(value, str) or value.strip())`
(line 569). -/
def truthyStripped : Option String → Bool
  | none => false
  | some s => !(pyStrip s.data).isEmpty

/-- One iteration of the accumulation loop of
`calculate_overall_confidence` (lines 562-572). -/
def overallStep (acc : ℚ × ℚ) (p : String × AnnotatedField) : ℚ × ℚ :=
  if truthyStripped p.2.value then
    let weight := (dictGet p.1 importance_weights).getD 1
    (acc.1 + (p.2.confidence : ℚ) * weight, acc.2 + weight)
  else acc

/-- `calculate_overall_confidence` (lines 542-578). -/
def calculate_overall_confidence
    (annotatedFields : List (String × AnnotatedField)) : ℤ :=
  if annotatedFields.isEmpty then 0
  else
    let acc := annotatedFields.foldl overallStep (0, 0)
    if acc.2 = 0 then 0
    else pyRound (acc.1 / acc.2)

/-- One subject row of a marksheet table (`parse_table_from_lines` /
`parse_table_from_pdf_tables` rows `{'subject': …, 'grade': …, 'marks': …}`). -/
structure TableRow where
  subject : Option String
  grade : String
  marks : String
deriving DecidableEq

/-- The `table_penalty` record written at lines 636-643. -/
structure TablePenalty where
  applied : Bool
  original_confidence : ℤ
  penalized_confidence : ℤ
  penalty_multiplier : String
  table_count : ℕ
  reason : String
deriving DecidableEq

/-- One entry of `metadata["low_confidence_fields"]` (lines 646-655). -/
structure LowConfEntry where
  field : String
  confidence : ℤ
  threshold : ℤ
  status : String
deriving DecidableEq

/-- The `metadata` dict of the returned result. `table_penalty` is an
optional key (absent ↦ `none`). -/
structure Metadata where
  low_confidence_fields : List LowConfEntry
  low_confidence_count : ℕ
  suggest_rescan : Bool
  reviewed : Bool
  processed_at : String
  table_penalty : Option TablePenalty
deriving DecidableEq

/-- The extraction-side result handed to `process_with_confidence`
(built by `process_document` in extractor.py: it always carries the
`document_type`, `fields`, `table` and `meta` keys). -/
structure ExtractionInput where
  document_type : String
  fields : List (String × Option String)
  table : List TableRow
  meta : Option Meta
deriving DecidableEq

/-- The enhanced result returned by `process_with_confidence`. -/
structure EnhancedResult where
  document_type : String
  fields : List (String × AnnotatedField)
  table : List TableRow
  overall_confidence : ℤ
  confidence : ℤ
  metadata : Metadata
deriving DecidableEq

/-- The Marksheet table-penalty computation (lines 611-643): given the
pre-penalty overall confidence and the table row count, the penalized
confidence (`int(conf * factor)` on floats, modelled by exact truncation)
and the `table_penalty` metadata record built in that block. -/
def marksheet_table_penalty (overallConfidence : ℤ) (tableCount : ℕ) :
    ℤ × Option TablePenalty :=
  let originalConf := overallConfidence
  let (penalized, penaltyStr) :=
    if tableCount = 0 then
      (pyTrunc ((overallConfidence : ℚ) * (6 / 10)), some "60% (no subjects)")
    else if tableCount < 3 then
      (pyTrunc ((overallConfidence : ℚ) * (75 / 100)),
       some ("75% (only " ++ toString tableCount ++ " subjects)"))
    else if tableCount < 5 then
      (pyTrunc ((overallConfidence : ℚ) * (9 / 10)),
       some ("90% (only " ++ toString tableCount ++ " subjects)"))
    else (overallConfidence, none)
  match penaltyStr with
  | some penalty =>
    (penalized,
     some { applied := true, original_confidence := originalConf,
            penalized_confidence := penalized, penalty_multiplier := penalty,
            table_count := tableCount,
            reason := "Marksheet has only " ++ toString tableCount ++ " subjects" })
  | none => (penalized, none)

/-- `process_with_confidence` (lines 581-665). `now` models the value of
`datetime.utcnow().isoformat()` read at line 662. Note the source's
sequencing: `enhanced_result["overall_confidence"]` is set (line 607)
*before* the Marksheet penalty updates the local `overall_confidence`
variable, and the final `enhanced_result["metadata"] = {...}` assignment
(line 657) replaces the dict that held `table_penalty`. -/
def process_with_confidence (extractionResult : ExtractionInput)
    (ocrConfidences : Option (List (String × ℚ))) (imageQuality : Option ℚ)
    (now : String) : EnhancedResult :=
  let documentType := extractionResult.document_type
  let fields := extractionResult.fields
  let meta := extractionResult.meta
  let annotatedFields := add_confidence_to_fields fields documentType
    ocrConfidences imageQuality meta
  let overallConfidence := calculate_overall_confidence annotatedFields
  -- lines 605-608: the dict keys are set from the *current* value
  let storedOverall := overallConfidence
  -- lines 611-643: Marksheet penalty updates only the local variable and
  -- a metadata dict that is later overwritten
  let tableCount := extractionResult.table.length
  let (overallConfidence, tablePenaltyRecord) :=
    if documentType = "Marksheet" then
      marksheet_table_penalty overallConfidence tableCount
    else (overallConfidence, none)
  let lowConf := (annotatedFields.filter
      (fun (_, fdata) => fdata.status = "FAIL" ∨ fdata.status = "REVIEW")).map
    (fun (fname, fdata) =>
      { field := fname, confidence := fdata.confidence,
        threshold := fdata.threshold, status := fdata.status : LowConfEntry })
  -- line 657: the metadata dict is replaced wholesale; `tablePenaltyRecord`
  -- is dropped here exactly as in the source
  let _ := tablePenaltyRecord
  { document_type := documentType,
    fields := annotatedFields,
    table := extractionResult.table,
    overall_confidence := storedOverall,
    confidence := storedOverall,
    metadata :=
      { low_confidence_fields := lowConf,
        low_confidence_count := lowConf.length,
        suggest_rescan := overallConfidence < 70 ∨ lowConf.length ≥ 3,
        reviewed := false,
        processed_at := now,
        table_penalty := none } }

/-!
## `src/services/extractor.py` — classification
-/

/-- `\b[A-Z]{5}[0-9]{4}[A-Z]\b` at the current position. -/
def panShapeAt (prev : Option Char) (s : Chars) : Option Unit :=
  if bdry prev then
    match s with
    | a :: b :: c :: d :: e :: f :: g :: h :: i :: j :: rest =>
      if isUpperAZ a && isUpperAZ b && isUpperAZ c && isUpperAZ d && isUpperAZ e &&
         isDigit f && isDigit g && isDigit h && isDigit i && isUpperAZ j &&
         bdryAfter rest
      then some () else none
    | _ => none
  else none

/-- `re.search(r"\b[A-Z]{5}[0-9]{4}[A-Z]\b", txt)`. -/
def panShapeFound (txt : Chars) : Bool := (scan panShapeAt txt).isSome

/-- `\b\d{4}\s*\d{4}\s*\d{4}\b` at the current position (the digit and
whitespace classes are disjoint, so greedy matching needs no backtracking). -/
def aadhaar12At (prev : Option Char) (s : Chars) : Option Unit :=
  if bdry prev then
    match strip4Digits s with
    | some r1 =>
      match strip4Digits (r1.dropWhile pySpace) with
      | some r2 =>
        match strip4Digits (r2.dropWhile pySpace) with
        | some r3 => if bdryAfter r3 then some () else none
        | none => none
      | none => none
    | none => none
  else none

/-- `re.search(r"\b\d{4}\s*\d{4}\s*\d{4}\b", txt)`. -/
def aadhaar12Found (txt : Chars) : Bool := (scan aadhaar12At txt).isSome

/-- `\bFATHER'?S? NAME\b` at the current position. -/
def fatherNameAt (prev : Option Char) (s : Chars) : Option Unit :=
  if bdry prev then
    match lit "FATHER".data s with
    | some r1 =>
      let r2 := match r1 with
        | '\'' :: rest => rest
        | _ => r1
      let r3 := match r2 with
        | 'S' :: rest => rest
        | _ => r2
      match lit " NAME".data r3 with
      | some r4 => if bdryAfter r4 then some () else none
      | none => none
    | none => none
  else none

def fatherNameTokFound (txt : Chars) : Bool := (scan fatherNameAt txt).isSome

def take2Digits : Chars → Option Chars
  | a :: b :: rest => if isDigit a && isDigit b then some rest else none
  | _ => none

/-- `\b\d{2}[\/\-]\d{2}[\/\-]\d{4}\b` at the current position. -/
def dateShape2At (prev : Option Char) (s : Chars) : Option Unit :=
  if bdry prev then
    match take2Digits s with
    | some (c1 :: r1) =>
      if isSepDash c1 then
        match take2Digits r1 with
        | some (c2 :: r2) =>
          if isSepDash c2 then
            match strip4Digits r2 with
            | some r3 => if bdryAfter r3 then some () else none
            | none => none
          else none
        | _ => none
      else none
    | _ => none
  else none

def dateShape2Found (txt : Chars) : Bool := (scan dateShape2At txt).isSome

/-- `\b(S/O|D/O|C/O)\b` at the current position. -/
def soDoCoAt (prev : Option Char) (s : Chars) : Option Unit :=
  if bdry prev then
    match s with
    | a :: '/' :: 'O' :: rest =>
      if (a == 'S' || a == 'D' || a == 'C') && bdryAfter rest then some () else none
    | _ => none
  else none

def soDoCoFound (txt : Chars) : Bool := (scan soDoCoAt txt).isSome

/-- `\b[A-Z]{3,4}[0-9]{6,10}\b` at the current position (letter, digit and
boundary classes make backtracking unnecessary: the whole uppercase run
must be 3 or 4 long and the whole digit run 6-10 long). -/
def voterShapeAt (prev : Option Char) (s : Chars) : Option Unit :=
  if bdry prev then
    let (ups, rest) := spanP isUpperAZ s
    let (digs, rest') := spanP isDigit rest
    if (ups.length == 3 || ups.length == 4) && 6 ≤ digs.length && digs.length ≤ 10
        && bdryAfter rest'
    then some () else none
  else none

def voterShapeFound (txt : Chars) : Bool := (scan voterShapeAt txt).isSome

/-- `\b[A-Z]{2}[0-9O]{6,20}\b` at the current position. -/
def dlShapeAt (prev : Option Char) (s : Chars) : Option Unit :=
  if bdry prev then
    match s with
    | a :: b :: rest =>
      if isUpperAZ a && isUpperAZ b then
        let (run, rest') := spanP isDigitOrO rest
        if 6 ≤ run.length && run.length ≤ 20 && bdryAfter rest' then some ()
        else none
      else none
    | _ => none
  else none

def dlShapeFound (txt : Chars) : Bool := (scan dlShapeAt txt).isSome

/-- `\bVALID\s*(TILL|UPTO)\b` at the current position. -/
def validTillAt (prev : Option Char) (s : Chars) : Option Unit :=
  if bdry prev then
    match lit "VALID".data s with
    | some r1 =>
      let r2 := r1.dropWhile pySpace
      match lit "TILL".data r2 with
      | some r3 => if bdryAfter r3 then some () else none
      | none =>
        match lit "UPTO".data r2 with
        | some r3 => if bdryAfter r3 then some () else none
        | none => none
    | none => none
  else none

def validTillFound (txt : Chars) : Bool := (scan validTillAt txt).isSome

/-- `\bW₁\s*W₂\b` (e.g. `EPIC NO`, `PART NO`, `ROLL NO`) at the position. -/
def twoWordTokAt (w₁ w₂ : Chars) (prev : Option Char) (s : Chars) : Option Unit :=
  if bdry prev then
    match lit w₁ s with
    | some r1 =>
      match lit w₂ (r1.dropWhile pySpace) with
      | some r2 => if bdryAfter r2 then some () else none
      | none => none
    | none => none
  else none

def twoWordTokFound (w₁ w₂ : Chars) (txt : Chars) : Bool :=
  (scan (twoWordTokAt w₁ w₂) txt).isSome

/-- `\b(LMV|MCWG|TRANS)\b`. -/
def lmvTokFound (txt : Chars) : Bool :=
  hasToken ["LMV".data, "MCWG".data, "TRANS".data] txt

/-- `\b(A1|A2|B1|B2|C1|C2|GRADE|CGPA)\b`. -/
def gradeTokFound (txt : Chars) : Bool :=
  hasToken ["A1".data, "A2".data, "B1".data, "B2".data, "C1".data, "C2".data,
            "GRADE".data, "CGPA".data] txt

/-- `\b(SCHOOL|COLLEGE|INSTITUTE)\b`. -/
def schoolTokFound (txt : Chars) : Bool :=
  hasToken ["SCHOOL".data, "COLLEGE".data, "INSTITUTE".data] txt

/-- Result of `classify_document_type_v2`. -/
structure ClassificationV2 where
  document_type : String
  confidence : ℤ
  scores : List (String × ℤ)
deriving DecidableEq

/-- `max(scores, key=scores.get)` over the insertion-ordered score dict:
the first key with the maximal value. -/
def bestOf : List (String × ℤ) → String × ℤ
  | [] => ("Unknown", 0)
  | p :: ps => ps.foldl (fun b x => if x.2 > b.2 then x else b) p

/-- The PAN score of `classify_document_type_v2` (lines 81-94). -/
def panScoreV2 (txt : Chars) : ℤ :=
  (if panShapeFound txt then 50 else 0) +
      (if containsIn "INCOME TAX".data 500 txt then 40 else 0) +
      (if containsIn "PERMANENT ACCOUNT".data 500 txt then 30 else 0) +
      (if containsSub "GOVT. OF INDIA INCOME TAX".data txt then 20 else 0) +
      (if fatherNameTokFound txt then 15 else 0) +
      (if dateShape2Found txt then 10 else 0) -
      (if containsSub "AADHAAR".data txt || containsSub "ELECTION".data txt ||
          containsSub "DRIVING".data txt then 30 else 0) -
      (if containsSub "APPLICATION".data txt || containsIn "FORM".data 300 txt
        then 20 else 0)

/-- The Aadhaar score of `classify_document_type_v2` (lines 96-110). -/
def aadhaarScoreV2 (txt : Chars) : ℤ :=
  (if aadhaar12Found txt then 50 else 0) +
      (if containsIn "UIDAI".data 500 txt then 40 else 0) +
      (if containsSub "AADHAAR".data txt || containsSub "AADHAR".data txt
        then 30 else 0) +
      (if containsSub "UNIQUE IDENTIFICATION".data txt then 25 else 0) +
      (if containsSub "GOVERNMENT OF INDIA".data txt then 20 else 0) +
      (if soDoCoFound txt then 15 else 0) +
      (if containsSub "VID".data txt then 10 else 0) -
      (if containsSub "INCOME TAX".data txt || containsSub "ELECTION".data txt
        then 30 else 0) -
      (if containsSub "ENROLMENT".data txt || containsIn "APPLICATION".data 300 txt
        then 25 else 0)

/-- The Voter-ID score of `classify_document_type_v2` (lines 112-123). -/
def voterScoreV2 (txt : Chars) : ℤ :=
  (if voterShapeFound txt then 50 else 0) +
      (if containsIn "ELECTION COMMISSION".data 500 txt then 40 else 0) +
      (if containsIn "ELECTORAL".data 500 txt then 30 else 0) +
      (if containsSub "ELECTOR".data txt then 25 else 0) +
      (if twoWordTokFound "EPIC".data "NO".data txt then 20 else 0) +
      (if twoWordTokFound "PART".data "NO".data txt then 15 else 0) -
      (if containsSub "AADHAAR".data txt || containsSub "INCOME TAX".data txt ||
          containsSub "DRIVING".data txt then 30 else 0)

/-- The Driving-Licence score of `classify_document_type_v2`
(lines 125-138). -/
def dlScoreV2 (txt : Chars) : ℤ :=
  (if dlShapeFound txt then 50 else 0) +
      (if containsIn "DRIVING LICENCE".data 500 txt ||
          containsIn "DRIVING LICENSE".data 500 txt then 40 else 0) +
      (if containsIn "TRANSPORT".data 500 txt then 30 else 0) +
      (if validTillFound txt then 25 else 0) +
      (if containsSub "MOTOR VEHICLE".data txt then 20 else 0) +
      (if lmvTokFound txt then 15 else 0) -
      (if containsSub "AADHAAR".data txt || containsSub "INCOME TAX".data txt ||
          containsSub "ELECTION".data txt then 30 else 0) -
      (if containsSub "LEARNER".data txt || containsIn "APPLICATION".data 300 txt
        then 25 else 0)

/-- The Marksheet score of `classify_document_type_v2` (lines 140-152). -/
def marksheetScoreV2 (txt : Chars) : ℤ :=
  (if gradeTokFound txt then 50 else 0) +
      (if containsIn "BOARD OF".data 500 txt then 40 else 0) +
      (if containsIn "EXAMINATION".data 500 txt then 35 else 0) +
      (if containsSub "MARKS".data txt then 30 else 0) +
      (if containsSub "MARKSHEET".data txt then 25 else 0) +
      (if schoolTokFound txt then 20 else 0) +
      (if twoWordTokFound "ROLL".data "NO".data txt then 20 else 0) +
      (if containsSub "SUBJECT".data txt then 15 else 0) -
      (if containsSub "SAMPLE PAPER".data txt || containsSub "PRACTICE".data txt
        then 30 else 0)

/-- `classify_document_type_v2` (extractor.py lines 68-206). -/
def classify_document_type_v2 (text : Chars) : ClassificationV2 :=
  if text.isEmpty || (pyStrip text).isEmpty then
    { document_type := "Unknown", confidence := 0, scores := [] }
  else
    let txt := pyUpper text
    let scores : List (String × ℤ) :=
      [("PAN", maxI 0 (panScoreV2 txt)), ("Aadhaar", maxI 0 (aadhaarScoreV2 txt)),
       ("Voter ID", maxI 0 (voterScoreV2 txt)),
       ("Driving Licence", maxI 0 (dlScoreV2 txt)),
       ("Marksheet", maxI 0 (marksheetScoreV2 txt))]
    if scores.all (fun p => p.2 = 0) then
      { document_type := "Unknown", confidence := 0, scores := scores }
    else
      let (bestType, bestScore) := bestOf scores
      let confidence : ℤ :=
        if bestScore ≥ 100 then
          pyTrunc (minQ 95 ((70 : ℚ) + ((bestScore : ℚ) - 70) * (1/2)))
        else if bestScore ≥ 70 then bestScore
        else if bestScore ≥ 50 then
          pyTrunc ((50 : ℚ) + ((bestScore : ℚ) - 50) * (1/2))
        else bestScore
      { document_type := bestType, confidence := confidence, scores := scores }

/-- `classify_document_type` — the old v1 method (lines 211-236). The
source's nested `if` for Aadhaar (shape, then keyword, falling through
when the keyword is absent) is written as a conjunction. -/
def classify_document_type (text : Chars) : String :=
  if text.isEmpty || (pyStrip text).isEmpty then "Unknown"
  else
    let txt := pyUpper text
    if panShapeFound txt then "PAN"
    else if containsSub "INCOME TAX".data txt ||
        containsSub "PERMANENT ACCOUNT".data txt then "PAN"
    else if aadhaar12Found txt &&
        (containsSub "AADHAAR".data txt || containsSub "AADHAR".data txt ||
         containsSub "UNIQUE IDENTIFICATION".data txt ||
         containsSub "UIDAI".data txt) then "Aadhaar"
    else if containsSub "DRIVING LICENCE".data txt ||
        containsSub "DRIVING LICENSE".data txt ||
        containsSub "TRANSPORT AUTHORITY".data txt then "Driving Licence"
    else if containsSub "ELECTION COMMISSION".data txt ||
        containsSub "ELECTOR".data txt || containsSub "EPIC NO".data txt
      then "Voter ID"
    else if containsSub "MARKSHEET".data txt || containsSub "MARKS MEMO".data txt ||
        containsSub "GRADE POINT".data txt || containsSub "CGPA".data txt ||
        containsSub "BOARD OF".data txt then "Marksheet"
    else "Unknown"

/-- `classify_document_smart` (lines 241-259): v2 if confident (≥ 70),
else v1; v2's guess again when v1 says Unknown but v2 scored ≥ 50. -/
def classify_document_smart (text : Chars) : String :=
  let v2Result := classify_document_type_v2 text
  if v2Result.confidence ≥ 70 then v2Result.document_type
  else
    let oldResult := classify_document_type text
    if oldResult = "Unknown" ∧ v2Result.confidence ≥ 50 then
      v2Result.document_type
    else oldResult

/-!
## `src/services/extractor.py` — field extractors

The extractors return Python dicts initialised with their full `None`
schema and updated in place; they are modelled as association lists
(`FieldMap`) updated with `dictSet`. The debug-only `rawdata=True` flag
(never set by `process_document`) which would append a `rawdata` key is
not modelled, and `extract_aadhaar_fields`' unused `yolo_output`
parameter is dropped.
-/

abbrev FieldMap := List (String × Option String)

/-- `[hi, hi-1, …, lo]`, empty when `lo > hi` — candidate repetition
counts of a greedy subpattern, most-preferred first. -/
def countdownFrom (hi lo : ℕ) : List ℕ :=
  (List.range (hi + 1 - lo)).map (fun d => hi - d)

def firstSome (l : List α) (f : α → Option β) : Option β := l.findSome? f

/-- Greedy `[class]*` followed by continuation `k`: the star can only
consume a prefix of the maximal run, preferred longest-first (exact
backtracking semantics for a starred single-character class). -/
def starThen (p : Char → Bool) (k : Chars → Option α) (s : Chars) : Option α :=
  let m := (spanP p s).1.length
  firstSome (countdownFrom m 0) (fun j => k (s.drop j))

/-- Greedy `[class]+` followed by continuation `k`. -/
def plusThen (p : Char → Bool) (k : Chars → Option α) (s : Chars) : Option α :=
  let m := (spanP p s).1.length
  firstSome (countdownFrom m 1) (fun j => k (s.drop j))

/-- Optional single character from a class, greedy. -/
def optChar (p : Char → Bool) (k : Chars → Option α) (s : Chars) : Option α :=
  match s with
  | c :: rest => if p c then (k rest).orElse (fun _ => k (c :: rest)) else k (c :: rest)
  | [] => k []

/-- Optional case-insensitive literal, greedy. -/
def optLitCI (w : Chars) (k : Chars → Option α) (s : Chars) : Option α :=
  match litCI w s with
  | some rest => (k rest).orElse (fun _ => k s)
  | none => k s

/-- Case-insensitive literal replacement of every non-overlapping
occurrence (models `re.sub(pat, '', s, flags=re.IGNORECASE)` for a
pattern with no metacharacters). -/
def replaceAllCI (pat : Chars) (s : Chars) : Chars :=
  go s.length s
where
  go : ℕ → Chars → Chars
    | 0, s => s
    | _ + 1, [] => []
    | fuel + 1, c :: cs =>
      if pat.isEmpty then c :: go fuel cs
      else
        match litCI pat (c :: cs) with
        | some rest => go fuel rest
        | none => c :: go fuel cs

/-- `str.strip(chars)` with an explicit character set. -/
def stripCharset (cs : List Char) (s : Chars) : Chars :=
  ((s.dropWhile (fun c => cs.contains c)).reverse.dropWhile
    (fun c => cs.contains c)).reverse

/-- `.strip()` followed by `re.sub(r'\s+', ' ', ·)` (all call sites
collapse only after stripping, so the result is the space-joined words). -/
def collapseWS (s : Chars) : Chars := List.intercalate [' '] (pySplitWS s)

/-- `normalize_name` (extractor.py lines 328-332). -/
def normalizeName (s : Chars) : Option String :=
  if s.isEmpty then none
  else
    let s1 := collapseWS s
    let s2 := (s1.reverse.dropWhile (fun c => c == ':' || c == '-')).reverse
    some (pyStrip s2).asString

/-- `(\d{4})` at the start: the four digits and the rest. -/
def take4D : Chars → Option (Chars × Chars)
  | a :: b :: c :: d :: rest =>
    if isDigit a && isDigit b && isDigit c && isDigit d then
      some ([a, b, c, d], rest)
    else none
  | _ => none

/-- `\b(\d{4})\s*(\d{4})\s*(\d{4})\b` at the position, returning
`''.join(m.groups())` (extract_aadhaar_fields lines 456-460). -/
def aadhaarNumAt (prev : Option Char) (s : Chars) : Option Chars :=
  if bdry prev then
    match take4D s with
    | some (g1, r1) =>
      match take4D (r1.dropWhile pySpace) with
      | some (g2, r2) =>
        match take4D (r2.dropWhile pySpace) with
        | some (g3, r3) => if bdryAfter r3 then some (g1 ++ g2 ++ g3) else none
        | none => none
      | none => none
    | none => none
  else none

def isSepDMY (c : Char) : Bool := c == '/' || c == '-' || c == '.'

/-- `\d{1,2}` at the start (greedy; the following separator class is
digit-free, so no backtracking is needed): digits taken and the rest. -/
def takeDigits12 : Chars → Option (Chars × Chars)
  | [] => none
  | a :: rest =>
    if isDigit a then
      match rest with
      | b :: rest' => if isDigit b then some ([a, b], rest') else some ([a], rest)
      | [] => some ([a], [])
    else none

/-- `\b(\d{1,2}[\/\-\.]\d{1,2}[\/\-\.]\d{4})\b` at the position,
returning the matched date (extract_aadhaar_fields lines 463-467). -/
def dmyDotAt (prev : Option Char) (s : Chars) : Option Chars :=
  if bdry prev then
    match takeDigits12 s with
    | some (d1, c1 :: r1) =>
      if isSepDMY c1 then
        match takeDigits12 r1 with
        | some (d2, c2 :: r2) =>
          if isSepDMY c2 then
            match take4D r2 with
            | some (d3, r3) =>
              if bdryAfter r3 then some (d1 ++ [c1] ++ d2 ++ [c2] ++ d3) else none
            | none => none
          else none
        | _ => none
      else none
    | _ => none
  else none

/-- `\b(male|female|transgender)\b` (case-insensitive) at the position;
the later `.title()` canonicalises the capture
(extract_aadhaar_fields lines 470-474). -/
def genderWordAt (prev : Option Char) (s : Chars) : Option String :=
  if bdry prev then
    firstSome [("male".data, "Male"), ("female".data, "Female"),
               ("transgender".data, "Transgender")]
      (fun (w, out) =>
        match litCI w s with
        | some rest => if bdryAfter rest then some out else none
        | none => none)
  else none

/-- `(?:^|[^\d])([6-9]\d{9})(?:[^\d]|$)` at the position: a maximal digit
run of exactly ten digits starting 6-9, not preceded by a digit
(extract_aadhaar_fields lines 477-481). -/
def mobileAt (prev : Option Char) (s : Chars) : Option Chars :=
  let prevOk := match prev with
    | none => true
    | some c => !isDigit c
  if prevOk then
    let (digs, _) := spanP isDigit s
    match digs with
    | c :: _ =>
      if digs.length == 10 && '6' ≤ c && c ≤ '9' then some digs else none
    | [] => none
  else none

/-- Pattern 1 of the Aadhaar name block (line 489):
`^([A-Z\s]{5,30})\s+(C/O|D/O|S/O|W/O)[^\w]*([A-Za-z\s]{5,50})$` with
`re.I`, returning groups 1 and 3 (greedy, longest-first backtracking). -/
def aadhaarP1 (line : Chars) : Option (Chars × Chars) :=
  let n := line.length
  firstSome (countdownFrom (minN 30 n) 5) (fun l1 =>
    let g1 := line.take l1
    if g1.all (fun c => isAlphaAZ c || pySpace c) then
      let r1 := line.drop l1
      let sp := (spanP pySpace r1).1.length
      firstSome (countdownFrom sp 1) (fun j =>
        match r1.drop j with
        | a :: '/' :: o :: r3 =>
          if (toLowerC a == 'c' || toLowerC a == 'd' || toLowerC a == 's' ||
              toLowerC a == 'w') && toLowerC o == 'o' then
            let nw := (spanP (fun c => !isWordChar c) r3).1.length
            firstSome (countdownFrom nw 0) (fun k =>
              let g3 := r3.drop k
              if 5 ≤ g3.length ∧ g3.length ≤ 50 ∧
                  g3.all (fun c => isAlphaAZ c || pySpace c)
              then some (g1, g3) else none)
          else none
        | _ => none)
    else none)

/-- `re.sub(r'[^A-Za-z\s]', ' ', ·)` (lines 506-507). -/
def cleanAlphaSpace (s : Chars) : Chars :=
  s.map (fun c => if isAlphaAZ c || pySpace c then c else ' ')

/-- `re.match(r'^[A-Z\s]{5,30}$', s)` — case-sensitive (line 510). -/
def upperSpace530Full (s : Chars) : Bool :=
  s.all (fun c => isUpperAZ c || pySpace c) && 5 ≤ s.length && s.length ≤ 30

/-- `re.search(r'(C/O|D/O|S/O|W/O)', s, re.I)` (line 511). -/
def coTagAt (_prev : Option Char) (s : Chars) : Option Unit :=
  match s with
  | a :: '/' :: o :: _ =>
    if (toLowerC a == 'c' || toLowerC a == 'd' || toLowerC a == 's' ||
        toLowerC a == 'w') && toLowerC o == 'o' then some () else none
  | _ => none

def coTagFound (s : Chars) : Bool := (scan coTagAt s).isSome

/-- `re.search(r'(?:C/O|D/O|S/O|W/O)[^\w]*([A-Za-z\s]{5,50})', line, re.I)`
(line 517), returning group 1. -/
def aadhaarP2FatherAt (_prev : Option Char) (s : Chars) : Option Chars :=
  match s with
  | a :: '/' :: o :: r3 =>
    if (toLowerC a == 'c' || toLowerC a == 'd' || toLowerC a == 's' ||
        toLowerC a == 'w') && toLowerC o == 'o' then
      let nw := (spanP (fun c => !isWordChar c) r3).1.length
      firstSome (countdownFrom nw 0) (fun k =>
        let tail := r3.drop k
        let run := (spanP (fun c => isAlphaAZ c || pySpace c) tail).1
        let g := run.take 50
        if 5 ≤ g.length then some g else none)
    else none
  | _ => none

/-- The name / father-name loop of `extract_aadhaar_fields`
(lines 485-521). -/
def aadhaarNameLoop : List Chars → FieldMap → FieldMap
  | [], fields => fields
  | line :: rest, fields =>
    match aadhaarP1 line with
    | some (g1, g3) =>
      let namePart := collapseWS (pyStrip g1)
      let fatherPart := collapseWS (pyStrip g3)
      let fields := if namePart.length > 3 then
          dictSet "name" (some (pyTitle namePart).asString) fields else fields
      let fields := if fatherPart.length > 3 then
          dictSet "father_name" (some (pyTitle fatherPart).asString) fields
        else fields
      fields
    | none =>
      match rest with
      | next :: _ =>
        let curClean := pyStrip (cleanAlphaSpace line)
        let nextClean := pyStrip (cleanAlphaSpace next)
        if upperSpace530Full curClean && coTagFound nextClean then
          let fields := dictSet "name" (some (pyTitle curClean).asString) fields
          match scan aadhaarP2FatherAt next with
          | some fn =>
            dictSet "father_name"
              (some (pyTitle (collapseWS (pyStrip fn))).asString) fields
          | none => fields
        else aadhaarNameLoop rest fields
      | [] => fields

/-- `re.search(r'\d+[-\/]\d+', line)` (line 535). -/
def numDashNumAt (_prev : Option Char) (s : Chars) : Option Unit :=
  match spanP isDigit s with
  | (d :: ds, c :: r) =>
    if isSepDash c then
      match r with
      | c' :: _ => if isDigit c' then some () else none
      | [] => none
    else let _ := (d, ds); none
  | _ => none

def numDashNumFound (s : Chars) : Bool := (scan numDashNumAt s).isSome

def aadhaarAddressMarkers : List Chars :=
  ["road".data, "street".data, "flat".data, "house".data, "building".data,
   "apartment".data, "near".data, "opposite".data]

/-- `re.sub(r'[^A-Za-z0-9\s,\-\.\/]', ' ', line)` (line 546). -/
def aadhaarAddrAllowed (c : Char) : Bool :=
  isAlphaAZ c || isDigit c || pySpace c || c == ',' || c == '-' || c == '.' ||
    c == '/'

/-- One cleaned address line of the first pass (lines 546-555). -/
def aadhaarCleanAddrLine (name father : Option String) (line : Chars) : Chars :=
  let cl := collapseWS (pyStrip
    (line.map (fun c => if aadhaarAddrAllowed c then c else ' ')))
  let cl := match name with
    | some n => replaceAllCI n.data cl
    | none => cl
  let cl := match father with
    | some f => replaceAllCI f.data cl
    | none => cl
  stripCharset [' ', ',', '.', '-'] cl

/-- First address pass of `extract_aadhaar_fields` (lines 524-558). -/
def aadhaarAddrPass1 (name father : Option String) :
    List Chars → Bool → List Chars → List Chars
  | [], _, acc => acc
  | line :: rest, started, acc =>
    let lineLower := pyLower line
    let started := started ||
      aadhaarAddressMarkers.any (fun m => containsSub m lineLower) ||
      numDashNumFound line ||
      containsSub "flat no".data lineLower ||
      containsSub "house no".data lineLower ||
      containsSub "building".data lineLower
    if started &&
        (hasTokenCI ["VTC".data, "PO".data, "District".data, "State".data,
                     "PIN".data, "Mobile".data, "Aadhaar".data, "VID".data] line ||
         containsSub "government".data lineLower ||
         containsSub "unique identification".data lineLower) then acc
    else
      let acc :=
        if started then
          let cl := aadhaarCleanAddrLine name father line
          if cl.length > 5 && !acc.contains cl then acc ++ [cl] else acc
        else acc
      aadhaarAddrPass1 name father rest started acc

/-- The `name_index` / `vtc_index` search of the fallback address pass
(lines 562-570): last line containing the name, first line with `\bVTC\b`
(the loop breaks there). -/
def aadhaarFindNameVtc (name : Option String) :
    List Chars → ℕ → Option ℕ → Option ℕ × Option ℕ
  | [], _, nameIdx => (nameIdx, none)
  | line :: rest, i, nameIdx =>
    let nameIdx :=
      match name with
      | some n =>
        if !n.isEmpty && containsSub (pyUpper n.data) (pyUpper line) then some i
        else nameIdx
      | none => nameIdx
    if hasTokenCI ["VTC".data] line then (nameIdx, some i)
    else aadhaarFindNameVtc name rest (i + 1) nameIdx

/-- Fallback address pass (lines 561-583): collect cleaned lines strictly
between the name line and the VTC line. -/
def aadhaarAddrFallback (name father : Option String) (lines : List Chars) :
    List Chars :=
  match aadhaarFindNameVtc name lines 0 none with
  | (some nameIndex, some vtcIndex) =>
    ((List.range lines.length).filter
        (fun i => nameIndex + 1 ≤ i ∧ i < vtcIndex)).foldl
      (fun acc i =>
        let line := lines.getD i []
        let lineClean := collapseWS (pyStrip
          (line.map (fun c => if aadhaarAddrAllowed c then c else ' ')))
        let containsName := match name with
          | some n => !n.isEmpty &&
              containsSub (pyUpper n.data) (pyUpper lineClean)
          | none => false
        let containsFather := match father with
          | some f => !f.isEmpty &&
              containsSub (pyUpper f.data) (pyUpper lineClean)
          | none => false
        if containsName || containsFather then acc
        else if lineClean.length > 5 && !acc.contains lineClean then
          acc ++ [lineClean]
        else acc) []
  | _ => []

def aadhaarSchema : FieldMap :=
  [("aadhaar_number", none), ("name", none), ("dob", none), ("gender", none),
   ("father_name", none), ("address", none), ("mobile", none)]

/-- `extract_aadhaar_fields` (extractor.py lines 427-588). -/
def extract_aadhaar_fields (text : Chars) : FieldMap :=
  let fields := aadhaarSchema
  let lines := cleanLines text
  if lines.isEmpty then fields
  else
    let fields := match lines.findSome? (fun line => scan aadhaarNumAt line) with
      | some num => dictSet "aadhaar_number" (some num.asString) fields
      | none => fields
    let fields := match lines.findSome? (fun line => scan dmyDotAt line) with
      | some d => dictSet "dob" (some d.asString) fields
      | none => fields
    let fields := match lines.findSome? (fun line => scan genderWordAt line) with
      | some g => dictSet "gender" (some g) fields
      | none => fields
    let fields := match lines.findSome? (fun line => scan mobileAt line) with
      | some m => dictSet "mobile" (some m.asString) fields
      | none => fields
    let fields := aadhaarNameLoop lines fields
    let name := (dictGet "name" fields).join
    let father := (dictGet "father_name" fields).join
    let addressLines := aadhaarAddrPass1 name father lines false []
    let addressLines :=
      if addressLines.isEmpty then aadhaarAddrFallback name father lines
      else addressLines
    if !addressLines.isEmpty then
      dictSet "address" (some (List.intercalate ", ".data addressLines).asString)
        fields
    else fields

/-- One YOLO crop: its bounding box and (optional) recognised text;
`text = none` models a crop dict without a `'text'` key. -/
structure YoloBox where
  box : ℤ × ℤ × ℤ × ℤ
  text : Option String
deriving DecidableEq

/-- `get_right_text` (extractor.py lines 313-326). -/
def get_right_text (box : YoloBox) (boxes : List YoloBox) : Option String :=
  let x1 := box.box.1
  let y1 := box.box.2.1
  let rightTexts := boxes.filterMap (fun other =>
    match other.text with
    | some t =>
      let ox1 := other.box.1
      let oy1 := other.box.2.1
      if ox1 > x1 ∧ absI (oy1 - y1) < 40 then some (ox1, t) else none
    | none => none)
  let sorted := rightTexts.mergeSort (fun a b => a.1 ≤ b.1)
  match sorted with
  | (_, val) :: _ =>
    if val.isEmpty then none
    else some (pyStrip (stripCharset
      [' ', '\t', '\n', '\r', '\x0b', '\x0c', ',', '.', ':', ';', '_', '-']
      val.data)).asString
  | [] => none

/-- The YOLO label-box loop of `extract_voter_fields` (lines 602-616). -/
def voterBoxLoop (boxes : List YoloBox) (fields : FieldMap) : FieldMap :=
  boxes.foldl (fun fields box =>
    let txt := pyLower (box.text.getD "").data
    if txt.isEmpty then fields
    else if containsSub "name".data txt && !containsSub "father".data txt &&
        !containsSub "husband".data txt then
      dictSet "name" (pyOr (getValue "name" fields) (get_right_text box boxes)) fields
    else if containsSub "father".data txt then
      dictSet "father_name"
        (pyOr (getValue "father_name" fields) (get_right_text box boxes)) fields
    else if containsSub "husband".data txt then
      dictSet "husband_name"
        (pyOr (getValue "husband_name" fields) (get_right_text box boxes)) fields
    else if containsSub "birth".data txt then
      dictSet "dob" (pyOr (getValue "dob" fields) (get_right_text box boxes)) fields
    else if containsSub "gender".data txt then
      dictSet "gender" (pyOr (getValue "gender" fields) (get_right_text box boxes))
        fields
    else if containsSub "epic no".data txt ||
        (containsSub "epic".data txt && containsSub "no".data txt) then
      dictSet "voter_id" (pyOr (getValue "voter_id" fields) (get_right_text box boxes))
        fields
    else fields) fields

/-- `\b([A-Z]{3,4}[0-9]{6,10})\b` at the position, with the capture. -/
def voterShapeCapAt (prev : Option Char) (s : Chars) : Option Chars :=
  if bdry prev then
    let (ups, rest) := spanP isUpperAZ s
    let (digs, rest') := spanP isDigit rest
    if (ups.length == 3 || ups.length == 4) && 6 ≤ digs.length &&
        digs.length ≤ 10 && bdryAfter rest'
    then some (ups ++ digs) else none
  else none

/-- `Epic no\.?\s*[:\-]?\s*([A-Z0-9]{6,20})` (re.I) at the position. -/
def epicNoCapAt (_prev : Option Char) (s : Chars) : Option Chars :=
  match litCI "epic no".data s with
  | some r1 =>
    optChar (· == '.') (starThen pySpace (optChar (fun c => c == ':' || c == '-')
      (starThen pySpace (fun r5 =>
        let run := (spanP (fun c => isAlphaAZ c || isDigit c) r5).1
        let g := run.take 20
        if 6 ≤ g.length then some g else none)))) r1
  | none => none

/-- `Name[ ,:\/\-]*([A-Za-z .'-]+)` (re.I) at the position. -/
def voterNameAt (_prev : Option Char) (s : Chars) : Option Chars :=
  match litCI "name".data s with
  | some r1 =>
    starThen (fun c => c == ' ' || c == ',' || c == ':' || c == '/' || c == '-')
      (fun r2 =>
        let run := (spanP (fun c => isAlphaAZ c || c == ' ' || c == '.' ||
          c == '\'' || c == '-') r2).1
        if run.isEmpty then none else some run) r1
  | none => none

/-- `Father'?s Name\s*[:;+\-_]*\s*([A-Za-z .'-]+)` (re.I) at the position. -/
def voterFatherAt (_prev : Option Char) (s : Chars) : Option Chars :=
  match litCI "father".data s with
  | some r1 =>
    optChar (· == '\'') (fun r2 =>
      match litCI "s name".data r2 with
      | some r3 =>
        starThen pySpace (starThen (fun c => c == ':' || c == ';' || c == '+' ||
            c == '-' || c == '_') (starThen pySpace (fun r6 =>
          let run := (spanP (fun c => isAlphaAZ c || c == ' ' || c == '.' ||
            c == '\'' || c == '-') r6).1
          if run.isEmpty then none else some run))) r3
      | none => none) r1
  | none => none

/-- The father-name line loop of the voter regex fallback
(lines 632-638); returns the normalised value on the first line whose
word filter is nonempty. -/
def voterFatherLoop : List Chars → Option (Option String)
  | [] => none
  | ln :: rest =>
    match scan voterFatherAt ln with
    | some g =>
      let ws := (pySplitWS g).filter
        (fun w => !w.isEmpty && w.all isAlphaAZ && w.length > 1)
      if !ws.isEmpty then
        some (normalizeName (List.intercalate [' '] (ws.take 3)))
      else voterFatherLoop rest
    | none => voterFatherLoop rest

def take2DCap : Chars → Option (Chars × Chars)
  | a :: b :: rest => if isDigit a && isDigit b then some ([a, b], rest) else none
  | _ => none

/-- `([0-9]{2}[-\/][0-9]{2}[-\/][0-9]{4})` at the position (no word
boundaries), with the capture and the rest. -/
def date2244Cap (s : Chars) : Option (Chars × Chars) :=
  match take2DCap s with
  | some (d1, c1 :: r1) =>
    if isSepDash c1 then
      match take2DCap r1 with
      | some (d2, c2 :: r2) =>
        if isSepDash c2 then
          match take4D r2 with
          | some (d3, r3) => some (d1 ++ [c1] ++ d2 ++ [c2] ++ d3, r3)
          | none => none
        else none
      | _ => none
    else none
  | _ => none

def date2244At (_prev : Option Char) (s : Chars) : Option Chars :=
  (date2244Cap s).map (·.1)

/-- `Date of Birth[ \/:]*(dd[-\/]dd[-\/]dddd)` (re.I) at the position. -/
def voterDobLabeledAt (_prev : Option Char) (s : Chars) : Option Chars :=
  match litCI "date of birth".data s with
  | some r1 =>
    starThen (fun c => c == ' ' || c == '/' || c == ':')
      (fun r2 => (date2244Cap r2).map (·.1)) r1
  | none => none

/-- `(Sex|Gender)\s*[:;+\-_]*\s*(Male|Female|Other)` (re.I); the caller
applies `.capitalize()`, so the output is canonical. -/
def voterGenderAt (_prev : Option Char) (s : Chars) : Option String :=
  match (litCI "sex".data s).orElse (fun _ => litCI "gender".data s) with
  | some r1 =>
    starThen pySpace (starThen (fun c => c == ':' || c == ';' || c == '+' ||
        c == '-' || c == '_') (starThen pySpace (fun r4 =>
      firstSome [("male".data, "Male"), ("female".data, "Female"),
                 ("other".data, "Other")]
        (fun (w, out) => (litCI w r4).map (fun _ => out))))) r1
  | none => none

def voterSchema : FieldMap :=
  [("voter_id", none), ("name", none), ("father_name", none),
   ("husband_name", none), ("dob", none), ("gender", none)]

/-- The regex-fallback part of `extract_voter_fields` (lines 623-651). -/
def voterRegexPath (text : Chars) (fields : FieldMap) : FieldMap :=
  let lines := cleanLines text
  let fields :=
    match (scan voterShapeCapAt text).orElse (fun _ => scan epicNoCapAt text) with
    | some v => dictSet "voter_id" (some v.asString) fields
    | none => fields
  let fields := match scan voterNameAt text with
    | some g => dictSet "name" (normalizeName g) fields
    | none => fields
  let fields := match voterFatherLoop lines with
    | some fn => dictSet "father_name" fn fields
    | none => fields
  let fields :=
    match (scan voterDobLabeledAt text).orElse (fun _ => scan date2244At text) with
    | some d => dictSet "dob" (some d.asString) fields
    | none => fields
  let fields := match scan voterGenderAt text with
    | some g => dictSet "gender" (some g) fields
    | none => fields
  fields

/-- `extract_voter_fields` (extractor.py lines 590-651). `yoloOutput` is
the list of per-page `crops` lists (`none` models `yolo_output=None`). -/
def extract_voter_fields (text : Chars)
    (yoloOutput : Option (List (List YoloBox))) : FieldMap :=
  let fields := voterSchema
  match yoloOutput with
  | some pages =>
    let yoloBoxes := pages.foldl (fun acc p => acc ++ p) []
    if !yoloBoxes.isEmpty then
      let fields := voterBoxLoop yoloBoxes fields
      if fields.any (fun p => truthy p.2) then fields
      else voterRegexPath text fields
    else voterRegexPath text fields
  | none => voterRegexPath text fields

/-- `\b([A-Z]{2}[0O]?\d{6,20})\b` at the position, with the capture
(extract_dl_fields line 662); the optional `[0O]` is greedy. -/
def dlNumLineAt (prev : Option Char) (s : Chars) : Option Chars :=
  if bdry prev then
    match s with
    | a :: b :: r =>
      if isUpperAZ a && isUpperAZ b then
        let withOpt : Option Chars :=
          match r with
          | o :: r' =>
            if o == '0' || o == 'O' then
              let (digs, rest') := spanP isDigit r'
              if 6 ≤ digs.length && digs.length ≤ 20 && bdryAfter rest' then
                some ([a, b, o] ++ digs)
              else none
            else none
          | [] => none
        withOpt.orElse (fun _ =>
          let (digs, rest') := spanP isDigit r
          if 6 ≤ digs.length && digs.length ≤ 20 && bdryAfter rest' then
            some ([a, b] ++ digs)
          else none)
      else none
    | _ => none
  else none

/-- like `starThen` but passing the consumed star length on. -/
def starThenLen (p : Char → Bool) (k : ℕ → Chars → Option α) (s : Chars) :
    Option α :=
  let m := (spanP p s).1.length
  firstSome (countdownFrom m 0) (fun j => k j (s.drop j))

/-- `\s*\d[\d\s]{5,20}\b` at `r`, returning the consumed length
(for the fallback DL-number pattern, line 667). -/
def dlFallbackCore (r : Chars) : Option ℕ :=
  starThenLen pySpace (fun j r1 =>
    match r1 with
    | c :: r2 =>
      if isDigit c then
        let run := (spanP (fun ch => isDigit ch || pySpace ch) r2).1.length
        firstSome (countdownFrom (minN 20 run) 5) (fun k =>
          if bdryAfter (r2.drop k) then some (j + 1 + k) else none)
      else none
    | [] => none) r

/-- `\b([A-Z]{2}[0O]?\s*\d[\d\s]{5,20})\b` at the position, with the
capture (line 667). -/
def dlFallbackAt (prev : Option Char) (s : Chars) : Option Chars :=
  if bdry prev then
    match s with
    | a :: b :: r =>
      if isUpperAZ a && isUpperAZ b then
        let withOpt : Option Chars :=
          match r with
          | o :: r' =>
            if o == '0' || o == 'O' then
              (dlFallbackCore r').map (fun n => s.take (3 + n))
            else none
          | [] => none
        withOpt.orElse (fun _ => (dlFallbackCore r).map (fun n => s.take (2 + n)))
      else none
    | _ => none
  else none

/-- `Name\s*[:\-]?\s*(.+)` (re.I) at the position (lines 673, 805). -/
def nameAfterLabelAt (_prev : Option Char) (s : Chars) : Option Chars :=
  match litCI "name".data s with
  | some r1 =>
    starThen pySpace (optChar (fun c => c == ':' || c == '-')
      (starThen pySpace (fun r4 => if r4.isEmpty then none else some r4))) r1
  | none => none

/-- One non-overlapping `re.sub(r"Holder.?s Signature", "", ·, re.I)`
match at the head: `Holder`, an optional arbitrary character, then
`s Signature`. -/
def holderSigMatch (s : Chars) : Option Chars :=
  match litCI "holder".data s with
  | some r1 =>
    (match r1 with
     | _ :: r2 => litCI "s signature".data r2
     | [] => none).orElse (fun _ => litCI "s signature".data r1)
  | none => none

def replaceHolderSig (s : Chars) : Chars :=
  go s.length s
where
  go : ℕ → Chars → Chars
    | 0, s => s
    | _ + 1, [] => []
    | fuel + 1, c :: cs =>
      match holderSigMatch (c :: cs) with
      | some rest => go fuel rest
      | none => c :: go fuel cs

/-- The name line loop of `extract_dl_fields` (lines 671-676). -/
def dlNameLoop : List Chars → Option (Option String)
  | [] => none
  | ln :: rest =>
    if hasTokenCI ["NAME".data] ln then
      match scan nameAfterLabelAt ln with
      | some g => some (normalizeName (replaceHolderSig g))
      | none => dlNameLoop rest
    else dlNameLoop rest

/-- `\b(S/O|D/O|W/O|FATHER)\b` (re.I) at the position (line 680). -/
def dlFatherTokAt (prev : Option Char) (s : Chars) : Option Unit :=
  if bdry prev then
    (match s with
     | a :: '/' :: o :: r =>
       if (toLowerC a == 's' || toLowerC a == 'd' || toLowerC a == 'w') &&
           toLowerC o == 'o' && bdryAfter r then some () else none
     | _ => none).orElse (fun _ =>
      match litCI "father".data s with
      | some r => if bdryAfter r then some () else none
      | none => none)
  else none

/-- `(?:S/O|D/O|W/O|FATHER['’]S NAME)[:\-]?\s*(.+)` (re.I) at the
position (line 681). -/
def dlFatherInnerAt (_prev : Option Char) (s : Chars) : Option Chars :=
  let afterAlt : Option Chars :=
    (match s with
     | a :: '/' :: o :: r =>
       if (toLowerC a == 's' || toLowerC a == 'd' || toLowerC a == 'w') &&
           toLowerC o == 'o' then some r else none
     | _ => none).orElse (fun _ =>
      match litCI "father".data s with
      | some r1 =>
        match r1 with
        | q :: r2 =>
          if q == '\'' || q == '’' then litCI "s name".data r2 else none
        | [] => none
      | none => none)
  afterAlt.bind (optChar (fun c => c == ':' || c == '-')
    (starThen pySpace (fun r => if r.isEmpty then none else some r)))

/-- The father line loop of `extract_dl_fields` (lines 679-684). -/
def dlFatherLoop : List Chars → Option (Option String)
  | [] => none
  | ln :: rest =>
    if (scan dlFatherTokAt ln).isSome then
      match scan dlFatherInnerAt ln with
      | some g => some (normalizeName g)
      | none => dlFatherLoop rest
    else dlFatherLoop rest

/-- The end position of the last case-insensitive occurrence of `pat`. -/
def lastLitCIEnd (pat : Chars) (s : Chars) : Option ℕ :=
  go s 0 none
where
  go : Chars → ℕ → Option ℕ → Option ℕ
    | [], _, acc => acc
    | c :: cs, i, acc =>
      let acc := if (litCI pat (c :: cs)).isSome then some (i + pat.length) else acc
      go cs (i + 1) acc

/-- `re.sub(r".*ADDRESS\s*[:\-]?\s*", "", ln, flags=re.I)` (line 692): the
greedy `.*` reaches the last `ADDRESS`, then spaces / an optional
colon-dash / spaces are consumed. -/
def dlAddrSub (ln : Chars) : Chars :=
  match lastLitCIEnd "address".data ln with
  | some e =>
    let r := (ln.drop e).dropWhile pySpace
    let r := match r with
      | c :: rest => if c == ':' || c == '-' then rest else r
      | [] => r
    r.dropWhile pySpace
  | none => ln

/-- The address block of `extract_dl_fields` (lines 687-701): the first
line containing `ADDRESS` contributes its remainder, and — the lines
having already been filtered to be non-blank — every following line is
appended. -/
def dlAddressBlock : List Chars → Option String
  | [] => none
  | ln :: rest =>
    if containsSub "ADDRESS".data (pyUpper ln) then
      let part := pyStrip (dlAddrSub ln)
      let addrLines := (if part.isEmpty then [] else [part]) ++ rest
      if addrLines.isEmpty then none
      else some (List.intercalate ", ".data addrLines).asString
    else dlAddressBlock rest

/-- `re.findall(r"(\d{2}[\/\-]\d{2}[\/\-]\d{4})", text)`: all
non-overlapping matches, left to right (line 704). -/
def findAllDates (s : Chars) : List Chars :=
  go s.length s
where
  go : ℕ → Chars → List Chars
    | 0, _ => []
    | _ + 1, [] => []
    | fuel + 1, c :: cs =>
      match date2244Cap (c :: cs) with
      | some (cap, rest) => cap :: go fuel rest
      | none => go fuel cs

/-- `sorted(set(all_dates), key=all_dates.index)` — deduplication keeping
first-occurrence order (line 705). -/
def dedupKeepOrder (l : List Chars) : List Chars :=
  go l []
where
  go : List Chars → List Chars → List Chars
    | [], _ => []
    | x :: xs, seen =>
      if seen.contains x then go xs seen else x :: go xs (x :: seen)

/-- `{label}[\s:]*(\d{2}[\/\-]\d{2}[\/\-]\d{4})` (re.I) at the position,
for an alternation of literal labels (line 710). -/
def dlLabeledDateAt (labels : List Chars) (_prev : Option Char) (s : Chars) :
    Option Chars :=
  match firstSome labels (fun lab => litCI lab s) with
  | some r =>
    starThen (fun c => pySpace c || c == ':')
      (fun r' => (date2244Cap r').map (·.1)) r
  | none => none

def dlSchema : FieldMap :=
  [("dl_number", none), ("name", none), ("dob", none), ("issue_date", none),
   ("valid_till", none), ("father_name", none), ("address", none)]

/-- The DL-number part of `extract_dl_fields` (extractor.py
lines 659-669): the per-line strict pattern, then the spaced fallback on
the joined lines when nothing was found. -/
def dlNumPass (lines : List Chars) (fields : FieldMap) : FieldMap :=
  let fields :=
    match lines.findSome? (fun ln => scan dlNumLineAt (removeSpaces ln)) with
    | some num => dictSet "dl_number" (some num.asString) fields
    | none => fields
  if !truthy (getValue "dl_number" fields) then
    match scan dlFallbackAt (List.intercalate [' '] lines) with
    | some cap => dictSet "dl_number" (some (removeSpaces cap).asString) fields
    | none => fields
  else fields

/-- The name / father-name / address part of `extract_dl_fields`
(lines 671-689). -/
def dlNamePass (lines : List Chars) (fields : FieldMap) : FieldMap :=
  let fields := match dlNameLoop lines with
    | some n => dictSet "name" n fields
    | none => fields
  let fields := match dlFatherLoop lines with
    | some fn => dictSet "father_name" fn fields
    | none => fields
  match dlAddressBlock lines with
  | some addr => dictSet "address" (some addr) fields
  | none => fields

/-- The date part of `extract_dl_fields` (lines 691-719): the labelled
dob / issue / validity dates, then positional fallbacks from the
remaining unlabelled dates. -/
def dlDatePass (text : Chars) (fields0 : FieldMap) : FieldMap :=
  let uniqueDates := dedupKeepOrder (findAllDates text)
  let (fields, uniqueDates) :=
    [( ["Date of Birth".data, "DOB".data], "dob"),
     (["Issue Date".data, "Date of First Issue".data], "issue_date"),
     (["Validity".data, "Valid Till".data], "valid_till")].foldl
      (fun (acc : FieldMap × List Chars) (entry : List Chars × String) =>
        let (fields, ud) := acc
        let (labels, fieldName) := entry
        match scan (dlLabeledDateAt labels) text with
        | some d => (dictSet fieldName (some d.asString) fields, ud.erase d)
        | none => (fields, ud))
      (fields0, uniqueDates)
  let (fields, uniqueDates) :=
    if !truthy (getValue "issue_date" fields) then
      match uniqueDates with
      | d :: rest => (dictSet "issue_date" (some d.asString) fields, rest)
      | [] => (fields, uniqueDates)
    else (fields, uniqueDates)
  let fields :=
    if !truthy (getValue "valid_till" fields) then
      match uniqueDates with
      | d :: _ => dictSet "valid_till" (some d.asString) fields
      | [] => fields
    else fields
  fields

/-- `extract_dl_fields` (extractor.py lines 653-721). -/
def extract_dl_fields (text : Chars) : FieldMap :=
  let fields := dlSchema
  if text.isEmpty then fields
  else
    let lines := cleanLines text
    dlDatePass text (dlNamePass lines (dlNumPass lines fields))

/-- `\bROLL\s*(?:NO)?\.?\s*[:\-—–]?\s*([0-9]{7,12})\b` (re.I) at the
position, with the capture (extract_marksheet_fields line 744). -/
def rollNumAt (prev : Option Char) (s : Chars) : Option Chars :=
  if bdry prev then
    match litCI "roll".data s with
    | some r1 =>
      starThen pySpace (optLitCI "no".data (optChar (· == '.')
        (starThen pySpace (optChar (fun c => c == ':' || c == '-' || c == '—' ||
            c == '–')
          (starThen pySpace (fun r7 =>
            let (digs, rest) := spanP isDigit r7
            if 7 ≤ digs.length && digs.length ≤ 12 && bdryAfter rest then
              some digs
            else none)))))) r1
    | none => none
  else none

/-- The roll-number line loop (lines 742-749): the digit capture can
never contain `/`, so the source's `"/" not in m.group(1)` guard always
holds; when the labelled capture fails, a following all-digit line of
7-12 characters is used. -/
def marksheetRollLoop : List Chars → Option String
  | [] => none
  | ln :: rest =>
    if hasTokenCI ["ROLL".data] ln then
      match scan rollNumAt ln with
      | some digs => some digs.asString
      | none =>
        match rest with
        | next :: _ =>
          if next.all isDigit && 7 ≤ next.length && next.length ≤ 12 then
            some next.asString
          else marksheetRollLoop rest
        | [] => marksheetRollLoop rest
    else marksheetRollLoop rest

/-- `[0-3]?\d` (or `[01]?\d` etc.) at the start: the optional first digit
is bounded by `hi`; greedy (two digits preferred). -/
def takeDM (hi : Char) : Chars → Option (Chars × Chars)
  | [] => none
  | a :: rest =>
    if isDigit a then
      if a ≤ hi then
        match rest with
        | b :: r' => if isDigit b then some ([a, b], r') else some ([a], rest)
        | [] => some ([a], [])
      else some ([a], rest)
    else none

/-- `([0-3]?\d[\/\-.][01]?\d[\/\-.]\d{4})` at the start, with capture and
rest (marksheet DOB shape, lines 753-754). -/
def dmy03Cap (s : Chars) : Option (Chars × Chars) :=
  match takeDM '3' s with
  | some (d1, c1 :: r1) =>
    if isSepDMY c1 then
      match takeDM '1' r1 with
      | some (d2, c2 :: r2) =>
        if isSepDMY c2 then
          match take4D r2 with
          | some (d3, r3) => some (d1 ++ [c1] ++ d2 ++ [c2] ++ d3, r3)
          | none => none
        else none
      | _ => none
    else none
  | _ => none

/-- `\b(?:DOB|DATE\s*OF\s*BIRTH)[\s:\-—–]*([0-3]?\d[\/\-.][01]?\d[\/\-.]\d{4})\b`
(re.I) at the position (line 753). -/
def marksheetDobLabeledAt (prev : Option Char) (s : Chars) : Option Chars :=
  if bdry prev then
    let afterLabel : Option Chars :=
      (litCI "dob".data s).orElse (fun _ =>
        match litCI "date".data s with
        | some r1 =>
          starThen pySpace (fun r2 =>
            match litCI "of".data r2 with
            | some r3 =>
              starThen pySpace (fun r4 => litCI "birth".data r4) r3
            | none => none) r1
        | none => none)
    match afterLabel with
    | some r =>
      starThen (fun c => pySpace c || c == ':' || c == '-' || c == '—' || c == '–')
        (fun r' =>
          match dmy03Cap r' with
          | some (cap, rest) => if bdryAfter rest then some cap else none
          | none => none) r
    | none => none
  else none

/-- `\b([0-3]?\d[\/\-.][01]?\d[\/\-.]\d{4})\b` at the position (line 754). -/
def marksheetDobBareAt (prev : Option Char) (s : Chars) : Option Chars :=
  if bdry prev then
    match dmy03Cap s with
    | some (cap, rest) => if bdryAfter rest then some cap else none
    | none => none
  else none

/-- `EXAMINATION\s+held\s+in\s+\w+-?(20\d{2})` (re.I) at the position
(line 762); the greedy `\w+` backtracks longest-first. -/
def yearExamAt (_prev : Option Char) (s : Chars) : Option Chars :=
  match litCI "examination".data s with
  | some r1 =>
    plusThen pySpace (fun r2 =>
      match litCI "held".data r2 with
      | some r3 =>
        plusThen pySpace (fun r4 =>
          match litCI "in".data r4 with
          | some r5 =>
            plusThen pySpace (fun r6 =>
              let m := (spanP isWordChar r6).1.length
              firstSome (countdownFrom m 1) (fun j =>
                optChar (· == '-') (fun r8 =>
                  match r8 with
                  | '2' :: '0' :: c :: d :: _ =>
                    if isDigit c && isDigit d then some ['2', '0', c, d] else none
                  | _ => none) (r6.drop j))) r5
          | none => none) r3
      | none => none) r1
  | none => none

/-- `(CGPA|GPA|GRADE\s*POINT)[\s\.:;\-—–]*([0-9]{1,2}\.[0-9]{1,2})` (re.I)
at the position, returning group 2 (line 768). -/
def cgpaAt (_prev : Option Char) (s : Chars) : Option Chars :=
  let afterLabel : Option Chars :=
    (litCI "cgpa".data s).orElse (fun _ =>
      (litCI "gpa".data s).orElse (fun _ =>
        match litCI "grade".data s with
        | some r1 => starThen pySpace (fun r2 => litCI "point".data r2) r1
        | none => none))
  match afterLabel with
  | some r =>
    starThen (fun c => pySpace c || c == '.' || c == ':' || c == ';' ||
        c == '-' || c == '—' || c == '–')
      (fun r' =>
        match takeDigits12 r' with
        | some (d1, '.' :: r2) =>
          match takeDigits12 r2 with
          | some (d2, _) => some (d1 ++ ['.'] ++ d2)
          | none => none
        | _ => none) r
  | none => none

/-- `\b(REGULAR|ROLL|PC\/)\b` (re.I) at the position (line 773); after
`PC/` the boundary demands a following word character. -/
def regularRollPCAt (prev : Option Char) (s : Chars) : Option Unit :=
  if bdry prev then
    (match litCI "regular".data s with
     | some r => if bdryAfter r then some () else none
     | none => none).orElse (fun _ =>
      (match litCI "roll".data s with
       | some r => if bdryAfter r then some () else none
       | none => none).orElse (fun _ =>
        match litCI "pc/".data s with
        | some (c :: _) => if isWordChar c then some () else none
        | _ => none))
  else none

def regularRollPCFound (ln : Chars) : Bool := (scan regularRollPCAt ln).isSome

/-- `CERTIFIED\s+THAT\s+([A-Z\s]+)` (re.I) at the position (line 775). -/
def certThatAt (_prev : Option Char) (s : Chars) : Option Chars :=
  match litCI "certified".data s with
  | some r1 =>
    plusThen pySpace (fun r2 =>
      match litCI "that".data r2 with
      | some r3 =>
        plusThen pySpace (fun r4 =>
          let run := (spanP (fun c => isAlphaAZ c || pySpace c) r4).1
          if run.isEmpty then none else some run) r3
      | none => none) r1
  | none => none

/-- `FATHER'?S\s+NAME\s+([A-Z\s]+)` / `MOTHER'?S\s+NAME\s+([A-Z\s]+)`
(re.I) at the position (lines 778, 781). -/
def parentNameCapAt (word : Chars) (_prev : Option Char) (s : Chars) :
    Option Chars :=
  match litCI word s with
  | some r1 =>
    optChar (· == '\'') (fun r2 =>
      match r2 with
      | c :: r3 =>
        if toLowerC c == 's' then
          plusThen pySpace (fun r4 =>
            match litCI "name".data r4 with
            | some r5 =>
              plusThen pySpace (fun r6 =>
                let run := (spanP (fun c => isAlphaAZ c || pySpace c) r6).1
                if run.isEmpty then none else some run) r5
            | none => none) r3
        else none
      | [] => none) r1
  | none => none

/-- The names block of `extract_marksheet_fields` (lines 772-783). -/
def marksheetNamesLoop : List Chars → FieldMap → FieldMap
  | [], fields => fields
  | ln :: rest, fields =>
    if regularRollPCFound ln then
      let fields := match rest with
        | l1 :: _ =>
          dictSet "student_name"
            (some (match scan certThatAt l1 with
              | some g => (pyStrip g).asString
              | none => l1.asString)) fields
        | [] => fields
      let fields := match rest.drop 1 with
        | l2 :: _ =>
          dictSet "father_name"
            (some (match scan (parentNameCapAt "father".data) l2 with
              | some g => (pyStrip g).asString
              | none => l2.asString)) fields
        | [] => fields
      let fields := match rest.drop 2 with
        | l3 :: _ =>
          dictSet "mother_name"
            (some (match scan (parentNameCapAt "mother".data) l3 with
              | some g => (pyStrip g).asString
              | none => l3.asString)) fields
        | [] => fields
      fields
    else marksheetNamesLoop rest fields

def marksheetSchema : FieldMap :=
  [("student_name", none), ("father_name", none), ("mother_name", none),
   ("school_name", none), ("dob", none), ("roll_no", none), ("year", none),
   ("cgpa", none)]

/-- `extract_marksheet_fields` (extractor.py lines 723-785); the unused
`filename` / `meta` parameters are dropped. -/
def extract_marksheet_fields (text : Chars) : FieldMap :=
  let fields := marksheetSchema
  let lines := cleanLines text
  -- school (lines 730-739): `re.match(r"SCHOOL\s*[:\-—–]?\s*(.+)", ln)`
  -- matches exactly when the line starts with SCHOOL (case-insensitively)
  -- and at least one character follows; `m.group(0)` is the whole line
  let fields :=
    match lines.findSome? (fun ln =>
      match litCI "school".data ln with
      | some rest => if rest.isEmpty then none else some ln
      | none => none) with
    | some ln => dictSet "school_name" (some ln.asString) fields
    | none =>
      match lines.findSome? (fun ln =>
        if hasTokenCI ["SCHOOL".data, "INSTITUTE".data, "COLLEGE".data] ln
        then some ln else none) with
      | some ln => dictSet "school_name" (some ln.asString) fields
      | none => fields
  let fields := match marksheetRollLoop lines with
    | some r => dictSet "roll_no" (some r) fields
    | none => fields
  let fields :=
    match (scan marksheetDobLabeledAt text).orElse
        (fun _ => scan marksheetDobBareAt text) with
    | some d => dictSet "dob" (some d.asString) fields
    | none => fields
  let fields :=
    match lines.findSome? (fun ln => scan yearExamAt ln) with
    | some y => dictSet "year" (some y.asString) fields
    | none => fields
  let fields := match scan cgpaAt text with
    | some c => dictSet "cgpa" (some c.asString) fields
    | none => fields
  marksheetNamesLoop lines fields

/-- `\b([A-Z]{5}[0-9]{4}[A-Z])\b` at the position, with the capture
(extract_pan_fields line 793). -/
def panCapAt (prev : Option Char) (s : Chars) : Option Chars :=
  if bdry prev then
    match s with
    | a :: b :: c :: d :: e :: f :: g :: h :: i :: j :: rest =>
      if isUpperAZ a && isUpperAZ b && isUpperAZ c && isUpperAZ d &&
          isUpperAZ e && isDigit f && isDigit g && isDigit h && isDigit i &&
          isUpperAZ j && bdryAfter rest then
        some [a, b, c, d, e, f, g, h, i, j]
      else none
    | _ => none
  else none

/-- `(DOB|DATE OF BIRTH)[:\s]*([0-9]{2}[\/\-][0-9]{2}[\/\-][0-9]{4})`
— case-sensitive, applied to the uppercased text (line 796). -/
def panDobLabeledAt (_prev : Option Char) (s : Chars) : Option Chars :=
  match (lit "DOB".data s).orElse (fun _ => lit "DATE OF BIRTH".data s) with
  | some r =>
    starThen (fun c => c == ':' || pySpace c)
      (fun r' => (date2244Cap r').map (·.1)) r
  | none => none

/-- `\b[0-9]{2}[\/\-][0-9]{2}[\/\-][0-9]{4}\b` at the position, with
`m.group(0)` (line 800). -/
def panDobBareAt (prev : Option Char) (s : Chars) : Option Chars :=
  if bdry prev then
    match date2244Cap s with
    | some (cap, rest) => if bdryAfter rest then some cap else none
    | none => none
  else none

/-- `FATHER'?S?\s*NAME\s*[:\-]?\s*(.+)` (re.I) at the position (line 808). -/
def panFatherLabelAt (_prev : Option Char) (s : Chars) : Option Chars :=
  match litCI "father".data s with
  | some r1 =>
    optChar (· == '\'') (optChar (fun c => toLowerC c == 's')
      (starThen pySpace (fun r4 =>
        match litCI "name".data r4 with
        | some r5 =>
          starThen pySpace (optChar (fun c => c == ':' || c == '-')
            (starThen pySpace (fun r8 => if r8.isEmpty then none else some r8))) r5
        | none => none))) r1
  | none => none

/-- The name / father loop of `extract_pan_fields` (lines 803-809): both
labels are checked on every line (no break), each assignment guarded by
the field still being falsy; a failed inner match falls back to the next
line (or `None`). -/
def panNameLoop : List Chars → FieldMap → FieldMap
  | [], fields => fields
  | ln :: rest, fields =>
    let up := pyUpper ln
    let fields :=
      if containsSub "NAME".data up && !truthy (getValue "name" fields) then
        dictSet "name"
          (match scan nameAfterLabelAt ln with
           | some g => normalizeName g
           | none =>
             match rest with
             | next :: _ => normalizeName next
             | [] => none) fields
      else fields
    let fields :=
      if containsSub "FATHER".data up && !truthy (getValue "father_name" fields)
      then
        dictSet "father_name"
          (match scan panFatherLabelAt ln with
           | some g => normalizeName g
           | none =>
             match rest with
             | next :: _ => normalizeName next
             | [] => none) fields
      else fields
    panNameLoop rest fields

def panSchema : FieldMap :=
  [("pan", none), ("name", none), ("father_name", none), ("dob", none)]

/-- `extract_pan_fields` (extractor.py lines 787-812). -/
def extract_pan_fields (text : Chars) : FieldMap :=
  let fields := panSchema
  let lines := cleanLines text
  let fields := match scan panCapAt (pyUpper text) with
    | some p => dictSet "pan" (some p.asString) fields
    | none => fields
  let fields := match scan panDobLabeledAt (pyUpper text) with
    | some d => dictSet "dob" (some d.asString) fields
    | none =>
      match scan panDobBareAt text with
      | some d => dictSet "dob" (some d.asString) fields
      | none => fields
  panNameLoop lines fields

/-!
## Definitions used only to state claims

`claimedDobAdjustment` renders claim C5's wording (including the
"current year" upper bound) so that it can be compared with the code's
`validate_cross_fields`; it is *not* part of the embedding of the source.
-/

/-- The date-of-birth adjustment exactly as claim C5 words it: −50 when
the value lacks the `DD[\/\-]MM[\/\-]YYYY` format, −40 when day/month are
out of calendar range, −30 when the year is outside `[1900, currentYear]`,
0 otherwise. -/
def claimedDobAdjustment (currentYear : ℤ) (dob : String) : ℤ :=
  if dobPrefixShape dob.data then
    match splitOnCharsKeep isSepDash dob.data with
    | p0 :: p1 :: p2 :: _ =>
      match pyIntParse p0, pyIntParse p1, pyIntParse p2 with
      | some day, some month, some year =>
        if ¬(1 ≤ day ∧ day ≤ 31) ∨ ¬(1 ≤ month ∧ month ≤ 12) then -40
        else if ¬(1900 ≤ year ∧ year ≤ currentYear) then -30
        else 0
      | _, _, _ => -50
    | _ => -50
  else -50

/-- The parsed `(day, month, year)` of a dob value under the code's
format test: anchored `\d{1,2}[\/\-]\d{1,2}[\/\-]\d{4}` prefix plus
integer parsing of the first three separator-split parts. -/
def dobParts (v : String) : Option (ℤ × ℤ × ℤ) :=
  if dobPrefixShape v.data then
    match splitOnCharsKeep isSepDash v.data with
    | p0 :: p1 :: p2 :: _ =>
      match pyIntParse p0, pyIntParse p1, pyIntParse p2 with
      | some day, some month, some year => some (day, month, year)
      | _, _, _ => none
    | _ => none
  else none

/-- `EnhancedResult` with the `processed_at` timestamp blanked, for
stating determinism modulo the wall-clock read. -/
def eraseTimestamp (r : EnhancedResult) : EnhancedResult :=
  { r with metadata := { r.metadata with processed_at := "" } }

/-- A Marksheet extraction result with one high-confidence field and an
empty subject table — the failing input for claim C1. -/
def c1Input : ExtractionInput :=
  { document_type := "Marksheet", fields := [("roll_no", some "12345678")],
    table := [], meta := none }

/-- The C8 counterexample text: a PAN-shaped identifier with marksheet
keywords and no Aadhaar / election / driving keywords. -/
def c8Text : Chars := "ABCDE1234F BOARD OF SECONDARY EXAMINATION MARKS".data

/-- The OCR confidence actually used by `calculate_hybrid_confidence` for
a null-valued field (claim C4, amended): the page-level average if
supplied, else the per-field tesseract confidence, else the field's
pattern confidence — which is 0 for a null value. -/
def nullTess (fn : String) (ocr : Option (List (String × ℚ)))
    (meta : Option Meta) : ℚ :=
  match meta.bind Meta.averageOcr with
  | some avg => avg
  | none =>
    match ocr.bind (dictGet fn) with
    | some t => t
    | none => 0

/-- The confidence a null-valued field receives (claim C4, amended): not
0 but the clamped round of 0.4·OCR + 0.2·image-quality, the quality
defaulting to 75. -/
def nullFieldConfidence (fn : String) (ocr : Option (List (String × ℚ)))
    (q : Option ℚ) (meta : Option Meta) : ℤ :=
  maxI 0 (pyRound (nullTess fn ocr meta * (40 / 100) +
    (q.getD 75) * (20 / 100)))

/-- The number of disallowed special characters counted at
confidence_calculator.py line 239. -/
def bizSpecialCount (s : Chars) : ℕ := (s.filter (fun c => !businessAllowed c)).length

/-- The length deduction of the business-rule score (lines 231-236). -/
def bizLenPen (s : Chars) : ℤ :=
  if s.length = 1 then 40 else if s.length > 200 then 30 else 0

/-- The all-one-case deduction for name fields (lines 244-246). -/
def bizCasePen (f : String) (s : Chars) : ℤ :=
  if (f = "name" ∨ f = "father_name" ∨ f = "mother_name" ∨ f = "student_name") ∧
      (pyIsUpper s || pyIsLower s) then 10 else 0

/-- The repeated-character deduction (lines 249-250). -/
def bizRepPen (s : Chars) : ℤ := if hasRun5 s then 30 else 0

/-- The no-digit deduction for numeric fields (lines 253-255). -/
def bizDigPen (f : String) (s : Chars) : ℤ :=
  if (f = "aadhaar_number" ∨ f = "pan" ∨ f = "mobile" ∨ f = "roll_no") ∧
      !s.any isDigit then 50 else 0

/-- All business-rule deductions other than the special-character one. -/
def bizOtherPens (f : String) (s : Chars) : ℤ :=
  bizLenPen s + bizCasePen f s + bizRepPen s + bizDigPen f s

/-- The fields with a strict/loose format rule in
`calculate_pattern_confidence` (claim C7). -/
def patternRuleFields : List String :=
  ["aadhaar_number", "pan", "voter_id", "dl_number", "mobile", "roll_no", "year"]

/-- The strict format test of each rule field. -/
def patStrict (f : String) (s : Chars) : Bool :=
  if f = "aadhaar_number" then allDigitsLen 12 12 (removeSpaces s)
  else if f = "pan" then panStrictShape s
  else if f = "voter_id" then voterStrictShape s
  else if f = "dl_number" then dlStrictShape s
  else if f = "mobile" then mobileStrictShape s
  else if f = "roll_no" then allDigitsLen 7 12 s
  else if f = "year" then yearStrictShape s
  else false

/-- The loose (superset) format test of each rule field. -/
def patLoose (f : String) (s : Chars) : Bool :=
  if f = "aadhaar_number" then allDigitsLen 10 14 (removeSpaces s)
  else if f = "pan" then panLooseShape s
  else if f = "voter_id" then voterLooseShape s
  else if f = "dl_number" then hasTwoUppers s && hasSixDigits s
  else if f = "mobile" then allDigitsLen 10 10 s
  else if f = "roll_no" then allDigitsLen 5 15 s
  else if f = "year" then allDigitsLen 4 4 s
  else false

/-- Score on a strict match. -/
def patStrictScore (f : String) : ℤ :=
  if f = "aadhaar_number" then 98
  else if f = "pan" then 98
  else if f = "voter_id" then 95
  else if f = "dl_number" then 95
  else if f = "mobile" then 97
  else if f = "roll_no" then 92
  else if f = "year" then 95
  else 0

/-- Score on a loose-only match. -/
def patLooseScore (f : String) : ℤ :=
  if f = "aadhaar_number" then 75
  else if f = "pan" then 70
  else if f = "voter_id" then 65
  else if f = "dl_number" then 75
  else if f = "mobile" then 65
  else if f = "roll_no" then 75
  else if f = "year" then 65
  else 0

/-- Score on a non-matching value. -/
def patFailScore (f : String) : ℤ :=
  if f = "aadhaar_number" then 40
  else if f = "pan" then 35
  else if f = "voter_id" then 40
  else if f = "dl_number" then 45
  else if f = "mobile" then 35
  else if f = "roll_no" then 50
  else if f = "year" then 35
  else 0

/-!
## Helper lemmas
-/

theorem rat_floor_eq_intFloor (q : ℚ) : q.floor = ⌊q⌋ := rfl

theorem pyRound_nonneg {q : ℚ} (h : 0 ≤ q) : 0 ≤ pyRound q := by
  simp only [pyRound, rat_floor_eq_intFloor]
  have h0 : (0 : ℤ) ≤ ⌊q⌋ := Int.le_floor.2 (by exact_mod_cast h)
  split_ifs <;> omega

theorem pyRound_le {q : ℚ} {B : ℤ} (h : q ≤ B) : pyRound q ≤ B := by
  simp only [pyRound, rat_floor_eq_intFloor]
  have h1 : ⌊q⌋ ≤ B := (Int.floor_le_floor h).trans_eq (Int.floor_intCast B)
  have h2 : (⌊q⌋ : ℚ) ≤ q := Int.floor_le q
  split_ifs with hr hr'
  · exact h1
  · have hq1 : (⌊q⌋ : ℚ) + 1/2 < q := by linarith
    have hq2 : (⌊q⌋ : ℚ) < B := by linarith
    have : ⌊q⌋ < B := by exact_mod_cast hq2
    omega
  · exact h1
  · have hr2 : (1 : ℚ)/2 ≤ q - ⌊q⌋ := le_of_not_lt hr
    have hq2 : (⌊q⌋ : ℚ) < B := by linarith
    have : ⌊q⌋ < B := by exact_mod_cast hq2
    omega

theorem dictGet_mem {l : List (String × α)} {k : String} {v : α}
    (h : dictGet k l = some v) : (k, v) ∈ l := by
  induction l with
  | nil => simp [dictGet] at h
  | cons p rest ih =>
    unfold dictGet at h
    split at h
    · rename_i hk
      obtain rfl : p.2 = v := Option.some_injective _ h
      obtain rfl : p.1 = k := hk
      left
    · exact List.mem_cons_of_mem _ (ih h)

/-- Keys of an association list. -/
def keysOf (l : List (String × α)) : List String := l.map Prod.fst

theorem keysOf_cons (p : String × α) (rest : List (String × α)) :
    keysOf (p :: rest) = p.1 :: keysOf rest := rfl

theorem keys_dictSet_of_mem {l : List (String × α)} {k : String} (v : α)
    (h : k ∈ keysOf l) : keysOf (dictSet k v l) = keysOf l := by
  induction l with
  | nil => simp [keysOf] at h
  | cons p rest ih =>
    by_cases hk : p.1 = k
    · obtain ⟨k', v'⟩ := p
      simp only at hk
      simp [dictSet, hk, keysOf]
    · obtain ⟨k', v'⟩ := p
      simp only at hk
      have hmem : k ∈ keysOf rest := by
        rw [keysOf_cons] at h
        exact (List.mem_cons.1 h).resolve_left (fun he => hk he.symm)
      simp only [dictSet, if_neg hk, keysOf_cons]
      exact congrArg _ (ih hmem)

theorem keys_dictSet_eq {l : List (String × α)} {K : List String}
    {k : String} (v : α) (h : keysOf l = K) (hk : k ∈ K) :
    keysOf (dictSet k v l) = K := by
  have hm : k ∈ keysOf l := by rw [h]; exact hk
  rw [keys_dictSet_of_mem v hm, h]

theorem keys_foldl (step : FieldMap → β → FieldMap) {K : List String}
    (hstep : ∀ fields b, keysOf fields = K → keysOf (step fields b) = K) :
    ∀ (l : List β) (fields : FieldMap), keysOf fields = K →
      keysOf (l.foldl step fields) = K := by
  intro l
  induction l with
  | nil =>
    intro fields h
    simpa using h
  | cons b rest ih =>
    intro fields h
    simp only [List.foldl_cons]
    exact ih _ (hstep fields b h)

theorem keys_aadhaarNameLoop {K : List String} (hn : "name" ∈ K)
    (hf : "father_name" ∈ K) :
    ∀ (lines : List Chars) (fields : FieldMap), keysOf fields = K →
      keysOf (aadhaarNameLoop lines fields) = K := by
  intro lines
  induction lines with
  | nil =>
    intro fields h
    simpa [aadhaarNameLoop] using h
  | cons line rest ih =>
    intro fields h
    simp only [aadhaarNameLoop]
    cases haP : aadhaarP1 line with
    | some g =>
      obtain ⟨g1, g3⟩ := g
      simp only
      split_ifs <;>
        repeat (first | exact h | refine keys_dictSet_eq _ ?_ (by assumption))
    | none =>
      cases rest with
      | nil => exact h
      | cons next t =>
        simp only
        split_ifs with hcond
        · repeat' split
          all_goals
            repeat (first | exact h | refine keys_dictSet_eq _ ?_ (by assumption))
        · exact ih _ h

theorem keys_marksheetNamesLoop {K : List String} (hs : "student_name" ∈ K)
    (hf : "father_name" ∈ K) (hm : "mother_name" ∈ K) :
    ∀ (lines : List Chars) (fields : FieldMap), keysOf fields = K →
      keysOf (marksheetNamesLoop lines fields) = K := by
  intro lines
  induction lines with
  | nil =>
    intro fields h
    simpa [marksheetNamesLoop] using h
  | cons ln rest ih =>
    intro fields h
    simp only [marksheetNamesLoop]
    split_ifs with hroll
    · repeat' split
      all_goals
        repeat (first | exact h | refine keys_dictSet_eq _ ?_ (by assumption))
    · exact ih _ h

theorem keys_panNameLoop {K : List String} (hn : "name" ∈ K)
    (hf : "father_name" ∈ K) :
    ∀ (lines : List Chars) (fields : FieldMap), keysOf fields = K →
      keysOf (panNameLoop lines fields) = K := by
  intro lines
  induction lines with
  | nil =>
    intro fields h
    simpa [panNameLoop] using h
  | cons ln rest ih =>
    intro fields h
    simp only [panNameLoop]
    apply ih
    split_ifs <;>
      repeat (first | exact h | refine keys_dictSet_eq _ ?_ (by assumption))

theorem keys_voterBoxLoop (boxes : List YoloBox) (fields : FieldMap)
    {K : List String} (h : keysOf fields = K) (hn : "name" ∈ K)
    (hf : "father_name" ∈ K) (hh : "husband_name" ∈ K) (hd : "dob" ∈ K)
    (hg : "gender" ∈ K) (hv : "voter_id" ∈ K) :
    keysOf (voterBoxLoop boxes fields) = K := by
  unfold voterBoxLoop
  refine keys_foldl _ ?_ boxes fields h
  intro fl b hfl
  simp only
  split_ifs <;>
    repeat (first | exact hfl | refine keys_dictSet_eq _ ?_ (by assumption))

theorem keys_voterRegexPath (text : Chars) (fields : FieldMap)
    {K : List String} (h : keysOf fields = K) (hv : "voter_id" ∈ K)
    (hn : "name" ∈ K) (hf : "father_name" ∈ K) (hd : "dob" ∈ K)
    (hg : "gender" ∈ K) :
    keysOf (voterRegexPath text fields) = K := by
  unfold voterRegexPath
  simp only
  repeat' split
  all_goals
    repeat (first | exact h | refine keys_dictSet_eq _ ?_ (by assumption))

theorem keys_extract_aadhaar (text : Chars) :
    keysOf (extract_aadhaar_fields text) = keysOf aadhaarSchema := by
  unfold extract_aadhaar_fields
  simp only
  repeat' split
  all_goals
    first
      | rfl
      | exact keys_aadhaarNameLoop (by decide) (by decide) _ _
          (by simp [dictSet, keysOf, aadhaarSchema])
      | exact keys_dictSet_eq _
          (keys_aadhaarNameLoop (by decide) (by decide) _ _
            (by simp [dictSet, keysOf, aadhaarSchema])) (by decide)

theorem keys_extract_voter (text : Chars)
    (yolo : Option (List (List YoloBox))) :
    keysOf (extract_voter_fields text yolo) = keysOf voterSchema := by
  unfold extract_voter_fields
  simp only
  cases yolo with
  | none =>
    exact keys_voterRegexPath text _ rfl (by decide) (by decide) (by decide)
      (by decide) (by decide)
  | some pages =>
    simp only
    split_ifs with h1 h2
    · exact keys_voterBoxLoop _ _ rfl (by decide) (by decide) (by decide)
        (by decide) (by decide) (by decide)
    · exact keys_voterRegexPath text _
        (keys_voterBoxLoop _ _ rfl (by decide) (by decide) (by decide)
          (by decide) (by decide) (by decide))
        (by decide) (by decide) (by decide) (by decide) (by decide)
    · exact keys_voterRegexPath text _ rfl (by decide) (by decide) (by decide)
        (by decide) (by decide)

theorem keys_dlNumPass (lines : List Chars) (fields : FieldMap)
    {K : List String} (h : keysOf fields = K) (hdl : "dl_number" ∈ K) :
    keysOf (dlNumPass lines fields) = K := by
  unfold dlNumPass
  simp only
  repeat' split
  all_goals
    repeat (first | exact h | refine keys_dictSet_eq _ ?_ (by assumption))

theorem keys_dlNamePass (lines : List Chars) (fields : FieldMap)
    {K : List String} (h : keysOf fields = K) (hn : "name" ∈ K)
    (hf : "father_name" ∈ K) (ha : "address" ∈ K) :
    keysOf (dlNamePass lines fields) = K := by
  unfold dlNamePass
  simp only
  repeat' split
  all_goals
    repeat (first | exact h | refine keys_dictSet_eq _ ?_ (by assumption))

theorem keys_dlDatePass (text : Chars) (fields : FieldMap)
    {K : List String} (h : keysOf fields = K) (hd : "dob" ∈ K)
    (hi : "issue_date" ∈ K) (hv : "valid_till" ∈ K) :
    keysOf (dlDatePass text fields) = K := by
  unfold dlDatePass
  simp only [List.foldl_cons, List.foldl_nil]
  repeat' split
  all_goals
    repeat (first | exact h | refine keys_dictSet_eq _ ?_ (by assumption))

theorem keys_extract_dl (text : Chars) :
    keysOf (extract_dl_fields text) = keysOf dlSchema := by
  unfold extract_dl_fields
  simp only
  split_ifs with he
  · rfl
  · exact keys_dlDatePass _ _
      (keys_dlNamePass _ _
        (keys_dlNumPass _ _ rfl (by decide))
        (by decide) (by decide) (by decide))
      (by decide) (by decide) (by decide)

theorem keys_extract_marksheet (text : Chars) :
    keysOf (extract_marksheet_fields text) = keysOf marksheetSchema := by
  unfold extract_marksheet_fields
  simp only
  repeat' split
  all_goals
    exact keys_marksheetNamesLoop (by decide) (by decide) (by decide) _ _
      (by simp [dictSet, keysOf, marksheetSchema])

theorem keys_extract_pan (text : Chars) :
    keysOf (extract_pan_fields text) = keysOf panSchema := by
  unfold extract_pan_fields
  simp only
  repeat' split
  all_goals
    exact keys_panNameLoop (by decide) (by decide) _ _
      (by simp [dictSet, keysOf, panSchema])

theorem dictGet_of_mem_nodup {l : List (String × α)} {k : String} {v : α}
    (hmem : (k, v) ∈ l) (hnd : (keysOf l).Nodup) : dictGet k l = some v := by
  induction l with
  | nil => simp at hmem
  | cons p rest ih =>
    obtain ⟨k', v'⟩ := p
    rw [keysOf_cons] at hnd
    rcases List.mem_cons.1 hmem with heq | hmem'
    · injection heq with h1 h2
      subst h1
      subst h2
      simp [dictGet]
    · have hk : k' ≠ k := by
        intro he
        apply (List.nodup_cons.1 hnd).1
        have hkm : k ∈ keysOf rest := List.mem_map_of_mem Prod.fst hmem'
        rw [he]
        exact hkm
      simp only [dictGet, if_neg hk]
      exact ih hmem' (List.nodup_cons.1 hnd).2

theorem truthy_of_getValue_some {fields : List (String × Option String)}
    {k d : String} (hg : getValue k fields = some d)
    (hne : ¬d.isEmpty = true) : truthy (getValue k fields) = true := by
  rw [hg]
  cases hd : d.isEmpty with
  | false => simp [truthy, hd]
  | true => exact absurd hd hne

theorem cross_mem_truthy (fields : List (String × Option String))
    (dt : String) :
    ∀ p ∈ validate_cross_fields fields dt,
      truthy (getValue p.1 fields) = true := by
  intro p hp
  unfold validate_cross_fields at hp
  simp only [List.mem_append] at hp
  rcases hp with ((((hp | hp) | hp) | hp) | hp)
  · unfold dobChunk at hp
    split at hp
    · rename_i d hg
      split at hp
      · simp at hp
      · rename_i hne
        rcases hpr : dobPenalty d with ⟨pen, r⟩
        simp only [hpr] at hp
        obtain rfl := List.mem_singleton.1 hp
        exact truthy_of_getValue_some hg hne
    · simp at hp
  · unfold yearChunk at hp
    split at hp
    · rename_i y hg
      split at hp
      · simp at hp
      · rename_i hne
        split at hp
        · split at hp
          all_goals
            obtain rfl := List.mem_singleton.1 hp
            exact truthy_of_getValue_some hg hne
        · obtain rfl := List.mem_singleton.1 hp
          exact truthy_of_getValue_some hg hne
    · simp at hp
  · unfold cgpaChunk at hp
    split at hp
    · rename_i c hg
      split at hp
      · simp at hp
      · rename_i hne
        split at hp
        · split at hp
          all_goals
            obtain rfl := List.mem_singleton.1 hp
            exact truthy_of_getValue_some hg hne
        · obtain rfl := List.mem_singleton.1 hp
          exact truthy_of_getValue_some hg hne
    · simp at hp
  · unfold fatherChunk at hp
    simp only at hp
    split at hp
    · rename_i hcond
      split at hp
      · split at hp
        · obtain rfl := List.mem_singleton.1 hp
          exact hcond.2
        · simp at hp
      · simp at hp
    · simp at hp
  · unfold genderChunk at hp
    split at hp
    · rename_i g hg
      split at hp
      · simp at hp
      · rename_i hne
        split at hp
        · obtain rfl := List.mem_singleton.1 hp
          exact truthy_of_getValue_some hg hne
        · simp at hp
    · simp at hp

theorem map_value_add_confidence (fields : List (String × Option String))
    (dt : String) (ocr : Option (List (String × ℚ))) (q : Option ℚ)
    (meta : Option Meta) :
    (add_confidence_to_fields fields dt ocr q meta).map
      (fun p => (p.1, p.2.value)) = fields := by
  unfold add_confidence_to_fields
  simp only
  generalize validate_cross_fields fields dt = cv
  induction fields with
  | nil => rfl
  | cons p rest ih =>
    obtain ⟨fn, fv⟩ := p
    simp only [List.map_cons, List.cons.injEq]
    exact ⟨by trivial, ih⟩

theorem hybrid_null_final (fn : String) (dt : String)
    (ocr : Option (List (String × ℚ))) (q : Option ℚ) (meta : Option Meta) :
    (calculate_hybrid_confidence fn none dt (ocr.bind fun a => dictGet fn a)
        q meta).final_confidence =
      pyRound (nullTess fn ocr meta * (40 / 100) +
        (q.getD 75) * (20 / 100)) := by
  have hP : calculate_pattern_confidence fn none dt = 0 := rfl
  have hB : calculate_business_rules_confidence fn none = 0 := rfl
  unfold calculate_hybrid_confidence nullTess
  simp only
  rcases meta with _ | m
  · simp only [Option.none_bind]
    rcases ocr with _ | l
    · simp only [Option.none_bind]
      congr 1
      rw [hP, hB]
      push_cast
      ring
    · simp only [Option.some_bind]
      rcases hd : dictGet fn l with _ | t
      · congr 1
        rw [hP, hB]
        push_cast
        ring
      · congr 1
        rw [hP, hB]
        push_cast
        ring
  · simp only [Option.some_bind]
    rcases hm : m.averageOcr with _ | a
    · rcases ocr with _ | l
      · simp only [Option.none_bind]
        congr 1
        rw [hP, hB]
        push_cast
        ring
      · simp only [Option.some_bind]
        rcases hd : dictGet fn l with _ | t
        · congr 1
          rw [hP, hB]
          push_cast
          ring
        · congr 1
          rw [hP, hB]
          push_cast
          ring
    · congr 1
      rw [hP, hB]
      push_cast
      ring

theorem null_field_confidence (fields : List (String × Option String))
    (dt : String) (ocr : Option (List (String × ℚ))) (q : Option ℚ)
    (meta : Option Meta) (hnd : (keysOf fields).Nodup) :
    ∀ p ∈ add_confidence_to_fields fields dt ocr q meta,
      p.2.value = none →
      p.2.confidence = nullFieldConfidence p.1 ocr q meta := by
  intro p hp hv
  unfold add_confidence_to_fields at hp
  simp only [List.mem_map] at hp
  obtain ⟨⟨fn, fv⟩, hmem, rfl⟩ := hp
  have hfv : fv = none := hv
  subst hfv
  have hget : dictGet fn fields = some none := dictGet_of_mem_nodup hmem hnd
  have hcv : dictGet fn (validate_cross_fields fields dt) = none := by
    cases hc : dictGet fn (validate_cross_fields fields dt) with
    | none => rfl
    | some cf =>
      exfalso
      have ht := cross_mem_truthy fields dt (fn, cf) (dictGet_mem hc)
      simp only [getValue, hget] at ht
      simp [truthy, Option.join] at ht
  show maxI 0 ((calculate_hybrid_confidence fn none dt
      (ocr.bind fun a => dictGet fn a) q meta).final_confidence +
    ((dictGet fn (validate_cross_fields fields dt)).map
      CrossFinding.confidence_adjustment).getD 0) =
    nullFieldConfidence fn ocr q meta
  rw [hcv]
  simp
  rw [hybrid_null_final]
  rfl

theorem space_char_cases {c : Char} (h : pySpace c = true) :
    c = ' ' ∨ c = '\t' ∨ c = '\n' ∨ c = '\r' ∨ c = '\x0b' ∨ c = '\x0c' := by
  simp only [pySpace, Bool.or_eq_true, beq_iff_eq] at h
  tauto

theorem head_space {c : Char} {cs : Chars}
    (h : (c :: cs).all pySpace = true) :
    pySpace c = true ∧ cs.all pySpace = true := by
  rw [List.all_cons, Bool.and_eq_true] at h
  exact h

theorem not_digit_of_space {c : Char} (h : pySpace c = true) :
    isDigit c = false := by
  rcases space_char_cases h with rfl | rfl | rfl | rfl | rfl | rfl <;> rfl

theorem not_upper_of_space {c : Char} (h : pySpace c = true) :
    isUpperAZ c = false := by
  rcases space_char_cases h with rfl | rfl | rfl | rfl | rfl | rfl <;> rfl

theorem pySpace_toUpperC {c : Char} (h : pySpace c = true) :
    pySpace (toUpperC c) = true := by
  rcases space_char_cases h with rfl | rfl | rfl | rfl | rfl | rfl <;> rfl

theorem pyUpper_space (s : Chars) (hs : s.all pySpace = true) :
    (pyUpper s).all pySpace = true := by
  unfold pyUpper
  rw [List.all_map]
  rw [List.all_eq_true] at hs ⊢
  intro x hx
  exact pySpace_toUpperC (hs x hx)

theorem pyStrip_space (l : Chars) (h : l.all pySpace = true) :
    pyStrip l = [] := by
  unfold pyStrip
  have h1 : l.dropWhile pySpace = [] :=
    List.dropWhile_eq_nil_iff.2 (fun x hx => (List.all_eq_true.1 h) x hx)
  rw [h1]
  rfl

theorem splitStep_space {c : Char} (hc : pySpace c = true) (acc : List Chars)
    (hacc : acc.all (fun l => l.all pySpace) = true) :
    (splitLinesStep c acc).all (fun l => l.all pySpace) = true := by
  unfold splitLinesStep
  split_ifs with h
  · simpa using hacc
  · cases acc with
    | nil => simp [hc]
    | cons l ls =>
      rw [List.all_cons, Bool.and_eq_true] at hacc
      simp [List.all_cons, hc, hacc.1, hacc.2]

theorem splitLines_all_space (s : Chars) (hs : s.all pySpace = true) :
    (splitLines s).all (fun l => l.all pySpace) = true := by
  induction s with
  | nil => rfl
  | cons c cs ih =>
    obtain ⟨hc, hcs⟩ := head_space hs
    unfold splitLines at ih ⊢
    simp only [List.foldr_cons]
    exact splitStep_space hc _ (ih hcs)

theorem cleanLines_space (s : Chars) (hs : s.all pySpace = true) :
    cleanLines s = [] := by
  unfold cleanLines
  have h := splitLines_all_space s hs
  have hgen : ∀ (L : List Chars), L.all (fun l => l.all pySpace) = true →
      (L.map pyStrip).filter (fun l => !l.isEmpty) = [] := by
    intro L
    induction L with
    | nil => intro _; rfl
    | cons l ls ih =>
      intro hL
      rw [List.all_cons, Bool.and_eq_true] at hL
      simp [pyStrip_space l hL.1, ih hL.2]
  exact hgen _ h

theorem scanAux_none_of_all_space {m : Option Char → Chars → Option α}
    (hm : ∀ prev s, s.all pySpace = true → m prev s = none) :
    ∀ (s : Chars) (prev : Option Char), s.all pySpace = true →
      scanAux m prev s = none := by
  intro s
  induction s with
  | nil =>
    intro prev _
    exact hm prev [] rfl
  | cons c cs ih =>
    intro prev h
    obtain ⟨hc, hcs⟩ := head_space h
    simp only [scanAux]
    rw [hm prev (c :: cs) h]
    exact ih (some c) hcs

theorem scan_none_of_all_space {m : Option Char → Chars → Option α}
    (hm : ∀ prev s, s.all pySpace = true → m prev s = none)
    (s : Chars) (hs : s.all pySpace = true) : scan m s = none :=
  scanAux_none_of_all_space hm s none hs

theorem voterShapeCapAt_space :
    ∀ (prev : Option Char) (s : Chars), s.all pySpace = true →
      voterShapeCapAt prev s = none := by
  intro prev s hs
  unfold voterShapeCapAt
  split_ifs with hb
  · rcases s with _ | ⟨c, cs⟩
    · rfl
    · obtain ⟨hc, -⟩ := head_space hs
      simp [spanP, not_upper_of_space hc]
  · rfl

theorem epicNoCapAt_space :
    ∀ (prev : Option Char) (s : Chars), s.all pySpace = true →
      epicNoCapAt prev s = none := by
  intro prev s hs
  rcases s with _ | ⟨c, cs⟩
  · rfl
  · obtain ⟨hc, -⟩ := head_space hs
    rcases space_char_cases hc with rfl | rfl | rfl | rfl | rfl | rfl <;> rfl

theorem voterNameAt_space :
    ∀ (prev : Option Char) (s : Chars), s.all pySpace = true →
      voterNameAt prev s = none := by
  intro prev s hs
  rcases s with _ | ⟨c, cs⟩
  · rfl
  · obtain ⟨hc, -⟩ := head_space hs
    rcases space_char_cases hc with rfl | rfl | rfl | rfl | rfl | rfl <;> rfl

theorem voterDobLabeledAt_space :
    ∀ (prev : Option Char) (s : Chars), s.all pySpace = true →
      voterDobLabeledAt prev s = none := by
  intro prev s hs
  rcases s with _ | ⟨c, cs⟩
  · rfl
  · obtain ⟨hc, -⟩ := head_space hs
    rcases space_char_cases hc with rfl | rfl | rfl | rfl | rfl | rfl <;> rfl

theorem date2244Cap_space (s : Chars) (hs : s.all pySpace = true) :
    date2244Cap s = none := by
  rcases s with _ | ⟨c, cs⟩
  · rfl
  · obtain ⟨hc, -⟩ := head_space hs
    rcases cs with _ | ⟨c2, cs2⟩
    · rfl
    · simp [date2244Cap, take2DCap, not_digit_of_space hc]

theorem date2244At_space :
    ∀ (prev : Option Char) (s : Chars), s.all pySpace = true →
      date2244At prev s = none := by
  intro prev s hs
  unfold date2244At
  rw [date2244Cap_space s hs]
  rfl

theorem voterGenderAt_space :
    ∀ (prev : Option Char) (s : Chars), s.all pySpace = true →
      voterGenderAt prev s = none := by
  intro prev s hs
  rcases s with _ | ⟨c, cs⟩
  · rfl
  · obtain ⟨hc, -⟩ := head_space hs
    rcases space_char_cases hc with rfl | rfl | rfl | rfl | rfl | rfl <;> rfl

theorem dmy03Cap_space (s : Chars) (hs : s.all pySpace = true) :
    dmy03Cap s = none := by
  rcases s with _ | ⟨c, cs⟩
  · rfl
  · obtain ⟨hc, -⟩ := head_space hs
    simp [dmy03Cap, takeDM, not_digit_of_space hc]

theorem marksheetDobLabeledAt_space :
    ∀ (prev : Option Char) (s : Chars), s.all pySpace = true →
      marksheetDobLabeledAt prev s = none := by
  intro prev s hs
  unfold marksheetDobLabeledAt
  split_ifs with hb
  · rcases s with _ | ⟨c, cs⟩
    · rfl
    · obtain ⟨hc, -⟩ := head_space hs
      rcases space_char_cases hc with rfl | rfl | rfl | rfl | rfl | rfl <;> rfl
  · rfl

theorem marksheetDobBareAt_space :
    ∀ (prev : Option Char) (s : Chars), s.all pySpace = true →
      marksheetDobBareAt prev s = none := by
  intro prev s hs
  unfold marksheetDobBareAt
  split_ifs with hb
  · rw [dmy03Cap_space s hs]
  · rfl

theorem cgpaAt_space :
    ∀ (prev : Option Char) (s : Chars), s.all pySpace = true →
      cgpaAt prev s = none := by
  intro prev s hs
  rcases s with _ | ⟨c, cs⟩
  · rfl
  · obtain ⟨hc, -⟩ := head_space hs
    rcases space_char_cases hc with rfl | rfl | rfl | rfl | rfl | rfl <;> rfl

theorem panCapAt_space :
    ∀ (prev : Option Char) (s : Chars), s.all pySpace = true →
      panCapAt prev s = none := by
  intro prev s hs
  unfold panCapAt
  split_ifs with hb
  · rcases s with _ | ⟨a, _ | ⟨b, _ | ⟨c3, _ | ⟨d, _ | ⟨e, _ | ⟨f, _ |
      ⟨g, _ | ⟨h10, _ | ⟨i, _ | ⟨j, rest⟩⟩⟩⟩⟩⟩⟩⟩⟩⟩
    all_goals try rfl
    simp only [List.all_cons, Bool.and_eq_true] at hs
    simp [not_upper_of_space hs.1]
  · rfl

theorem panDobLabeledAt_space :
    ∀ (prev : Option Char) (s : Chars), s.all pySpace = true →
      panDobLabeledAt prev s = none := by
  intro prev s hs
  rcases s with _ | ⟨c, cs⟩
  · rfl
  · obtain ⟨hc, -⟩ := head_space hs
    rcases space_char_cases hc with rfl | rfl | rfl | rfl | rfl | rfl <;> rfl

theorem panDobBareAt_space :
    ∀ (prev : Option Char) (s : Chars), s.all pySpace = true →
      panDobBareAt prev s = none := by
  intro prev s hs
  unfold panDobBareAt
  split_ifs with hb
  · rw [date2244Cap_space s hs]
  · rfl

theorem dlLabeledDob_space :
    ∀ (prev : Option Char) (s : Chars), s.all pySpace = true →
      dlLabeledDateAt ["Date of Birth".data, "DOB".data] prev s = none := by
  intro prev s hs
  rcases s with _ | ⟨c, cs⟩
  · rfl
  · obtain ⟨hc, -⟩ := head_space hs
    rcases space_char_cases hc with rfl | rfl | rfl | rfl | rfl | rfl <;> rfl

theorem dlLabeledIssue_space :
    ∀ (prev : Option Char) (s : Chars), s.all pySpace = true →
      dlLabeledDateAt ["Issue Date".data, "Date of First Issue".data] prev s
        = none := by
  intro prev s hs
  rcases s with _ | ⟨c, cs⟩
  · rfl
  · obtain ⟨hc, -⟩ := head_space hs
    rcases space_char_cases hc with rfl | rfl | rfl | rfl | rfl | rfl <;> rfl

theorem dlLabeledValid_space :
    ∀ (prev : Option Char) (s : Chars), s.all pySpace = true →
      dlLabeledDateAt ["Validity".data, "Valid Till".data] prev s = none := by
  intro prev s hs
  rcases s with _ | ⟨c, cs⟩
  · rfl
  · obtain ⟨hc, -⟩ := head_space hs
    rcases space_char_cases hc with rfl | rfl | rfl | rfl | rfl | rfl <;> rfl

theorem findAllDates_go_space :
    ∀ (fuel : ℕ) (s : Chars), s.all pySpace = true →
      findAllDates.go fuel s = [] := by
  intro fuel
  induction fuel with
  | zero => intro s _; rfl
  | succ n ih =>
    intro s hs
    cases s with
    | nil => rfl
    | cons c cs =>
      obtain ⟨hc, hcs⟩ := head_space hs
      simp only [findAllDates.go]
      rw [date2244Cap_space (c :: cs) hs]
      exact ih cs hcs

theorem findAllDates_space (s : Chars) (hs : s.all pySpace = true) :
    findAllDates s = [] :=
  findAllDates_go_space s.length s hs

theorem voterRegexPath_space (text : Chars) (hs : text.all pySpace = true)
    (fields : FieldMap) : voterRegexPath text fields = fields := by
  have h1 : scan voterShapeCapAt text = none :=
    scan_none_of_all_space voterShapeCapAt_space text hs
  have h2 : scan epicNoCapAt text = none :=
    scan_none_of_all_space epicNoCapAt_space text hs
  have h3 : scan voterNameAt text = none :=
    scan_none_of_all_space voterNameAt_space text hs
  have h4 : scan voterDobLabeledAt text = none :=
    scan_none_of_all_space voterDobLabeledAt_space text hs
  have h5 : scan date2244At text = none :=
    scan_none_of_all_space date2244At_space text hs
  have h6 : scan voterGenderAt text = none :=
    scan_none_of_all_space voterGenderAt_space text hs
  have hcl : cleanLines text = [] := cleanLines_space text hs
  unfold voterRegexPath
  simp [h1, h2, h3, h4, h5, h6, hcl, voterFatherLoop, Option.orElse]

theorem extract_voter_space (text : Chars) (hs : text.all pySpace = true) :
    extract_voter_fields text none = voterSchema := by
  unfold extract_voter_fields
  exact voterRegexPath_space text hs voterSchema

theorem extract_aadhaar_space (text : Chars) (hs : text.all pySpace = true) :
    extract_aadhaar_fields text = aadhaarSchema := by
  unfold extract_aadhaar_fields
  simp [cleanLines_space text hs]

theorem dlDatePass_space (text : Chars) (hs : text.all pySpace = true)
    (fields : FieldMap) : dlDatePass text fields = fields := by
  have h1 : scan (dlLabeledDateAt ["Date of Birth".data, "DOB".data]) text
      = none := scan_none_of_all_space dlLabeledDob_space text hs
  have h2 : scan (dlLabeledDateAt
      ["Issue Date".data, "Date of First Issue".data]) text = none :=
    scan_none_of_all_space dlLabeledIssue_space text hs
  have h3 : scan (dlLabeledDateAt ["Validity".data, "Valid Till".data]) text
      = none := scan_none_of_all_space dlLabeledValid_space text hs
  have hf : findAllDates text = [] := findAllDates_space text hs
  unfold dlDatePass
  simp only [List.foldl_cons, List.foldl_nil]
  simp [h1, h2, h3, hf, dedupKeepOrder, dedupKeepOrder.go]

theorem extract_dl_space (text : Chars) (hs : text.all pySpace = true) :
    extract_dl_fields text = dlSchema := by
  have hcl : cleanLines text = [] := cleanLines_space text hs
  unfold extract_dl_fields
  simp only [hcl]
  split_ifs
  · rfl
  · rw [show dlNumPass [] dlSchema = dlSchema from rfl,
      show dlNamePass [] dlSchema = dlSchema from rfl]
    exact dlDatePass_space text hs dlSchema

theorem extract_marksheet_space (text : Chars)
    (hs : text.all pySpace = true) :
    extract_marksheet_fields text = marksheetSchema := by
  have hcl : cleanLines text = [] := cleanLines_space text hs
  have h1 : scan marksheetDobLabeledAt text = none :=
    scan_none_of_all_space marksheetDobLabeledAt_space text hs
  have h2 : scan marksheetDobBareAt text = none :=
    scan_none_of_all_space marksheetDobBareAt_space text hs
  have h3 : scan cgpaAt text = none :=
    scan_none_of_all_space cgpaAt_space text hs
  unfold extract_marksheet_fields
  simp [hcl, h1, h2, h3, marksheetNamesLoop, marksheetRollLoop,
    Option.orElse]

theorem extract_pan_space (text : Chars) (hs : text.all pySpace = true) :
    extract_pan_fields text = panSchema := by
  have hup : (pyUpper text).all pySpace = true := pyUpper_space text hs
  have h1 : scan panCapAt (pyUpper text) = none :=
    scan_none_of_all_space panCapAt_space _ hup
  have h2 : scan panDobLabeledAt (pyUpper text) = none :=
    scan_none_of_all_space panDobLabeledAt_space _ hup
  have h3 : scan panDobBareAt text = none :=
    scan_none_of_all_space panDobBareAt_space text hs
  have hcl : cleanLines text = [] := cleanLines_space text hs
  unfold extract_pan_fields
  simp [h1, h2, h3, hcl, panNameLoop]

theorem classify_v2_space (text : Chars) (hs : text.all pySpace = true) :
    classify_document_type_v2 text =
      { document_type := "Unknown", confidence := 0, scores := [] } := by
  unfold classify_document_type_v2
  rw [pyStrip_space text hs]
  simp

theorem classify_v1_space (text : Chars) (hs : text.all pySpace = true) :
    classify_document_type text = "Unknown" := by
  unfold classify_document_type
  rw [pyStrip_space text hs]
  simp

theorem classify_smart_space (text : Chars) (hs : text.all pySpace = true) :
    classify_document_smart text = "Unknown" := by
  unfold classify_document_smart
  rw [classify_v2_space text hs, classify_v1_space text hs]
  simp

theorem overall_zero_of_all_falsy (l : List (String × AnnotatedField))
    (hl : ∀ p ∈ l, truthyStripped p.2.value = false) :
    calculate_overall_confidence l = 0 := by
  have hfold : ∀ (L : List (String × AnnotatedField)),
      (∀ p ∈ L, truthyStripped p.2.value = false) →
      ∀ acc : ℚ × ℚ, L.foldl overallStep acc = acc := by
    intro L
    induction L with
    | nil => intro _ acc; rfl
    | cons p rest ih =>
      intro hL acc
      simp only [List.foldl_cons]
      rw [show overallStep acc p = acc from by
        unfold overallStep
        rw [hL p (List.mem_cons_self p rest)]
        rfl]
      exact ih (fun r hr => hL r (List.mem_cons_of_mem p hr)) acc
  unfold calculate_overall_confidence
  simp only
  split_ifs with h0 hz
  · rfl
  · rfl
  · exact absurd (by rw [hfold l hl (0, 0)]) hz

theorem all_space_of_pyStrip_nil {s : Chars} (h : pyStrip s = []) :
    s.all pySpace = true := by
  unfold pyStrip at h
  rw [List.reverse_eq_nil_iff, List.dropWhile_eq_nil_iff] at h
  rw [List.all_eq_true]
  intro x hx
  have hx' : x ∈ s.takeWhile pySpace ++ s.dropWhile pySpace := by
    rw [List.takeWhile_append_dropWhile]
    exact hx
  rcases List.mem_append.1 hx' with h1 | h2
  · exact List.mem_takeWhile_imp h1
  · exact h x (List.mem_reverse.2 h2)

theorem panShapeAt_space :
    ∀ (prev : Option Char) (s : Chars), s.all pySpace = true →
      panShapeAt prev s = none := by
  intro prev s hs
  unfold panShapeAt
  split_ifs with hb
  · rcases s with _ | ⟨a, _ | ⟨b, _ | ⟨c3, _ | ⟨d, _ | ⟨e, _ | ⟨f, _ |
      ⟨g, _ | ⟨h10, _ | ⟨i, _ | ⟨j, rest⟩⟩⟩⟩⟩⟩⟩⟩⟩⟩
    all_goals try rfl
    simp only [List.all_cons, Bool.and_eq_true] at hs
    simp [not_upper_of_space hs.1]
  · rfl

theorem maxI_zero_of_nonpos {x : ℤ} (h : x ≤ 0) : maxI 0 x = 0 := by
  unfold maxI
  split_ifs <;> omega


/-!
## Claim theorems
-/

/-- C1: the claim says a Marksheet result's reported overall confidence is
the importance-weighted mean multiplied by the row-count penalty, with the
penalty recorded in metadata. The code computes the penalty (here
89 → 53 for zero rows, with a full `table_penalty` record) but stores the
*unpenalized* score in the returned result — `overall_confidence` is
written before the penalty block — and the final wholesale
`metadata = {...}` assignment drops the `table_penalty` record; only
`suggest_rescan` sees the penalized value. -/
theorem claim_C1_marksheet_penalty_dropped :
    (process_with_confidence c1Input none none "2026-01-01T00:00:00").overall_confidence
        = 89 ∧
    (process_with_confidence c1Input none none "2026-01-01T00:00:00").confidence = 89 ∧
    (process_with_confidence c1Input none none "2026-01-01T00:00:00").metadata.table_penalty
        = none ∧
    marksheet_table_penalty 89 0 =
      (53, some { applied := true, original_confidence := 89,
                  penalized_confidence := 53,
                  penalty_multiplier := "60% (no subjects)", table_count := 0,
                  reason := "Marksheet has only 0 subjects" }) ∧
    (process_with_confidence c1Input none none "2026-01-01T00:00:00").metadata.suggest_rescan
        = true := by
  with_unfolding_all decide

/-- C2 counterexample: running `process_with_confidence` twice on the very
same extraction result, OCR confidences and image-quality score yields
different byte output, because the result embeds
`datetime.utcnow().isoformat()` (modelled by the `now` argument) in
`metadata.processed_at`. -/
theorem claim_C2_counterexample_timestamp :
    process_with_confidence c1Input none none "2026-02-03T04:05:06" ≠
    process_with_confidence c1Input none none "2026-02-03T04:05:07" := by
  with_unfolding_all decide

/-- C2 amended: the pipeline is deterministic in everything *except* the
`processed_at` wall-clock stamp: erasing that one metadata field makes the
outputs of any two runs on identical inputs equal. -/
theorem claim_C2_amended_deterministic_modulo_timestamp :
    ∀ (input : ExtractionInput) (ocr : Option (List (String × ℚ)))
      (q : Option ℚ) (now₁ now₂ : String),
    eraseTimestamp (process_with_confidence input ocr q now₁) =
    eraseTimestamp (process_with_confidence input ocr q now₂) := by
  intro input ocr q now₁ now₂
  rfl

/-- C4 counterexample: an unresolved (null) schema field does *not* get
confidence 0 — with no OCR or quality signal supplied at all, a null
`name` field is annotated with confidence 15 (the default image-quality
75 enters with weight 0.20), and its value stays null. -/
theorem claim_C4_counterexample_null_confidence :
    (dictGet "name" (process_with_confidence
        { document_type := "PAN", fields := [("name", none)], table := [],
          meta := none } none none "t").fields).map AnnotatedField.confidence
      = some 15 ∧
    (dictGet "name" (process_with_confidence
        { document_type := "PAN", fields := [("name", none)], table := [],
          meta := none } none none "t").fields).map AnnotatedField.value
      = some none ∧ (15 : ℤ) ≠ 0 := by
  with_unfolding_all decide

/-- C5 counterexample: the claim's `[1900, current year]` bound does not
match the code. For `dob = "01/01/2025"` — a well-formed date whose year
is within `[1900, 2026]` (today's year), so the claim's adjustment is 0 —
`validate_cross_fields` emits −30, because the upper bound is hardcoded
to 2024. -/
theorem claim_C5_counterexample_year_2025 :
    dictGet "dob" (validate_cross_fields [("dob", some "01/01/2025")] "Marksheet") =
      some { valid := false, confidence_adjustment := -30,
             reason := "Unrealistic year: 2025" } ∧
    claimedDobAdjustment 2026 "01/01/2025" = 0 ∧ ((-30 : ℤ) ≠ 0) := by
  decide

/-- C6 counterexample: the special-character penalty is capped at −30
(six characters), so the business-rule confidence does not strictly
decrease at every further injection: the base value `"ab"` with six and
with seven injected disallowed characters scores 70 both times. -/
theorem claim_C6_counterexample_penalty_cap :
    calculate_business_rules_confidence "address" (some "ab@#@#@#") = 70 ∧
    calculate_business_rules_confidence "address" (some "ab@#@#@#@") = 70 := by
  decide

set_option maxHeartbeats 1000000 in
/-- The business-rule score of a nonempty, non-blank value decomposes into
100 minus the capped special-character penalty minus the other deductions,
floored at 0. -/
theorem business_decompose (f : String) (v : String) (hne : v.isEmpty = false)
    (hs : (pyStrip v.data).isEmpty = false) :
    calculate_business_rules_confidence f (some v) =
      maxI 0 (100 - bizOtherPens f (pyStrip v.data)
        - minI 30 ((bizSpecialCount (pyStrip v.data) : ℤ) * 5)) := by
  have hlen : ¬((pyStrip v.data).length = 0) := by
    simp only [List.isEmpty_eq_false] at hs
    simpa [List.length_eq_zero] using hs
  unfold calculate_business_rules_confidence bizOtherPens bizLenPen bizCasePen
    bizRepPen bizDigPen bizSpecialCount maxI minI
  simp only [hne, Bool.false_eq_true, if_false, if_neg hlen]
  set w := pyStrip v.data
  set n := (List.filter (fun c => !businessAllowed c) w).length with hn
  set L := w.length with hL
  split_ifs <;> omega

/-- C6 amended: the business-rule confidence is 0 for an empty (or null)
value, and — with all other deduction factors held fixed — it strictly
decreases with each additional disallowed special character *up to the
sixth* (−5 per character) provided the floor at 0 is not hit; from the
sixth injection on the penalty is capped at −30 and the score stays
constant. -/
theorem claim_C6_amended_special_char_monotonicity :
    (∀ f : String, calculate_business_rules_confidence f none = 0 ∧
       calculate_business_rules_confidence f (some "") = 0) ∧
    (∀ (f : String) (v₁ v₂ : String),
       v₁.isEmpty = false → v₂.isEmpty = false →
       (pyStrip v₁.data).isEmpty = false → (pyStrip v₂.data).isEmpty = false →
       bizOtherPens f (pyStrip v₁.data) = bizOtherPens f (pyStrip v₂.data) →
       bizSpecialCount (pyStrip v₁.data) < bizSpecialCount (pyStrip v₂.data) →
       bizSpecialCount (pyStrip v₂.data) ≤ 6 →
       0 ≤ 100 - bizOtherPens f (pyStrip v₂.data)
         - (bizSpecialCount (pyStrip v₂.data) : ℤ) * 5 →
       calculate_business_rules_confidence f (some v₁) >
         calculate_business_rules_confidence f (some v₂)) ∧
    (∀ (f : String) (v₁ v₂ : String),
       v₁.isEmpty = false → v₂.isEmpty = false →
       (pyStrip v₁.data).isEmpty = false → (pyStrip v₂.data).isEmpty = false →
       bizOtherPens f (pyStrip v₁.data) = bizOtherPens f (pyStrip v₂.data) →
       6 ≤ bizSpecialCount (pyStrip v₁.data) →
       6 ≤ bizSpecialCount (pyStrip v₂.data) →
       calculate_business_rules_confidence f (some v₁) =
         calculate_business_rules_confidence f (some v₂)) := by
  refine ⟨fun f => ⟨rfl, rfl⟩, ?_, ?_⟩
  · intro f v₁ v₂ h1 h2 hs1 hs2 hpens hlt hle hfloor
    rw [business_decompose f v₁ h1 hs1, business_decompose f v₂ h2 hs2, hpens]
    unfold maxI minI
    split_ifs <;> omega
  · intro f v₁ v₂ h1 h2 hs1 hs2 hpens h6₁ h6₂
    rw [business_decompose f v₁ h1 hs1, business_decompose f v₂ h2 hs2, hpens]
    unfold maxI minI
    split_ifs <;> omega

/-- On a field map holding only a dob value, `validate_cross_fields`
produces exactly the dob finding determined by `dobPenalty`. -/
theorem validate_dob_singleton (dt : String) (v : String) (hne : v.isEmpty = false)
    {p : ℤ} {r : String} (hpr : dobPenalty v = (p, r)) :
    validate_cross_fields [("dob", some v)] dt =
      [("dob",
        { valid := p == 0,
          confidence_adjustment := if p > 0 then -p else 0,
          reason := if p > 0 then r else "Valid date" })] := by
  unfold validate_cross_fields dobChunk yearChunk cgpaChunk fatherChunk
    genderChunk getValue
  simp [dictGet, hne, pyOr, truthy, hpr]

/-- C5 amended: for every non-null dob value the cross-field adjustment
follows exactly the claim's schedule with the "current year" replaced by
the hardcoded literal 2024 — `claimedDobAdjustment 2024` (−50 bad format
or unparsable parts, −40 day/month out of range, −30 year outside
`[1900, 2024]`, 0 otherwise). -/
theorem claim_C5_amended_dob_adjustment_2024 :
    ∀ (dt : String) (v : String), v.isEmpty = false →
      (dictGet "dob" (validate_cross_fields [("dob", some v)] dt)).map
        CrossFinding.confidence_adjustment = some (claimedDobAdjustment 2024 v) := by
  intro dt v hne
  rcases hpr : dobPenalty v with ⟨p, r⟩
  rw [validate_dob_singleton dt v hne hpr]
  simp only [dictGet, if_pos rfl, Option.map_some]
  refine congrArg some ?_
  show (if p > 0 then -p else 0) = claimedDobAdjustment 2024 v
  unfold dobPenalty at hpr
  unfold claimedDobAdjustment
  by_cases hshape : dobPrefixShape v.data
  · rw [if_pos hshape] at hpr ⊢
    rcases hsp : splitOnCharsKeep isSepDash v.data with _ | ⟨p0, _ | ⟨p1, _ | ⟨p2, rest⟩⟩⟩ <;>
        simp only [hsp] at hpr ⊢
    · cases hpr; decide
    · cases hpr; decide
    · cases hpr; decide
    · rcases h0 : pyIntParse p0 with _ | d <;> simp only [h0] at hpr ⊢
      · cases hpr; decide
      rcases h1 : pyIntParse p1 with _ | m <;> simp only [h1] at hpr ⊢
      · cases hpr; decide
      rcases h2 : pyIntParse p2 with _ | y <;> simp only [h2] at hpr ⊢
      · cases hpr; decide
      by_cases hd : 1 ≤ d ∧ d ≤ 31
      · by_cases hm : 1 ≤ m ∧ m ≤ 12
        · by_cases hy : 1900 ≤ y ∧ y ≤ 2024
          · rw [if_neg (not_not_intro hd), if_neg (not_not_intro hm),
                if_neg (not_not_intro hy)] at hpr
            cases hpr
            rw [if_neg (show ¬(¬(1 ≤ d ∧ d ≤ 31) ∨ ¬(1 ≤ m ∧ m ≤ 12)) by tauto),
                if_neg (not_not_intro hy)]
            decide
          · rw [if_neg (not_not_intro hd), if_neg (not_not_intro hm),
                if_pos hy] at hpr
            cases hpr
            rw [if_neg (show ¬(¬(1 ≤ d ∧ d ≤ 31) ∨ ¬(1 ≤ m ∧ m ≤ 12)) by tauto),
                if_pos hy]
            decide
        · rw [if_neg (not_not_intro hd), if_pos hm] at hpr
          cases hpr
          rw [if_pos (Or.inr hm)]
          decide
      · rw [if_pos hd] at hpr
        cases hpr
        rw [if_pos (Or.inl hd)]
        decide
  · rw [if_neg hshape] at hpr ⊢
    cases hpr
    decide

/-- Witness for the C5 amended theorem at a concrete out-of-range day. -/
theorem claim_C5_amended_witness :
    (dictGet "dob" (validate_cross_fields [("dob", some "99/12/2000")] "PAN")).map
      CrossFinding.confidence_adjustment = some (claimedDobAdjustment 2024 "99/12/2000") ∧
    claimedDobAdjustment 2024 "99/12/2000" = -40 :=
  ⟨claim_C5_amended_dob_adjustment_2024 "PAN" "99/12/2000" (by decide), by decide⟩

/-- C7: pattern confidence is monotone on every field with a format rule
— a strict-format match scores the field's strict score, a loose-only
match its loose score, a non-match its fail score, with
strict > loose > fail — and a null or blank value scores 0. -/
theorem claim_C7_pattern_monotone :
    ∀ f ∈ patternRuleFields, ∀ dt : String,
      calculate_pattern_confidence f none dt = 0 ∧
      calculate_pattern_confidence f (some "") dt = 0 ∧
      patStrictScore f > patLooseScore f ∧ patLooseScore f > patFailScore f ∧
      ∀ v : String, (pyStrip v.data).isEmpty = false →
        (patStrict f (pyStrip v.data) = true →
          calculate_pattern_confidence f (some v) dt = patStrictScore f) ∧
        (patStrict f (pyStrip v.data) = false → patLoose f (pyStrip v.data) = true →
          calculate_pattern_confidence f (some v) dt = patLooseScore f) ∧
        (patStrict f (pyStrip v.data) = false → patLoose f (pyStrip v.data) = false →
          calculate_pattern_confidence f (some v) dt = patFailScore f) := by
  intro f hf dt
  fin_cases hf <;>
    refine ⟨rfl, by with_unfolding_all rfl, by decide, by decide,
      fun v hv => ⟨?_, ?_, ?_⟩⟩ <;>
    intros <;>
    simp_all only [patStrict, patLoose, calculate_pattern_confidence, patternScoreQ,
      Bool.false_eq_true, if_false, if_true, String.reduceEq, ite_true, ite_false,
      false_or, or_false, or_self, Bool.and_eq_true] <;>
    with_unfolding_all decide

/-- Witness for the C7 theorem at concrete PAN values: strict
`"ABCDE1234F"` scores 98, loose `"AB1DE1234F"` scores 70, non-matching
`"hello"` scores 35, and `98 > 70 > 35`. -/
theorem claim_C7_witness :
    calculate_pattern_confidence "pan" (some "ABCDE1234F") "PAN" = patStrictScore "pan" ∧
    calculate_pattern_confidence "pan" (some "AB1DE1234F") "PAN" = patLooseScore "pan" ∧
    calculate_pattern_confidence "pan" (some "hello") "PAN" = patFailScore "pan" ∧
    patStrictScore "pan" > patLooseScore "pan" ∧
    patLooseScore "pan" > patFailScore "pan" ∧
    calculate_pattern_confidence "pan" none "PAN" = 0 := by
  obtain ⟨h0, -, h1, h2, h3⟩ :=
    claim_C7_pattern_monotone "pan" (by decide) "PAN"
  refine ⟨(h3 "ABCDE1234F" (by decide)).1 (by decide), ?_, ?_, h1, h2, h0⟩
  · exact (h3 "AB1DE1234F" (by decide)).2.1 (by decide) (by decide)
  · exact (h3 "hello" (by decide)).2.2 (by decide) (by decide)

theorem datePatternScore_bounds (w : Chars) :
    0 ≤ datePatternScore w ∧ datePatternScore w ≤ 1 := by
  unfold datePatternScore
  refine ⟨?_, ?_⟩ <;> (try simp only) <;> (repeat' split) <;> norm_num

theorem namePatternScore_bounds (w : Chars) :
    0 ≤ namePatternScore w ∧ namePatternScore w ≤ 1 := by
  unfold namePatternScore
  refine ⟨?_, ?_⟩ <;> (try simp only) <;> (repeat' split) <;> norm_num

theorem addressPatternScore_bounds (w : Chars) :
    0 ≤ addressPatternScore w ∧ addressPatternScore w ≤ 1 := by
  unfold addressPatternScore
  refine ⟨?_, ?_⟩ <;> (try simp only) <;> (repeat' split) <;> norm_num

theorem schoolPatternScore_bounds (w : Chars) :
    0 ≤ schoolPatternScore w ∧ schoolPatternScore w ≤ 1 := by
  unfold schoolPatternScore
  refine ⟨?_, ?_⟩ <;> (try simp only) <;> (repeat' split) <;> norm_num

theorem cgpaPatternScore_bounds (w : Chars) :
    0 ≤ cgpaPatternScore w ∧ cgpaPatternScore w ≤ 1 := by
  unfold cgpaPatternScore
  refine ⟨?_, ?_⟩ <;> (try simp only) <;> (repeat' split) <;> norm_num

theorem patternScoreQ_bounds (f : String) (w : Chars) :
    0 ≤ patternScoreQ f w ∧ patternScoreQ f w ≤ 1 := by
  unfold patternScoreQ
  by_cases h1 : f = "aadhaar_number"
  · rw [if_pos h1]; constructor <;> split_ifs <;> norm_num
  rw [if_neg h1]
  by_cases h2 : f = "pan"
  · rw [if_pos h2]; constructor <;> split_ifs <;> norm_num
  rw [if_neg h2]
  by_cases h3 : f = "voter_id"
  · rw [if_pos h3]; constructor <;> split_ifs <;> norm_num
  rw [if_neg h3]
  by_cases h4 : f = "dl_number"
  · rw [if_pos h4]; constructor <;> split_ifs <;> norm_num
  rw [if_neg h4]
  by_cases h5 : f = "mobile"
  · rw [if_pos h5]; constructor <;> split_ifs <;> norm_num
  rw [if_neg h5]
  by_cases h6 : f = "roll_no"
  · rw [if_pos h6]; constructor <;> split_ifs <;> norm_num
  rw [if_neg h6]
  by_cases h7 : f = "dob" ∨ f = "issue_date" ∨ f = "valid_till"
  · rw [if_pos h7]
    constructor <;> split_ifs <;>
      first
      | exact (datePatternScore_bounds w).1
      | exact (datePatternScore_bounds w).2
      | norm_num
  rw [if_neg h7]
  by_cases h8 : f = "gender"
  · rw [if_pos h8]; constructor <;> split_ifs <;> norm_num
  rw [if_neg h8]
  by_cases h9 : f = "name" ∨ f = "father_name" ∨ f = "mother_name" ∨
      f = "student_name"
  · rw [if_pos h9]; exact namePatternScore_bounds w
  rw [if_neg h9]
  by_cases h10 : f = "address"
  · rw [if_pos h10]; exact addressPatternScore_bounds w
  rw [if_neg h10]
  by_cases h11 : f = "school_name"
  · rw [if_pos h11]; exact schoolPatternScore_bounds w
  rw [if_neg h11]
  by_cases h12 : f = "cgpa"
  · rw [if_pos h12]; exact cgpaPatternScore_bounds w
  rw [if_neg h12]
  by_cases h13 : f = "year"
  · rw [if_pos h13]; constructor <;> split_ifs <;> norm_num
  rw [if_neg h13]
  constructor <;> split_ifs <;> norm_num

theorem pattern_conf_in_range (f : String) (v : Option String) (dt : String) :
    0 ≤ calculate_pattern_confidence f v dt ∧
      calculate_pattern_confidence f v dt ≤ 100 := by
  rcases v with _ | s
  · exact ⟨le_refl 0, (by norm_num : (0 : ℤ) ≤ 100)⟩
  · show 0 ≤ (if (pyStrip s.data).isEmpty = true then 0
        else pyRound (patternScoreQ f (pyStrip s.data) * 100)) ∧
      (if (pyStrip s.data).isEmpty = true then 0
        else pyRound (patternScoreQ f (pyStrip s.data) * 100)) ≤ 100
    obtain ⟨h0, h1⟩ := patternScoreQ_bounds f (pyStrip s.data)
    split_ifs
    · exact ⟨le_refl 0, by norm_num⟩
    · refine ⟨pyRound_nonneg (by positivity), pyRound_le (B := 100) ?_⟩
      push_cast
      nlinarith

theorem bizOtherPens_nonneg (f : String) (s : Chars) : 0 ≤ bizOtherPens f s := by
  unfold bizOtherPens bizLenPen bizCasePen bizRepPen bizDigPen
  split_ifs <;> omega

theorem business_conf_in_range (f : String) (v : Option String) :
    0 ≤ calculate_business_rules_confidence f v ∧
      calculate_business_rules_confidence f v ≤ 100 := by
  have hz : ((0 : ℤ) ≤ 0 ∧ (0 : ℤ) ≤ 100) := by norm_num
  rcases v with _ | s
  · exact hz
  · rcases hne : s.isEmpty with _ | _
    · rcases hs : (pyStrip s.data).isEmpty with _ | _
      · rw [business_decompose f s hne hs]
        have h1 := bizOtherPens_nonneg f (pyStrip s.data)
        unfold maxI minI
        split_ifs <;> omega
      · have hlen : (pyStrip s.data).length = 0 :=
          List.length_eq_zero.2 (List.isEmpty_iff.1 hs)
        have he : calculate_business_rules_confidence f (some s) = 0 := by
          simp [calculate_business_rules_confidence, hne, hlen]
        rw [he]
        exact hz
    · have he : calculate_business_rules_confidence f (some s) = 0 := by
        simp [calculate_business_rules_confidence, hne]
      rw [he]
      exact hz

theorem dictGet_getD_nonneg (l : List (String × ℚ)) (n : String) (d : ℚ)
    (hd : 0 ≤ d) (hl : ∀ p ∈ l, 0 ≤ p.2) : 0 ≤ (dictGet n l).getD d := by
  induction l with
  | nil => simpa [dictGet]
  | cons p rest ih =>
    unfold dictGet
    split
    · exact hl p (List.mem_cons_self p rest)
    · exact ih (fun q hq => hl q (List.mem_cons_of_mem p hq))

theorem importance_weight_nonneg (n : String) :
    0 ≤ (dictGet n importance_weights).getD 1 := by
  refine dictGet_getD_nonneg _ n 1 (by norm_num) ?_
  intro p hp
  unfold importance_weights at hp
  fin_cases hp <;> norm_num

theorem dobPenalty_nonneg (v : String) : 0 ≤ (dobPenalty v).1 := by
  unfold dobPenalty
  by_cases hs : dobPrefixShape v.data
  · rw [if_pos hs]
    simp only
    repeat' split
    all_goals norm_num
  · rw [if_neg hs]
    norm_num

theorem mem_singleton_pair {k : String} {f : CrossFinding} {p : String × CrossFinding}
    (hp : p ∈ [(k, f)]) : p.2 = f := by
  rcases List.mem_singleton.1 hp with rfl
  rfl

theorem dobChunk_adjustment_nonpos (fields : List (String × Option String)) :
    ∀ p ∈ dobChunk fields, p.2.confidence_adjustment ≤ 0 := by
  intro p hp
  unfold dobChunk at hp
  rcases hd : getValue "dob" fields with _ | d <;> simp only [hd] at hp
  · simp at hp
  · split at hp
    · simp at hp
    · rcases hpr : dobPenalty d with ⟨pen, r⟩
      have hpen : 0 ≤ pen := by
        have hn := dobPenalty_nonneg d
        rw [hpr] at hn
        exact hn
      simp only [hpr] at hp
      rw [mem_singleton_pair hp]
      simp only
      split_ifs <;> omega

theorem yearChunk_adjustment_nonpos (fields : List (String × Option String)) :
    ∀ p ∈ yearChunk fields, p.2.confidence_adjustment ≤ 0 := by
  intro p hp
  unfold yearChunk at hp
  split at hp
  · split at hp
    · simp at hp
    · split at hp
      · split at hp <;> rw [mem_singleton_pair hp] <;> norm_num
      · rw [mem_singleton_pair hp]
        norm_num
  · simp at hp

theorem cgpaChunk_adjustment_nonpos (fields : List (String × Option String)) :
    ∀ p ∈ cgpaChunk fields, p.2.confidence_adjustment ≤ 0 := by
  intro p hp
  unfold cgpaChunk at hp
  split at hp
  · split at hp
    · simp at hp
    · split at hp
      · split at hp <;> rw [mem_singleton_pair hp] <;> norm_num
      · rw [mem_singleton_pair hp]
        norm_num
  · simp at hp

theorem fatherChunk_adjustment_nonpos (fields : List (String × Option String)) :
    ∀ p ∈ fatherChunk fields, p.2.confidence_adjustment ≤ 0 := by
  intro p hp
  unfold fatherChunk at hp
  simp only at hp
  repeat' split at hp
  all_goals first
    | (rw [mem_singleton_pair hp]; norm_num)
    | simp at hp

theorem genderChunk_adjustment_nonpos (fields : List (String × Option String)) :
    ∀ p ∈ genderChunk fields, p.2.confidence_adjustment ≤ 0 := by
  intro p hp
  unfold genderChunk at hp
  repeat' split at hp
  all_goals first
    | (rw [mem_singleton_pair hp]; norm_num)
    | simp at hp

theorem validate_adjustment_nonpos (fields : List (String × Option String))
    (dt : String) :
    ∀ p ∈ validate_cross_fields fields dt, p.2.confidence_adjustment ≤ 0 := by
  intro p hp
  unfold validate_cross_fields at hp
  simp only [List.mem_append] at hp
  rcases hp with ((((hp | hp) | hp) | hp) | hp)
  · exact dobChunk_adjustment_nonpos fields p hp
  · exact yearChunk_adjustment_nonpos fields p hp
  · exact cgpaChunk_adjustment_nonpos fields p hp
  · exact fatherChunk_adjustment_nonpos fields p hp
  · exact genderChunk_adjustment_nonpos fields p hp

theorem weighted_sum_round_in_range {T P Q B : ℚ}
    (hT0 : 0 ≤ T) (hT1 : T ≤ 100) (hP0 : 0 ≤ P) (hP1 : P ≤ 100)
    (hQ0 : 0 ≤ Q) (hQ1 : Q ≤ 100) (hB0 : 0 ≤ B) (hB1 : B ≤ 100) :
    0 ≤ pyRound (T * (40 / 100) + P * (30 / 100) + Q * (20 / 100) +
        B * (10 / 100)) ∧
      pyRound (T * (40 / 100) + P * (30 / 100) + Q * (20 / 100) +
        B * (10 / 100)) ≤ 100 := by
  constructor
  · exact pyRound_nonneg (by positivity)
  · refine pyRound_le (B := 100) ?_
    push_cast
    linarith

theorem hybrid_final_in_range (f : String) (v : Option String) (dt : String)
    (tess : Option ℚ) (q : Option ℚ) (meta : Option Meta)
    (htess : ∀ t, tess = some t → 0 ≤ t ∧ t ≤ 100)
    (hq : ∀ x, q = some x → 0 ≤ x ∧ x ≤ 100)
    (hmeta : ∀ m a, meta = some m → m.averageOcr = some a →
      0 ≤ a ∧ a ≤ 100) :
    0 ≤ (calculate_hybrid_confidence f v dt tess q meta).final_confidence ∧
      (calculate_hybrid_confidence f v dt tess q meta).final_confidence
        ≤ 100 := by
  obtain ⟨hp0, hp1⟩ := pattern_conf_in_range f v dt
  obtain ⟨hb0, hb1⟩ := business_conf_in_range f v
  have hp0q : (0 : ℚ) ≤ (calculate_pattern_confidence f v dt : ℚ) := by
    exact_mod_cast hp0
  have hp1q : ((calculate_pattern_confidence f v dt : ℚ)) ≤ 100 := by
    exact_mod_cast hp1
  have hb0q : (0 : ℚ) ≤ (calculate_business_rules_confidence f v : ℚ) := by
    exact_mod_cast hb0
  have hb1q : ((calculate_business_rules_confidence f v : ℚ)) ≤ 100 := by
    exact_mod_cast hb1
  unfold calculate_hybrid_confidence
  simp only
  refine weighted_sum_round_in_range ?_ ?_ hp0q hp1q ?_ ?_ hb0q hb1q
  · rcases hm : meta.bind Meta.averageOcr with _ | a
    · rcases tess with _ | t
      · exact hp0q
      · exact (htess t rfl).1
    · obtain ⟨m, hm1, hm2⟩ := Option.bind_eq_some.1 hm
      exact (hmeta m a hm1 hm2).1
  · rcases hm : meta.bind Meta.averageOcr with _ | a
    · rcases tess with _ | t
      · exact hp1q
      · exact (htess t rfl).2
    · obtain ⟨m, hm1, hm2⟩ := Option.bind_eq_some.1 hm
      exact (hmeta m a hm1 hm2).2
  · rcases q with _ | x
    · exact (by norm_num : (0 : ℚ) ≤ 75)
    · exact (hq x rfl).1
  · rcases q with _ | x
    · exact (by norm_num : (75 : ℚ) ≤ 100)
    · exact (hq x rfl).2

theorem annotated_conf_in_range (fields : List (String × Option String))
    (dt : String) (ocr : Option (List (String × ℚ))) (q : Option ℚ)
    (meta : Option Meta)
    (hq : ∀ x, q = some x → 0 ≤ x ∧ x ≤ 100)
    (hmeta : ∀ m a, meta = some m → m.averageOcr = some a →
      0 ≤ a ∧ a ≤ 100)
    (hocr : ∀ l, ocr = some l → ∀ p ∈ l, 0 ≤ p.2 ∧ p.2 ≤ 100) :
    ∀ p ∈ add_confidence_to_fields fields dt ocr q meta,
      0 ≤ p.2.confidence ∧ p.2.confidence ≤ 100 := by
  intro p hp
  unfold add_confidence_to_fields at hp
  simp only [List.mem_map] at hp
  obtain ⟨⟨fn, fv⟩, hmem, rfl⟩ := hp
  simp only
  have htess : ∀ t, Option.bind ocr (dictGet fn) = some t →
      0 ≤ t ∧ t ≤ 100 := by
    intro t ht
    obtain ⟨l, hl1, hl2⟩ := Option.bind_eq_some.1 ht
    exact hocr l hl1 (fn, t) (dictGet_mem hl2)
  have hh := hybrid_final_in_range fn fv dt (Option.bind ocr (dictGet fn))
    q meta htess hq hmeta
  have hadj : ((dictGet fn (validate_cross_fields fields dt)).map
      CrossFinding.confidence_adjustment).getD 0 ≤ 0 := by
    rcases hcv : dictGet fn (validate_cross_fields fields dt) with _ | cf
    · simp
    · simpa using validate_adjustment_nonpos fields dt (fn, cf)
        (dictGet_mem hcv)
  have hh0 : 0 ≤ (calculate_hybrid_confidence fn fv dt
      (ocr.bind fun a => dictGet fn a) q meta).final_confidence := hh.1
  have hh1 : (calculate_hybrid_confidence fn fv dt
      (ocr.bind fun a => dictGet fn a) q meta).final_confidence ≤ 100 := hh.2
  constructor <;> (unfold maxI; split_ifs <;> omega)

theorem overall_fold_bounds (l : List (String × AnnotatedField)) :
    ∀ acc : ℚ × ℚ,
      (∀ p ∈ l, 0 ≤ p.2.confidence ∧ p.2.confidence ≤ 100) →
      0 ≤ acc.2 → 0 ≤ acc.1 → acc.1 ≤ 100 * acc.2 →
      0 ≤ (l.foldl overallStep acc).2 ∧
        0 ≤ (l.foldl overallStep acc).1 ∧
        (l.foldl overallStep acc).1 ≤ 100 * (l.foldl overallStep acc).2 := by
  induction l with
  | nil =>
    intro acc _ h2 h1 h12
    exact ⟨h2, h1, h12⟩
  | cons p rest ih =>
    intro acc hl h2 h1 h12
    simp only [List.foldl_cons]
    have hstep : 0 ≤ (overallStep acc p).2 ∧ 0 ≤ (overallStep acc p).1 ∧
        (overallStep acc p).1 ≤ 100 * (overallStep acc p).2 := by
      obtain ⟨hc0, hc1⟩ := hl p (List.mem_cons_self p rest)
      have hw := importance_weight_nonneg p.1
      have hc0q : (0 : ℚ) ≤ (p.2.confidence : ℚ) := by exact_mod_cast hc0
      have hc1q : ((p.2.confidence : ℚ)) ≤ 100 := by exact_mod_cast hc1
      unfold overallStep
      split_ifs
      · simp only
        have hcw : (p.2.confidence : ℚ) *
              ((dictGet p.1 importance_weights).getD 1) ≤
            100 * ((dictGet p.1 importance_weights).getD 1) :=
          mul_le_mul_of_nonneg_right hc1q hw
        have hcw0 : 0 ≤ (p.2.confidence : ℚ) *
            ((dictGet p.1 importance_weights).getD 1) :=
          mul_nonneg hc0q hw
        refine ⟨by linarith, by linarith, by linarith⟩
      · exact ⟨h2, h1, h12⟩
    exact ih (overallStep acc p) (fun r hr => hl r (List.mem_cons_of_mem p hr))
      hstep.1 hstep.2.1 hstep.2.2

theorem overall_conf_in_range (l : List (String × AnnotatedField))
    (hl : ∀ p ∈ l, 0 ≤ p.2.confidence ∧ p.2.confidence ≤ 100) :
    0 ≤ calculate_overall_confidence l ∧
      calculate_overall_confidence l ≤ 100 := by
  unfold calculate_overall_confidence
  simp only
  split_ifs with h0 hz
  · norm_num
  · norm_num
  · obtain ⟨h2, h1, h12⟩ :=
      overall_fold_bounds l (0, 0) hl (by norm_num) (by norm_num) (by norm_num)
    have h2pos : 0 < (l.foldl overallStep (0, 0)).2 :=
      lt_of_le_of_ne h2 (Ne.symm hz)
    constructor
    · exact pyRound_nonneg (div_nonneg h1 h2)
    · refine pyRound_le (B := 100) ?_
      push_cast
      rw [div_le_iff h2pos]
      linarith

/-- Witness for the C6 amended theorem: a strict decrease from one to two
injected characters (95 > 90), saturation at six vs seven (70 = 70), and
the empty-value zero. -/
theorem claim_C6_amended_witness :
    calculate_business_rules_confidence "address" (some "ab@") >
      calculate_business_rules_confidence "address" (some "ab@#") ∧
    calculate_business_rules_confidence "address" (some "ab@#@#@#") =
      calculate_business_rules_confidence "address" (some "ab@#@#@#@") ∧
    calculate_business_rules_confidence "name" none = 0 :=
  ⟨claim_C6_amended_special_char_monotonicity.2.1 "address" "ab@" "ab@#"
     (by decide) (by decide) (by decide) (by decide) (by decide) (by decide)
     (by decide) (by decide),
   claim_C6_amended_special_char_monotonicity.2.2 "address" "ab@#@#@#" "ab@#@#@#@"
     (by decide) (by decide) (by decide) (by decide) (by decide) (by decide)
     (by decide),
   (claim_C6_amended_special_char_monotonicity.1 "name").1⟩

/-- C8 counterexample: a text containing a PAN-shaped identifier and no
Aadhaar, election or driving keywords is nevertheless classified as
Marksheet, because marksheet keywords push the v2 score of Marksheet to
≥ 70 and the combiner then never consults v1. -/
theorem claim_C8_counterexample_marksheet_keywords :
    classify_document_smart c8Text = "Marksheet" ∧
    panShapeFound (pyUpper c8Text) = true ∧
    containsSub "AADHAAR".data (pyUpper c8Text) = false ∧
    containsSub "AADHAR".data (pyUpper c8Text) = false ∧
    containsSub "UIDAI".data (pyUpper c8Text) = false ∧
    containsSub "ELECTION".data (pyUpper c8Text) = false ∧
    containsSub "ELECTOR".data (pyUpper c8Text) = false ∧
    containsSub "DRIVING".data (pyUpper c8Text) = false ∧
    containsSub "TRANSPORT".data (pyUpper c8Text) = false ∧
    ("Marksheet" : String) ≠ "PAN" := by
  with_unfolding_all decide

/-- C10: provided every supplied input signal (page-level OCR-confidence
average, per-field OCR confidences, image-quality score) lies in [0, 100],
every confidence the pipeline produces stays in [0, 100]: the
business-rule component, the pattern component, the fused per-field hybrid
confidence, the cross-field-adjusted per-field final confidence
(adjustments only subtract and the sum is clamped at 0), and the overall
document confidence (0 when no field is truthy, so the division is never
by zero). -/
theorem claim_C10_confidence_ranges
    (f : String) (v : Option String) (dt : String)
    (tess : Option ℚ) (q : Option ℚ) (meta : Option Meta)
    (fields : List (String × Option String))
    (ocr : Option (List (String × ℚ)))
    (htess : ∀ t, tess = some t → 0 ≤ t ∧ t ≤ 100)
    (hq : ∀ x, q = some x → 0 ≤ x ∧ x ≤ 100)
    (hmeta : ∀ m a, meta = some m → m.averageOcr = some a →
      0 ≤ a ∧ a ≤ 100)
    (hocr : ∀ l, ocr = some l → ∀ p ∈ l, 0 ≤ p.2 ∧ p.2 ≤ 100) :
    (0 ≤ calculate_business_rules_confidence f v ∧
      calculate_business_rules_confidence f v ≤ 100) ∧
    (0 ≤ calculate_pattern_confidence f v dt ∧
      calculate_pattern_confidence f v dt ≤ 100) ∧
    (0 ≤ (calculate_hybrid_confidence f v dt tess q meta).final_confidence ∧
      (calculate_hybrid_confidence f v dt tess q meta).final_confidence
        ≤ 100) ∧
    (∀ p ∈ add_confidence_to_fields fields dt ocr q meta,
      0 ≤ p.2.confidence ∧ p.2.confidence ≤ 100) ∧
    (0 ≤ calculate_overall_confidence
        (add_confidence_to_fields fields dt ocr q meta) ∧
      calculate_overall_confidence
        (add_confidence_to_fields fields dt ocr q meta) ≤ 100) := by
  have h4 := annotated_conf_in_range fields dt ocr q meta hq hmeta hocr
  exact ⟨business_conf_in_range f v, pattern_conf_in_range f v dt,
    hybrid_final_in_range f v dt tess q meta htess hq hmeta,
    h4, overall_conf_in_range _ h4⟩

/-- Witness for C10 at concrete in-range inputs: a supplied OCR average of
80, a tesseract confidence of 88, an image quality of 90 and a per-field
OCR-confidence table, over a one-field document. -/
theorem claim_C10_witness :
    (0 ≤ calculate_business_rules_confidence "name" (some "John Doe") ∧
      calculate_business_rules_confidence "name" (some "John Doe") ≤ 100) ∧
    (0 ≤ calculate_pattern_confidence "name" (some "John Doe") "PAN" ∧
      calculate_pattern_confidence "name" (some "John Doe") "PAN" ≤ 100) ∧
    (0 ≤ (calculate_hybrid_confidence "name" (some "John Doe") "PAN"
        (some 88) (some 90) (some ⟨some 80⟩)).final_confidence ∧
      (calculate_hybrid_confidence "name" (some "John Doe") "PAN"
        (some 88) (some 90) (some ⟨some 80⟩)).final_confidence ≤ 100) ∧
    (∀ p ∈ add_confidence_to_fields [("name", some "John Doe")] "PAN"
        (some [("name", (88 : ℚ))]) (some 90) (some ⟨some 80⟩),
      0 ≤ p.2.confidence ∧ p.2.confidence ≤ 100) ∧
    (0 ≤ calculate_overall_confidence
        (add_confidence_to_fields [("name", some "John Doe")] "PAN"
          (some [("name", (88 : ℚ))]) (some 90) (some ⟨some 80⟩)) ∧
      calculate_overall_confidence
        (add_confidence_to_fields [("name", some "John Doe")] "PAN"
          (some [("name", (88 : ℚ))]) (some 90) (some ⟨some 80⟩)) ≤ 100) :=
  claim_C10_confidence_ranges "name" (some "John Doe") "PAN"
    (some 88) (some 90) (some ⟨some 80⟩)
    [("name", some "John Doe")] (some [("name", (88 : ℚ))])
    (by
      intro t ht
      obtain rfl := Option.some.inj ht
      norm_num)
    (by
      intro x hx
      obtain rfl := Option.some.inj hx
      norm_num)
    (by
      intro m a hm ha
      obtain rfl := Option.some.inj hm
      obtain rfl : (80 : ℚ) = a := Option.some.inj ha
      norm_num)
    (by
      intro l hl
      obtain rfl := Option.some.inj hl
      intro p hp
      rcases List.mem_singleton.1 hp with rfl
      exact ⟨by norm_num, by norm_num⟩)

/-- C3: for every input text (and, for the voter extractor, every YOLO
crop input), each of the five document-type extractors returns a field
map whose key list is exactly the fixed schema of its type — keys are
initialised to `none` up front and only ever overwritten in place, so no
key is ever omitted. -/
theorem claim_C3_extractors_return_full_schema
    (text : Chars) (yolo : Option (List (List YoloBox))) :
    keysOf (extract_aadhaar_fields text) =
      ["aadhaar_number", "name", "dob", "gender", "father_name",
       "address", "mobile"] ∧
    keysOf (extract_voter_fields text yolo) =
      ["voter_id", "name", "father_name", "husband_name", "dob",
       "gender"] ∧
    keysOf (extract_dl_fields text) =
      ["dl_number", "name", "dob", "issue_date", "valid_till",
       "father_name", "address"] ∧
    keysOf (extract_marksheet_fields text) =
      ["student_name", "father_name", "mother_name", "school_name",
       "dob", "roll_no", "year", "cgpa"] ∧
    keysOf (extract_pan_fields text) =
      ["pan", "name", "father_name", "dob"] :=
  ⟨keys_extract_aadhaar text, keys_extract_voter text yolo,
   keys_extract_dl text, keys_extract_marksheet text,
   keys_extract_pan text⟩

/-- C4 (amended): in the annotated output, every input field is present
with its original key and value (so the full schema survives annotation),
and every null-valued field appears as a null placeholder whose
confidence is not 0 but `nullFieldConfidence` — the clamped round of
0.4·OCR-fallback + 0.2·image-quality (15 under the defaults), since the
quality term defaults to 75 even for absent fields. Stated for field
lists without duplicate keys. -/
theorem claim_C4_amended_null_placeholder
    (fields : List (String × Option String)) (dt : String)
    (ocr : Option (List (String × ℚ))) (q : Option ℚ) (meta : Option Meta)
    (hnd : (keysOf fields).Nodup) :
    ((add_confidence_to_fields fields dt ocr q meta).map
        (fun p => (p.1, p.2.value)) = fields) ∧
    (∀ p ∈ add_confidence_to_fields fields dt ocr q meta,
      p.2.value = none →
      p.2.confidence = nullFieldConfidence p.1 ocr q meta) :=
  ⟨map_value_add_confidence fields dt ocr q meta,
   null_field_confidence fields dt ocr q meta hnd⟩

/-- Witness for the amended C4 theorem on a concrete two-field input with
one unresolved field. -/
theorem claim_C4_amended_witness :
    (keysOf [("name", (none : Option String)),
      ("dob", some "01/01/2000")]).Nodup ∧
    (((add_confidence_to_fields
        [("name", none), ("dob", some "01/01/2000")] "PAN" none none
        none).map (fun p => (p.1, p.2.value)) =
      [("name", none), ("dob", some "01/01/2000")]) ∧
     (∀ p ∈ add_confidence_to_fields
        [("name", none), ("dob", some "01/01/2000")] "PAN" none none none,
       p.2.value = none →
       p.2.confidence = nullFieldConfidence p.1 none none none)) :=
  ⟨by decide,
   claim_C4_amended_null_placeholder
     [("name", none), ("dob", some "01/01/2000")] "PAN" none none none
     (by decide)⟩

/-- C9: on an input text that is empty or consists only of whitespace,
both classifiers return Unknown (v2 with confidence 0 and an empty score
table), every extractor returns its untouched all-null schema (the voter
extractor with no YOLO crops), and the overall-confidence aggregator
returns 0 on any annotated field list in which no field has a non-null,
non-whitespace value — the weighted division is never reached. All
operations are total functions of their inputs. -/
theorem claim_C9_whitespace_inert (text : Chars)
    (htext : text.all pySpace = true)
    (l : List (String × AnnotatedField))
    (hl : ∀ p ∈ l, truthyStripped p.2.value = false) :
    classify_document_type_v2 text =
      { document_type := "Unknown", confidence := 0, scores := [] } ∧
    classify_document_smart text = "Unknown" ∧
    extract_aadhaar_fields text = aadhaarSchema ∧
    extract_voter_fields text none = voterSchema ∧
    extract_dl_fields text = dlSchema ∧
    extract_marksheet_fields text = marksheetSchema ∧
    extract_pan_fields text = panSchema ∧
    calculate_overall_confidence l = 0 :=
  ⟨classify_v2_space text htext, classify_smart_space text htext,
   extract_aadhaar_space text htext, extract_voter_space text htext,
   extract_dl_space text htext, extract_marksheet_space text htext,
   extract_pan_space text htext, overall_zero_of_all_falsy l hl⟩

/-- Witness for C9 on the concrete whitespace text `"  \n\t "` and a
one-entry annotated field list whose only value is null. -/
theorem claim_C9_witness :
    ("  \n\t ".data.all pySpace = true) ∧
    (∀ p ∈ [("name",
        ({ value := none, confidence := 15,
           breakdown := { tesseract_ocr := 0, pattern_match := 0,
                          image_quality := 75, business_rules := 0 },
           threshold := 80, status := "FAIL", cross_validation := none } :
          AnnotatedField))], truthyStripped p.2.value = false) ∧
    (classify_document_type_v2 "  \n\t ".data =
        { document_type := "Unknown", confidence := 0, scores := [] } ∧
      classify_document_smart "  \n\t ".data = "Unknown" ∧
      extract_aadhaar_fields "  \n\t ".data = aadhaarSchema ∧
      extract_voter_fields "  \n\t ".data none = voterSchema ∧
      extract_dl_fields "  \n\t ".data = dlSchema ∧
      extract_marksheet_fields "  \n\t ".data = marksheetSchema ∧
      extract_pan_fields "  \n\t ".data = panSchema ∧
      calculate_overall_confidence [("name",
        { value := none, confidence := 15,
          breakdown := { tesseract_ocr := 0, pattern_match := 0,
                         image_quality := 75, business_rules := 0 },
          threshold := 80, status := "FAIL",
          cross_validation := none })] = 0) :=
  ⟨by decide, by decide,
   claim_C9_whitespace_inert "  \n\t ".data (by decide) _ (by decide)⟩

/-- C8 (amended): the combined classifier returns PAN for a text that
contains a PAN-shaped identifier (after uppercasing) and none of the
other document types' score triggers — the Aadhaar triggers (12-digit
number, UIDAI, AADHAAR/AADHAR, UNIQUE IDENTIFICATION, GOVERNMENT OF
INDIA, S/O-D/O-C/O, VID), the voter triggers (ID shape, ELECTION
COMMISSION, ELECTORAL, ELECTOR, EPIC NO, PART NO), the driving-licence
triggers (DL shape, DRIVING LICENCE/LICENSE, TRANSPORT, VALID TILL,
MOTOR VEHICLE, LMV), the marksheet triggers (grade token, BOARD OF,
EXAMINATION, MARKS, MARKSHEET, school token, ROLL NO, SUBJECT) and the
bare ELECTION / DRIVING keywords. The original claim's keyword-absence
list (Aadhaar, election, driving only) is insufficient: marksheet
keywords can push the v2 Marksheet score past the 70-confidence bar and
override the PAN shape, as the counterexample shows. -/
theorem claim_C8_amended_pan_classification (text : Chars)
    (h0 : panShapeFound (pyUpper text) = true)
    (hA1 : aadhaar12Found (pyUpper text) = false)
    (hA2 : containsIn "UIDAI".data 500 (pyUpper text) = false)
    (hA3 : containsSub "AADHAAR".data (pyUpper text) = false)
    (hA4 : containsSub "AADHAR".data (pyUpper text) = false)
    (hA5 : containsSub "UNIQUE IDENTIFICATION".data (pyUpper text) = false)
    (hA6 : containsSub "GOVERNMENT OF INDIA".data (pyUpper text) = false)
    (hA7 : soDoCoFound (pyUpper text) = false)
    (hA8 : containsSub "VID".data (pyUpper text) = false)
    (hE : containsSub "ELECTION".data (pyUpper text) = false)
    (hDr : containsSub "DRIVING".data (pyUpper text) = false)
    (hV1 : voterShapeFound (pyUpper text) = false)
    (hV2 : containsIn "ELECTION COMMISSION".data 500 (pyUpper text) = false)
    (hV3 : containsIn "ELECTORAL".data 500 (pyUpper text) = false)
    (hV4 : containsSub "ELECTOR".data (pyUpper text) = false)
    (hV5 : twoWordTokFound "EPIC".data "NO".data (pyUpper text) = false)
    (hV6 : twoWordTokFound "PART".data "NO".data (pyUpper text) = false)
    (hD1 : dlShapeFound (pyUpper text) = false)
    (hD2 : containsIn "DRIVING LICENCE".data 500 (pyUpper text) = false)
    (hD3 : containsIn "DRIVING LICENSE".data 500 (pyUpper text) = false)
    (hD4 : containsIn "TRANSPORT".data 500 (pyUpper text) = false)
    (hD5 : validTillFound (pyUpper text) = false)
    (hD6 : containsSub "MOTOR VEHICLE".data (pyUpper text) = false)
    (hD7 : lmvTokFound (pyUpper text) = false)
    (hM1 : gradeTokFound (pyUpper text) = false)
    (hM2 : containsIn "BOARD OF".data 500 (pyUpper text) = false)
    (hM3 : containsIn "EXAMINATION".data 500 (pyUpper text) = false)
    (hM4 : containsSub "MARKS".data (pyUpper text) = false)
    (hM5 : containsSub "MARKSHEET".data (pyUpper text) = false)
    (hM6 : schoolTokFound (pyUpper text) = false)
    (hM7 : twoWordTokFound "ROLL".data "NO".data (pyUpper text) = false)
    (hM8 : containsSub "SUBJECT".data (pyUpper text) = false) :
    classify_document_smart text = "PAN" := by
  have hne : text.isEmpty = false := by
    cases he : text.isEmpty with
    | false => rfl
    | true =>
      obtain rfl := List.isEmpty_iff.1 he
      exact absurd h0 (by decide)
  have hst : (pyStrip text).isEmpty = false := by
    cases hstv : (pyStrip text).isEmpty with
    | false => rfl
    | true =>
      have hall : text.all pySpace = true :=
        all_space_of_pyStrip_nil (List.isEmpty_iff.1 hstv)
      have hfalse : panShapeFound (pyUpper text) = false := by
        unfold panShapeFound
        rw [scan_none_of_all_space panShapeAt_space _ (pyUpper_space text hall)]
        rfl
      rw [hfalse] at h0
      cases h0
  have hcond : (text.isEmpty || (pyStrip text).isEmpty) = false := by
    rw [hne, hst]
    rfl
  have hv1 : classify_document_type text = "PAN" := by
    unfold classify_document_type
    rw [hcond]
    simp [h0]
  have hza : maxI 0 (aadhaarScoreV2 (pyUpper text)) = 0 := by
    apply maxI_zero_of_nonpos
    unfold aadhaarScoreV2
    rw [hA1, hA2, hA3, hA4, hA5, hA6, hA7, hA8]
    simp only [Bool.or_false, Bool.false_or, Bool.false_eq_true, if_false]
    split_ifs <;> norm_num
  have hzv : maxI 0 (voterScoreV2 (pyUpper text)) = 0 := by
    apply maxI_zero_of_nonpos
    unfold voterScoreV2
    rw [hV1, hV2, hV3, hV4, hV5, hV6]
    simp only [Bool.or_false, Bool.false_or, Bool.false_eq_true, if_false]
    split_ifs <;> norm_num
  have hzd : maxI 0 (dlScoreV2 (pyUpper text)) = 0 := by
    apply maxI_zero_of_nonpos
    unfold dlScoreV2
    rw [hD1, hD2, hD3, hD4, hD5, hD6, hD7]
    simp only [Bool.or_false, Bool.false_or, Bool.false_eq_true, if_false]
    split_ifs <;> norm_num
  have hzm : maxI 0 (marksheetScoreV2 (pyUpper text)) = 0 := by
    apply maxI_zero_of_nonpos
    unfold marksheetScoreV2
    rw [hM1, hM2, hM3, hM4, hM5, hM6, hM7, hM8]
    simp only [Bool.or_false, Bool.false_or, Bool.false_eq_true, if_false]
    split_ifs <;> norm_num
  have hp30 : 30 ≤ panScoreV2 (pyUpper text) := by
    unfold panScoreV2
    rw [h0, hA3, hE, hDr]
    simp only [Bool.or_false, Bool.false_or, Bool.false_eq_true, if_false,
      if_true]
    split_ifs <;> omega
  have hP30 : 30 ≤ maxI 0 (panScoreV2 (pyUpper text)) := by
    unfold maxI
    split_ifs <;> omega
  have hv2 : (classify_document_type_v2 text).document_type = "PAN" := by
    unfold classify_document_type_v2
    rw [hcond]
    simp only [Bool.false_eq_true, if_false]
    rw [hza, hzv, hzd, hzm]
    have hPne : ¬(maxI 0 (panScoreV2 (pyUpper text)) = 0) := by omega
    have hallf : ([("PAN", maxI 0 (panScoreV2 (pyUpper text))),
        ("Aadhaar", (0 : ℤ)), ("Voter ID", (0 : ℤ)),
        ("Driving Licence", (0 : ℤ)), ("Marksheet", (0 : ℤ))].all
          (fun p => p.2 = 0)) = false := by
      simp [List.all_cons, hPne]
    rw [hallf]
    simp only [Bool.false_eq_true, if_false]
    have hng : ¬((0 : ℤ) > maxI 0 (panScoreV2 (pyUpper text))) := by omega
    have hbest : bestOf [("PAN", maxI 0 (panScoreV2 (pyUpper text))),
        ("Aadhaar", (0 : ℤ)), ("Voter ID", (0 : ℤ)),
        ("Driving Licence", (0 : ℤ)), ("Marksheet", (0 : ℤ))] =
        ("PAN", maxI 0 (panScoreV2 (pyUpper text))) := by
      simp [bestOf, hng]
    rw [hbest]
  unfold classify_document_smart
  by_cases hcf : (classify_document_type_v2 text).confidence ≥ 70
  · rw [if_pos hcf]
    exact hv2
  · rw [if_neg hcf]
    simp [hv1]

/-- Witness for the amended C8 theorem on the concrete text
`"ABCDE1234F PERMANENT ACCOUNT"`. -/
theorem claim_C8_amended_witness :
    panShapeFound (pyUpper "ABCDE1234F PERMANENT ACCOUNT".data) = true ∧
    classify_document_smart "ABCDE1234F PERMANENT ACCOUNT".data = "PAN" :=
  ⟨by decide,
   claim_C8_amended_pan_classification "ABCDE1234F PERMANENT ACCOUNT".data
     (by decide) (by decide) (by decide) (by decide) (by decide) (by decide)
     (by decide) (by decide) (by decide) (by decide) (by decide) (by decide)
     (by decide) (by decide) (by decide) (by decide) (by decide) (by decide)
     (by decide) (by decide) (by decide) (by decide) (by decide) (by decide)
     (by decide) (by decide) (by decide) (by decide) (by decide) (by decide)
     (by decide) (by decide)⟩

end OCRX
